import Mathlib

/-!
Verification development for the flow-graph generation engine of the rs-vis
repository (Sankey data generator: `selectData`, `buildSankeyData`,
`generateSankeyData` in `src/app/lib/sankey-generator.ts`).

Modelling conventions:

* Every JS number manipulated by the engine is either an integer amount of
  currency or the literal sentinel `0.001` (and sums/differences/minima of
  such values).  We therefore model numbers exactly as integer counts of
  thousandths (`Money := Int`): a source value `v` is represented by
  `v * 1000`, and the sentinel `0.001` is represented by `1`.  All source
  arithmetic (`+`, `-`, `Math.min`, comparisons with `0`) is preserved
  exactly by this encoding, with none of the floating-point rounding the
  source is exposed to.
* JS `Map` objects are modelled as association lists in insertion order
  (`Map.set` updates in place or appends, `Map.get` looks up the key,
  iteration follows insertion order), matching the JS semantics.
* `Array.prototype.sort` with a comparator `(a, b) => key(b) - key(a)` is a
  stable descending sort by `key`; it is modelled by `List.insertionSort`
  with the relation `key b ≤ key a`, which is stable and sorts descending.
* Node identifiers are template strings in the source
  (`` `ministry-budget-${id}` `` and the like); since the numeric ids never
  collide with the fixed words used in the templates, the identifiers are
  modelled by the inductive type `NodeId` whose constructors are documented
  with the exact source string.
* Fields that only ever flow into the presentational `details` payloads of
  nodes and links (bureau, fiscal year, budget sub-amounts, corporate
  numbers, contract metadata, node colors) are omitted: they never influence
  the selection, the node/link identities, or any emitted value.
-/

/-- Exact model of the JS numbers used by the engine: an integer count of
thousandths of a currency unit. -/
abbrev Money := Int

/-- A whole-currency amount (the data files only contain whole amounts). -/
def yen (n : Int) : Money := 1000 * n

/-- The sentinel dummy value `0.001` used by the graph builder. -/
def dummyValue : Money := 1

/-- The reserved recipient name (the literal 'その他' in the source). -/
def otherName : String := "その他"

/-- Sum of a numeric field over a list (models `reduce((sum, x) => sum + f x, 0)`). -/
def sumBy (f : α → Money) (l : List α) : Money := (l.map f).sum

/-! JS `Map` model: association list in insertion order. -/

/-- Model of `Map.get` (returns `undefined` as `none`). -/
def mapGet [DecidableEq κ] (m : List (κ × β)) (k : κ) : Option β :=
  (m.find? (fun e => e.1 = k)).map (·.2)

/-- Model of `map.get(k) || 0` / `map.get(k) ?? d`. -/
def mapGetD [DecidableEq κ] (m : List (κ × β)) (k : κ) (d : β) : β :=
  (mapGet m k).getD d

/-- Model of `Map.has`. -/
def mapMem [DecidableEq κ] (m : List (κ × β)) (k : κ) : Bool :=
  m.any (fun e => e.1 = k)

/-- Model of `Map.set`: update in place if the key is present, else append. -/
def mapSet [DecidableEq κ] (m : List (κ × β)) (k : κ) (v : β) : List (κ × β) :=
  match m with
  | [] => [(k, v)]
  | e :: rest => if e.1 = k then (k, v) :: rest else e :: mapSet rest k v

/-- Model of `Array.prototype.sort` with comparator `(a, b) => key(b) - key(a)`:
a stable descending sort by `key` (`List.insertionSort` is stable). -/
def sortByDesc (key : α → Money) (l : List α) : List α :=
  l.insertionSort (fun a b => key b ≤ key a)

/-! The record-store schema, restricted to the fields the engine reads
(see `src/types/structured.ts`). -/

/-- A ministry node of `budgetTree.ministries`.  `bureauCount` models
`bureaus.length`, the only use the engine makes of `bureaus`. -/
structure MinistryNode where
  id : Int
  name : String
  totalBudget : Money
  bureauCount : Nat
deriving DecidableEq, Repr

/-- A row of `data.budgets` (fields the engine reads). -/
structure BudgetRecord where
  projectId : Int
  projectName : String
  ministry : String
  totalBudget : Money
  totalSpendingAmount : Money
  spendingIds : List Int
deriving DecidableEq, Repr

/-- One `(projectId, amount)` contribution inside a spending record. -/
structure SpendingProject where
  projectId : Int
  amount : Money
deriving DecidableEq, Repr

/-- A row of `data.spendings` (fields the engine reads). -/
structure SpendingRecord where
  spendingId : Int
  spendingName : String
  totalSpendingAmount : Money
  projectCount : Int
  projects : List SpendingProject
deriving DecidableEq, Repr

/-- The slice of `data.metadata` the engine reads. -/
structure StructuredMetadata where
  totalProjects : Int
  totalRecipients : Int
  totalBudgetAmount : Money
deriving DecidableEq, Repr

/-- The record store (`RS2024StructuredData`) as consumed by the engine:
`ministries` is `budgetTree.ministries`, `statisticsByMinistry` is
`statistics.byMinistry` restricted to its `totalSpending` field (the only
field read). -/
structure RS2024StructuredData where
  ministries : List MinistryNode
  budgets : List BudgetRecord
  spendings : List SpendingRecord
  statisticsByMinistry : List (String × Money)
  metadata : StructuredMetadata
deriving DecidableEq, Repr

/-- The `{ name, id, totalBudget, bureauCount }` tuples stored in
`DataSelection.topMinistries`. -/
structure TopMinistry where
  name : String
  id : Int
  totalBudget : Money
  bureauCount : Nat
deriving DecidableEq, Repr

/-- The `DataSelection` interface returned by `selectData`. -/
structure DataSelection where
  topMinistries : List TopMinistry
  otherMinistriesBudget : Money
  otherMinistriesSpending : Money
  topProjects : List BudgetRecord
  otherProjectsBudgetByMinistry : List (String × Money)
  otherProjectsSpendingByMinistry : List (String × Money)
  topSpendings : List SpendingRecord
  otherSpendingsByProject : List (Int × Money)
  otherNamedSpendingByProject : List (Int × Money)
  otherProjectsSpendingInSpendingView : Option Money := none
  otherProjectsSpendingByMinistryInSpendingView : Option (List (String × Money)) := none
  otherMinistriesSpendingInSpendingView : Option Money := none
  hasMoreProjects : Option Bool := none
  ministryTotalProjects : Option Nat := none
deriving DecidableEq, Repr

/-- A selection with every container empty (the initial values of the local
variables of `selectData`). -/
def emptySelection : DataSelection :=
  { topMinistries := []
    otherMinistriesBudget := 0
    otherMinistriesSpending := 0
    topProjects := []
    otherProjectsBudgetByMinistry := []
    otherProjectsSpendingByMinistry := []
    topSpendings := []
    otherSpendingsByProject := []
    otherNamedSpendingByProject := [] }

/-- The options record handed to `selectData` (all numeric fields already
defaulted by `generateSankeyData`). -/
structure SelectOptions where
  offset : Nat
  projectOffset : Nat
  limit : Nat
  projectLimit : Nat
  spendingLimit : Nat
  targetMinistryName : Option String := none
  targetProjectName : Option String := none
  targetRecipientName : Option String := none
  drilldownLevel : Nat := 0
deriving DecidableEq, Repr

/-- JS truthiness of an optional string (`undefined` and `''` are falsy). -/
def truthy (o : Option String) : Bool := o.getD "" ≠ ""

/-! The Selector (`selectData`, source lines 1127-1641 of the generator).
Each view-mode branch of the source function is one definition here. -/

/-- Spending view (reverse flow) branch of `selectData` (source lines
1163-1289).  `targetRecipientName` is the truthy target string. -/
def selectSpendingView (data : RS2024StructuredData) (o : SelectOptions)
    (targetRecipientName : String) : DataSelection :=
  let recipientSpendings := data.spendings.filter (fun s => s.spendingName = targetRecipientName)
  if recipientSpendings.length = 0 then
    emptySelection
  else
    let topSpendings := recipientSpendings
    let amountByProject : List (Int × Money) :=
      recipientSpendings.foldl (fun m s =>
        s.projects.foldl (fun m p => mapSet m p.projectId (mapGetD m p.projectId 0 + p.amount)) m) []
    -- `contributingProjectIds` holds exactly the keys of `amountByProject`
    -- (both are populated by the same double loop), so membership in the
    -- set is modelled by membership in the map.
    let allContributingProjects := data.budgets.filter (fun b => mapMem amountByProject b.projectId)
    let sortedProjects :=
      sortByDesc (fun b => mapGetD amountByProject b.projectId 0) allContributingProjects
    let candidateTopProjects := (sortedProjects.drop o.projectOffset).take o.projectLimit
    let allMinistrySpending : List (String × Money) :=
      sortedProjects.foldl (fun m p =>
        mapSet m p.ministry (mapGetD m p.ministry 0 + mapGetD amountByProject p.projectId 0)) []
    let sortedMinistries := sortByDesc (fun e => e.2) allMinistrySpending
    let topMinistryNames := (sortedMinistries.take o.limit).map (fun e => e.1)
    let topProjects := candidateTopProjects.filter (fun p => p.ministry ∈ topMinistryNames)
    -- the two loops over the previous pages and the following pages share
    -- their accumulators, so they are modelled as one fold over the
    -- concatenation (same iteration order as the source).
    let step := fun (acc : Money × List (String × Money)) (p : BudgetRecord) =>
      if p.ministry ∈ topMinistryNames then
        let amount := mapGetD amountByProject p.projectId 0
        (acc.1 + amount, mapSet acc.2 p.ministry (mapGetD acc.2 p.ministry 0 + amount))
      else acc
    let accOther :=
      ((sortedProjects.take o.projectOffset) ++
        (sortedProjects.drop (o.projectOffset + o.projectLimit))).foldl step (0, [])
    let otherProjectsAmount := accOther.1
    let otherProjectsByMinistry := accOther.2
    let nonTopMinistrySpending := sumBy (fun e => e.2) (sortedMinistries.drop o.limit)
    let topMinistries := (data.ministries.filter (fun m => m.name ∈ topMinistryNames)).map
      (fun m => { name := m.name, id := m.id, totalBudget := m.totalBudget,
                  bureauCount := m.bureauCount : TopMinistry })
    { emptySelection with
      topSpendings := topSpendings
      topProjects := topProjects
      topMinistries := topMinistries
      otherProjectsSpendingInSpendingView :=
        if otherProjectsAmount > 0 then some otherProjectsAmount else none
      otherProjectsSpendingByMinistryInSpendingView :=
        if otherProjectsAmount > 0 then some otherProjectsByMinistry else none
      otherMinistriesSpendingInSpendingView :=
        if nonTopMinistrySpending > 0 then some nonTopMinistrySpending else none
      hasMoreProjects := some (decide (sortedProjects.length > o.projectOffset + o.projectLimit)) }

/-- The "Aggregate Other-named spendings" loop shared by the Ministry and
Project views (source lines 1488-1502): for every project of the data set,
the total amount it pays to recipients literally named 'その他'. -/
def otherNamedSpendingByProjectAll (data : RS2024StructuredData) : List (Int × Money) :=
  data.budgets.foldl (fun m project =>
    let projectSpendings :=
      (data.spendings.filter (fun s => project.spendingIds.contains s.spendingId)).filter
        (fun s => s.spendingName = otherName)
    let otherNamedTotal := sumBy
      (fun s => ((s.projects.find? (fun p => p.projectId = project.projectId)).map (·.amount)).getD 0)
      projectSpendings
    if otherNamedTotal > 0 then mapSet m project.projectId otherNamedTotal else m) []

/-- Ministry view branch of `selectData` (source lines 1315-1326 and
1504-1586). `ministry` is the record found for the target name. -/
def selectMinistryView (data : RS2024StructuredData) (o : SelectOptions)
    (targetMinistryName : String) (ministry : MinistryNode) : DataSelection :=
  let topMinistries : List TopMinistry :=
    [{ name := ministry.name, id := ministry.id, totalBudget := ministry.totalBudget,
       bureauCount := ministry.bureauCount }]
  let otherNamedSpendingByProject := otherNamedSpendingByProjectAll data
  let ministryProjects := data.budgets.filter (fun p => p.ministry = targetMinistryName)
  let sortedProjects := sortByDesc (fun b => b.totalBudget) ministryProjects
  let ministryTotalProjects := sortedProjects.length
  let topProjects := (sortedProjects.drop o.projectOffset).take o.projectLimit
  let otherBudget := sumBy (fun p => p.totalBudget)
    (sortedProjects.drop (o.projectOffset + o.projectLimit))
  let otherProjectsBudgetByMinistry :=
    if otherBudget > 0 then [(targetMinistryName, otherBudget)] else []
  let otherSpending := sumBy (fun p => p.totalSpendingAmount)
    (sortedProjects.drop (o.projectOffset + o.projectLimit))
  let otherProjectsSpendingByMinistry :=
    if otherSpending > 0 then [(targetMinistryName, otherSpending)] else []
  let currentPageProjectIds := topProjects.map (fun p => p.projectId)
  let currentPageSpendingMap := data.spendings.foldl (fun m spending =>
    if spending.spendingName = otherName then m
    else
      let totalFromCurrentPage := sumBy
        (fun proj => if currentPageProjectIds.contains proj.projectId then proj.amount else 0)
        spending.projects
      if totalFromCurrentPage > 0 then mapSet m spending.spendingId totalFromCurrentPage else m) []
  let sortedSpendings := sortByDesc (fun e => e.2) currentPageSpendingMap
  let topSpendingIds := (sortedSpendings.take o.spendingLimit).map (fun e => e.1)
  let topSpendings := data.spendings.filter (fun s => topSpendingIds.contains s.spendingId)
  let otherSpendingsByProject := topProjects.foldl (fun m project =>
    let projectSpendings :=
      (data.spendings.filter (fun s => project.spendingIds.contains s.spendingId)).filter
        (fun s => s.spendingName ≠ otherName)
    let otherSpendingTotal := sumBy
      (fun s =>
        if topSpendingIds.contains s.spendingId then 0
        else ((s.projects.find? (fun p => p.projectId = project.projectId)).map (·.amount)).getD 0)
      projectSpendings
    if otherSpendingTotal > 0 then mapSet m project.projectId otherSpendingTotal else m) []
  { emptySelection with
    topMinistries := topMinistries
    topProjects := topProjects
    otherProjectsBudgetByMinistry := otherProjectsBudgetByMinistry
    otherProjectsSpendingByMinistry := otherProjectsSpendingByMinistry
    topSpendings := topSpendings
    otherSpendingsByProject := otherSpendingsByProject
    otherNamedSpendingByProject := otherNamedSpendingByProject
    ministryTotalProjects := some ministryTotalProjects }

/-- Project view branch of `selectData` (source lines 1291-1313 and
1588-1622). `project` is the record found for the target name. -/
def selectProjectView (data : RS2024StructuredData) (o : SelectOptions)
    (project : BudgetRecord) : DataSelection :=
  let topProjects := [project]
  let topMinistries : List TopMinistry :=
    match data.ministries.find? (fun m => m.name = project.ministry) with
    | some m => [{ name := m.name, id := m.id, totalBudget := m.totalBudget,
                   bureauCount := m.bureauCount }]
    | none => []
  let otherNamedSpendingByProject := otherNamedSpendingByProjectAll data
  -- `topSpendingIds` is a JS Set used only for membership tests, so the
  -- duplicates a plain list may hold are irrelevant.
  let accSp := topProjects.foldl (fun (acc : List Int × List (Int × Money)) project =>
    let projectSpendings :=
      ((data.spendings.filter (fun s => project.spendingIds.contains s.spendingId)).filter
        (fun s => s.spendingName ≠ otherName)).map
        (fun s =>
          (s, ((s.projects.find? (fun p => p.projectId = project.projectId)).map (·.amount)).getD 0))
    let sortedSpendings := sortByDesc (fun e => e.2) projectSpendings
    let topIds := acc.1 ++ (sortedSpendings.take o.spendingLimit).map (fun e => e.1.spendingId)
    let otherSpendingTotal := sumBy (fun e => e.2) (sortedSpendings.drop o.spendingLimit)
    (topIds,
      if otherSpendingTotal > 0 then mapSet acc.2 project.projectId otherSpendingTotal else acc.2))
    ([], [])
  let topSpendingIds := accSp.1
  let otherSpendingsByProject := accSp.2
  let topSpendings := data.spendings.filter (fun s => topSpendingIds.contains s.spendingId)
  { emptySelection with
    topMinistries := topMinistries
    topProjects := topProjects
    topSpendings := topSpendings
    otherSpendingsByProject := otherSpendingsByProject
    otherNamedSpendingByProject := otherNamedSpendingByProject }

/-- Step 1 of the Global view branch (source lines 1336-1388): the kept
ministries (drilldown-aware), the leftover-ministries budget, and the
leftover-ministries spending. -/
def selectGlobalMinistries (data : RS2024StructuredData) (o : SelectOptions) :
    List TopMinistry × Money × Money :=
  let allMinistries := sortByDesc (fun m => m.totalBudget) data.ministries
  if o.drilldownLevel > 0 then
    let excludeCount := o.limit * o.drilldownLevel
    let remainingMinistries := allMinistries.drop excludeCount
    let topMinistries := (remainingMinistries.take o.limit).map
      (fun m => { name := m.name, id := m.id, totalBudget := m.totalBudget,
                  bureauCount := m.bureauCount : TopMinistry })
    let afterPage := remainingMinistries.drop o.limit
    let otherMinistriesBudget := sumBy (fun m => m.totalBudget) afterPage
    let otherMinistriesSpending :=
      sumBy (fun m => mapGetD data.statisticsByMinistry m.name 0) afterPage
    (topMinistries, otherMinistriesBudget, otherMinistriesSpending)
  else
    let topMinistries := (allMinistries.take o.limit).map
      (fun m => { name := m.name, id := m.id, totalBudget := m.totalBudget,
                  bureauCount := m.bureauCount : TopMinistry })
    let otherMinistries := allMinistries.drop o.limit
    let otherMinistriesBudget := sumBy (fun m => m.totalBudget) otherMinistries
    let otherMinistriesSpending :=
      sumBy (fun m => mapGetD data.statisticsByMinistry m.name 0) otherMinistries
    (topMinistries, otherMinistriesBudget, otherMinistriesSpending)

/-- Step 3 of the Global view branch (source lines 1398-1412): spending per
recipient counted over the projects of the selected ministries only,
skipping recipients named 'その他'. -/
def recipientSpendingFromSelectedMinistriesMap (data : RS2024StructuredData)
    (projectsFromSelectedMinistries : List BudgetRecord) : List (Int × Money) :=
  data.spendings.foldl (fun m spending =>
    if spending.spendingName = otherName then m
    else
      let totalFromSelected := sumBy
        (fun p =>
          if (projectsFromSelectedMinistries.find? (fun b => b.projectId = p.projectId)).isSome
          then p.amount else 0)
        spending.projects
      if totalFromSelected > 0 then mapSet m spending.spendingId totalFromSelected else m) []

/-- Step 4 of the Global view branch (source lines 1429-1447): each selected
ministry project's total spending to the kept top recipients. -/
def projectSpendingToTopRecipientsMap (data : RS2024StructuredData)
    (projectsFromSelectedMinistries : List BudgetRecord) (topRecipientIds : List Int) :
    List (Int × Money) :=
  projectsFromSelectedMinistries.foldl (fun m project =>
    let projectSpendings :=
      data.spendings.filter (fun s => s.projects.any (fun p => p.projectId = project.projectId))
    let spendingToTop := sumBy
      (fun spending =>
        if topRecipientIds.contains spending.spendingId then
          ((spending.projects.find? (fun p => p.projectId = project.projectId)).map (·.amount)).getD 0
        else 0)
      projectSpendings
    if spendingToTop > 0 then mapSet m project.projectId spendingToTop else m) []

/-- Final step of the Global view branch (source lines 1461-1480): the
per-ministry leftover budget and leftover spending buckets. -/
def globalOtherBuckets (data : RS2024StructuredData) (topMinistries : List TopMinistry)
    (topProjects : List BudgetRecord) : List (String × Money) × List (String × Money) :=
  topMinistries.foldl
    (fun (acc : List (String × Money) × List (String × Money)) ministry =>
      let ministryProjects := topProjects.filter (fun p => p.ministry = ministry.name)
      let usedBudget := sumBy (fun p => p.totalBudget) ministryProjects
      let otherBudget := ministry.totalBudget - usedBudget
      let accB := if otherBudget > 0 then mapSet acc.1 ministry.name otherBudget else acc.1
      let totalSpending := mapGetD data.statisticsByMinistry ministry.name 0
      let usedSpending := sumBy (fun p => p.totalSpendingAmount) ministryProjects
      let otherSpending := totalSpending - usedSpending
      let accS := if otherSpending > 0 then mapSet acc.2 ministry.name otherSpending else acc.2
      (accB, accS)) ([], [])

/-- Global view branch of `selectData` (source lines 1331-1481). -/
def selectGlobalView (data : RS2024StructuredData) (o : SelectOptions) : DataSelection :=
  let core := selectGlobalMinistries data o
  let topMinistries := core.1
  let selectedMinistryNames := topMinistries.map (fun m => m.name)
  let projectsFromSelectedMinistries :=
    data.budgets.filter (fun b => selectedMinistryNames.contains b.ministry)
  let recipientSpendingFromSelectedMinistries :=
    recipientSpendingFromSelectedMinistriesMap data projectsFromSelectedMinistries
  let allRecipients :=
    sortByDesc (fun s => mapGetD recipientSpendingFromSelectedMinistries s.spendingId 0)
      (data.spendings.filter (fun s => mapMem recipientSpendingFromSelectedMinistries s.spendingId))
  let topRecipients := allRecipients.take o.spendingLimit
  let topRecipientIds := topRecipients.map (fun r => r.spendingId)
  let projectSpendingToTopRecipients :=
    projectSpendingToTopRecipientsMap data projectsFromSelectedMinistries topRecipientIds
  let topProjects :=
    (sortByDesc (fun b => mapGetD projectSpendingToTopRecipients b.projectId 0)
      (projectsFromSelectedMinistries.filter
        (fun b => mapMem projectSpendingToTopRecipients b.projectId))).take o.spendingLimit
  let perMinistry := globalOtherBuckets data topMinistries topProjects
  { emptySelection with
    topMinistries := topMinistries
    otherMinistriesBudget := core.2.1
    otherMinistriesSpending := core.2.2
    topProjects := topProjects
    otherProjectsBudgetByMinistry := perMinistry.1
    otherProjectsSpendingByMinistry := perMinistry.2
    topSpendings := topRecipients }

/-- The Selector `selectData`: dispatch on the (truthy) target fields in the
order of the source branches; the Ministry and Project views throw on a
missing record, the Spending view silently proceeds with an empty
selection. -/
def selectData (data : RS2024StructuredData) (o : SelectOptions) :
    Except String DataSelection :=
  if truthy o.targetRecipientName then
    .ok (selectSpendingView data o (o.targetRecipientName.getD ""))
  else if truthy o.targetProjectName then
    match data.budgets.find? (fun b => b.projectName = o.targetProjectName.getD "") with
    | none => .error ("Project not found: " ++ o.targetProjectName.getD "")
    | some project => .ok (selectProjectView data o project)
  else if truthy o.targetMinistryName then
    match data.ministries.find? (fun m => m.name = o.targetMinistryName.getD "") with
    | none => .error ("Ministry not found: " ++ o.targetMinistryName.getD "")
    | some ministry => .ok (selectMinistryView data o (o.targetMinistryName.getD "") ministry)
  else
    .ok (selectGlobalView data o)

/-- The record store as it stands after `selectData` returns: the Global
branch sorts `data.budgetTree.ministries` in place (source line 1336-1337,
`Array.prototype.sort` mutates); every other branch only reads the store. -/
def storeAfterSelectData (data : RS2024StructuredData) (o : SelectOptions) :
    RS2024StructuredData :=
  if truthy o.targetRecipientName || truthy o.targetProjectName || truthy o.targetMinistryName then
    data
  else
    { data with ministries := sortByDesc (fun m => m.totalBudget) data.ministries }

/-! The Graph Builder (`buildSankeyData`, source lines 1643-2855). -/

/-- Node identifiers.  The source uses template strings; each constructor is
documented with the exact string it stands for (numeric ids never collide
with the fixed words of the templates). -/
inductive NodeId where
  | totalBudget                               -- 'total-budget'
  | ministryBudget (id : Int)                 -- 'ministry-budget-' ++ id
  | ministryBudgetOther                       -- 'ministry-budget-other'
  | projectBudget (id : Int)                  -- 'project-budget-' ++ id
  | projectBudgetOther (ministryId : Int)     -- 'project-budget-other-' ++ ministryId
  | projectBudgetOtherGlobal                  -- 'project-budget-other-global'
  | projectSpending (id : Int)                -- 'project-spending-' ++ id
  | projectSpendingOther (ministryId : Int)   -- 'project-spending-other-' ++ ministryId
  | projectSpendingOtherGlobal                -- 'project-spending-other-global'
  | recipient (id : Int)                      -- 'recipient-' ++ id
  | recipientRoot                             -- 'recipient-root'
  | recipientOtherNamed                       -- 'recipient-other-named'
  | recipientOtherAggregated                  -- 'recipient-other-aggregated'
  | recipientNoSpending                       -- 'recipient-no-spending'
  | projectBudgetOtherSpendingView            -- 'project-budget-other-spending-view'
  | projectSpendingOtherSpendingView          -- 'project-spending-other-spending-view'
  | ministryBudgetOtherSpendingView           -- 'ministry-budget-other-spending-view'
  | projectBudgetOtherMinistrySV              -- 'project-budget-other-ministry-spending-view'
  | projectSpendingOtherMinistrySV            -- 'project-spending-other-ministry-spending-view'
deriving DecidableEq, Repr

/-- The `type` field of a node. -/
inductive NodeKind where
  | ministryBudget | projectBudget | projectSpending | recipient
deriving DecidableEq, Repr

/-- A Sankey node (presentational `details` payloads omitted). -/
structure SankeyNode where
  id : NodeId
  name : String
  type : NodeKind
  value : Money
  originalId : Option Int := none
deriving DecidableEq, Repr

/-- A Sankey link (presentational `details` payloads omitted). -/
structure SankeyLink where
  source : NodeId
  target : NodeId
  value : Money
deriving DecidableEq, Repr

/-- The `{ nodes, links }` pair returned by the builder. -/
structure SankeyData where
  nodes : List SankeyNode
  links : List SankeyLink
deriving DecidableEq, Repr

/-- The options record handed to `buildSankeyData`. -/
structure BuildOptions where
  offset : Nat
  targetMinistryName : Option String := none
  targetProjectName : Option String := none
  targetRecipientName : Option String := none
  ministryLimit : Nat
  projectLimit : Nat
  spendingLimit : Nat
  drilldownLevel : Nat := 0
deriving DecidableEq, Repr

/-- `isGlobalView` of the source (line 1962). -/
def isGlobalView (o : BuildOptions) : Bool :=
  !truthy o.targetMinistryName && !truthy o.targetProjectName && !truthy o.targetRecipientName

/-- The amount a project contributes to the target recipient in the spending
view: the source repeatedly runs
`for s of topSpendings: p = s.projects.find(...); if (p) amount += p.amount`. -/
def spendingAmountTo (topSpendings : List SpendingRecord) (projectId : Int) : Money :=
  sumBy (fun s => ((s.projects.find? (fun p => p.projectId = projectId)).map (·.amount)).getD 0)
    topSpendings

/-- Projects of the spending view with a positive contribution to the
target recipient (the `if (amount > 0)` guards of source lines 1691, 1728). -/
def svPosProjects (selection : DataSelection) : List BudgetRecord :=
  selection.topProjects.filter
    (fun p => spendingAmountTo selection.topSpendings p.projectId > 0)

/-- Column 2 of the spending view (source lines 1682-1716): one
project-spending node per positively contributing project. -/
def svProjectSpendingNodes (selection : DataSelection) : List SankeyNode :=
  (svPosProjects selection).map (fun p =>
    { id := .projectSpending p.projectId, name := p.projectName, type := .projectSpending,
      value := spendingAmountTo selection.topSpendings p.projectId,
      originalId := some p.projectId })

/-- The project-spending → recipient links of the spending view. -/
def svLinksSpendingToRecipient (selection : DataSelection) : List SankeyLink :=
  (svPosProjects selection).map (fun p =>
    { source := .projectSpending p.projectId, target := .recipientRoot,
      value := spendingAmountTo selection.topSpendings p.projectId })

/-- Column 1 of the spending view (source lines 1718-1759): project-budget
nodes under the same positivity guard. -/
def svProjectBudgetNodes (selection : DataSelection) : List SankeyNode :=
  (svPosProjects selection).map (fun p =>
    { id := .projectBudget p.projectId, name := p.projectName, type := .projectBudget,
      value := p.totalBudget, originalId := some p.projectId })

/-- The budget → spending links of the spending view (`min` of budget and
contribution, the sentinel if that is not positive). -/
def svLinksBudgetToSpending (selection : DataSelection) : List SankeyLink :=
  (svPosProjects selection).map (fun p =>
    let linkValue := min p.totalBudget (spendingAmountTo selection.topSpendings p.projectId)
    { source := .projectBudget p.projectId, target := .projectSpending p.projectId,
      value := if linkValue > 0 then linkValue else dummyValue })

/-- The ministry → project-budget links of the spending view (source lines
1763-1778): one link per kept project of each kept ministry, with NO
positivity guard on the contribution (the budget gets the sentinel when 0). -/
def svLinksMinistryToBudget (selection : DataSelection) : List SankeyLink :=
  selection.topMinistries.flatMap (fun ministry =>
    (selection.topProjects.filter (fun p => p.ministry = ministry.name)).map
      (fun (p : BudgetRecord) =>
      { source := .ministryBudget ministry.id, target := .projectBudget p.projectId,
        value := if p.totalBudget > 0 then p.totalBudget else dummyValue }))

/-- Column 0 of the spending view (source lines 1780-1793): ministry-budget
nodes, always created, sentinel-valued when the summed budget is 0. -/
def svMinistryBudgetNodes (selection : DataSelection) : List SankeyNode :=
  selection.topMinistries.map (fun ministry =>
    let mb := sumBy (fun p => p.totalBudget)
      (selection.topProjects.filter (fun p => p.ministry = ministry.name))
    { id := .ministryBudget ministry.id, name := ministry.name, type := .ministryBudget,
      value := if mb > 0 then mb else dummyValue, originalId := some ministry.id })

/-- The beyond-top-N-projects nodes of the spending view (source 1812-1880). -/
def svOtherProjectsNodes (selection : DataSelection) (o : BuildOptions) : List SankeyNode :=
  let otherProjectsSpending := selection.otherProjectsSpendingInSpendingView.getD 0
  if otherProjectsSpending > 0 then
    [{ id := .projectBudgetOtherSpendingView, name := s!"事業(Top{o.projectLimit}以外)",
       type := .projectBudget, value := otherProjectsSpending },
     { id := .projectSpendingOtherSpendingView, name := s!"事業(Top{o.projectLimit}以外)",
       type := .projectSpending, value := otherProjectsSpending }]
  else []

/-- The beyond-top-N-projects links of the spending view. -/
def svOtherProjectsLinks (selection : DataSelection) : List SankeyLink :=
  let otherProjectsSpending := selection.otherProjectsSpendingInSpendingView.getD 0
  if otherProjectsSpending > 0 then
    (match selection.otherProjectsSpendingByMinistryInSpendingView with
     | some m => m.filterMap (fun (e : String × Money) =>
         match selection.topMinistries.find? (fun t => t.name = e.1) with
         | some ministry =>
           if e.2 > 0 then
             some { source := .ministryBudget ministry.id,
                    target := .projectBudgetOtherSpendingView, value := e.2 }
           else none
         | none => none)
     | none => []) ++
    [{ source := .projectBudgetOtherSpendingView, target := .projectSpendingOtherSpendingView,
       value := otherProjectsSpending },
     { source := .projectSpendingOtherSpendingView, target := .recipientRoot,
       value := otherProjectsSpending }]
  else []

/-- The beyond-top-N-ministries nodes of the spending view (source 1882-1954). -/
def svOtherMinistriesNodes (selection : DataSelection) (o : BuildOptions) : List SankeyNode :=
  let oms := selection.otherMinistriesSpendingInSpendingView.getD 0
  if oms > 0 then
    [{ id := .ministryBudgetOtherSpendingView, name := s!"府省庁(Top{o.ministryLimit}以外)",
       type := .ministryBudget, value := oms },
     { id := .projectBudgetOtherMinistrySV, name := s!"事業(Top{o.ministryLimit}以外府省庁)",
       type := .projectBudget, value := oms },
     { id := .projectSpendingOtherMinistrySV, name := s!"事業(Top{o.ministryLimit}以外府省庁)",
       type := .projectSpending, value := oms }]
  else []

/-- The beyond-top-N-ministries links of the spending view. -/
def svOtherMinistriesLinks (selection : DataSelection) : List SankeyLink :=
  let oms := selection.otherMinistriesSpendingInSpendingView.getD 0
  if oms > 0 then
    [{ source := .ministryBudgetOtherSpendingView, target := .projectBudgetOtherMinistrySV,
       value := oms },
     { source := .projectBudgetOtherMinistrySV, target := .projectSpendingOtherMinistrySV,
       value := oms },
     { source := .projectSpendingOtherMinistrySV, target := .recipientRoot, value := oms }]
  else []

/-- The recipient root node of the spending view (source lines 1796-1806). -/
def svRecipientRootNode (selection : DataSelection) (targetRecipientName : String) : SankeyNode :=
  { id := .recipientRoot, name := targetRecipientName, type := .recipient,
    value := sumBy (fun p => spendingAmountTo selection.topSpendings p.projectId)
      (svPosProjects selection) }

/-- Spending view of `buildSankeyData` (source lines 1676-1957).  This
branch returns early and is therefore NOT subject to the final pruning
pass.  Nodes and links are listed in source push order. -/
def buildSpendingView (selection : DataSelection) (o : BuildOptions)
    (targetRecipientName : String) : SankeyData :=
  { nodes := svRecipientRootNode selection targetRecipientName ::
      svProjectSpendingNodes selection ++ svProjectBudgetNodes selection ++
      svMinistryBudgetNodes selection ++ svOtherProjectsNodes selection o ++
      svOtherMinistriesNodes selection o
    links := svLinksSpendingToRecipient selection ++ svLinksBudgetToSpending selection ++
      svLinksMinistryToBudget selection ++ svOtherProjectsLinks selection ++
      svOtherMinistriesLinks selection }

/-! The standard views (Global / Ministry / Project) of `buildSankeyData`
(source lines 1959-2855), one definition per source section.  The shared
mutable `nodes` array is modelled by explicit list concatenation; the
source's occasional `nodes.find`/`nodes.some` guards receive the list of
nodes pushed up to that point (`stdNodesBeforeRecipients`: every such guard
runs before the recipient nodes are pushed). -/

/-- JS `array.findIndex` (−1 when no element matches). -/
def jsFindIndex (p : α → Bool) (l : List α) : Int :=
  match l.findIdx? p with
  | some i => (i : Int)
  | none => -1

/-- JS `array.slice(start)` including the negative-start semantics
(`slice(-k)` keeps the last `k` elements). -/
def jsSliceFrom (l : List α) (start : Int) : List α :=
  if start < 0 then l.drop (l.length - (-start).toNat) else l.drop start.toNat

/-- Column 0 of the standard views (source lines 1964-1988): the
`total-budget` node, absent in the Ministry view. -/
def stdTotalBudgetNode (sel : DataSelection) (o : BuildOptions) : List SankeyNode :=
  if truthy o.targetMinistryName then []
  else
    let totalBudget := sumBy (fun m => m.totalBudget) sel.topMinistries + sel.otherMinistriesBudget
    let nodeName :=
      if truthy o.targetProjectName ∧ sel.topMinistries.length = 1 then
        ((sel.topMinistries.head?).map (fun m => m.name)).getD ""
      else if o.offset = 0 then "予算総計" else s!"予算総計 (Rank {o.offset + 1}+)"
    [{ id := .totalBudget, name := nodeName, type := .ministryBudget, value := totalBudget }]

/-- The `total-budget` → ministry links (source lines 1990-2020).  The
source's `targetMinistryName ? … : ministry.totalBudget` ternary sits inside
the `!targetMinistryName` block, so its first arm is unreachable and the
link value is always `ministry.totalBudget`. -/
def stdLinksTotalToMinistries (sel : DataSelection) (o : BuildOptions) : List SankeyLink :=
  if truthy o.targetMinistryName ∨ truthy o.targetProjectName then []
  else
    (sel.topMinistries.map (fun m =>
      { source := .totalBudget, target := .ministryBudget m.id, value := m.totalBudget })) ++
    (if sel.otherMinistriesBudget > 0 then
      [{ source := .totalBudget, target := .ministryBudgetOther,
         value := sel.otherMinistriesBudget }]
     else [])

/-- Ministry-node value (source lines 2032-2042): in the Ministry view the
sum of the kept projects' budgets (sentinel when 0), else the ministry's
total budget. -/
def stdMinistryNodeValue (sel : DataSelection) (o : BuildOptions) (ministry : TopMinistry) :
    Money :=
  let v :=
    if truthy o.targetMinistryName then
      sumBy (fun p => p.totalBudget) (sel.topProjects.filter (fun p => p.ministry = ministry.name))
    else ministry.totalBudget
  if v = 0 ∧ truthy o.targetMinistryName then dummyValue else v

/-- Column 1 of the standard views (source lines 2024-2079): ministry nodes
plus the Global-only leftover-ministries node. -/
def stdMinistryNodes (sel : DataSelection) (o : BuildOptions) : List SankeyNode :=
  if truthy o.targetProjectName then []
  else
    (sel.topMinistries.map (fun ministry =>
      { id := .ministryBudget ministry.id, name := ministry.name, type := .ministryBudget,
        value := stdMinistryNodeValue sel o ministry, originalId := some ministry.id })) ++
    (if isGlobalView o ∧ sel.otherMinistriesBudget > 0 then
      [{ id := .ministryBudgetOther,
         name := s!"府省庁(Top{o.ministryLimit * (o.drilldownLevel + 1)}以外)",
         type := .ministryBudget, value := sel.otherMinistriesBudget }]
     else [])

/-- Project-budget node value (source lines 2086-2089): the sentinel when
the budget is 0 but spending exists. -/
def projectBudgetNodeValue (p : BudgetRecord) : Money :=
  if p.totalBudget = 0 ∧ p.totalSpendingAmount > 0 then dummyValue else p.totalBudget

/-- Column 2 of the standard views (source lines 2085-2110): one
project-budget node per kept project. -/
def stdProjectBudgetNodes (sel : DataSelection) : List SankeyNode :=
  sel.topProjects.map (fun (p : BudgetRecord) =>
    { id := .projectBudget p.projectId, name := p.projectName, type := .projectBudget,
      value := projectBudgetNodeValue p, originalId := some p.projectId })

/-- The links into the project-budget nodes (source lines 2112-2147):
ministry → project in Global/Ministry views (falling back to the
leftover-ministries node in Global view), `total-budget` → project in the
Project view. -/
def stdLinksIntoProjectBudgets (sel : DataSelection) (o : BuildOptions) : List SankeyLink :=
  sel.topProjects.filterMap (fun (p : BudgetRecord) =>
    let linkValue := projectBudgetNodeValue p
    if truthy o.targetProjectName then
      some { source := .totalBudget, target := .projectBudget p.projectId, value := linkValue }
    else
      match sel.topMinistries.find? (fun m => m.name = p.ministry) with
      | some ministry =>
        some { source := .ministryBudget ministry.id, target := .projectBudget p.projectId,
               value := linkValue }
      | none =>
        if isGlobalView o ∧ sel.otherMinistriesBudget > 0 then
          some { source := .ministryBudgetOther, target := .projectBudget p.projectId,
                 value := linkValue }
        else none)

/-- The per-ministry leftover-projects budget nodes and their incoming
links, non-Global views (source lines 2150-2182); node and link share one
guard. -/
def stdOtherProjectsBudgetNonGlobal (sel : DataSelection) (o : BuildOptions) :
    List (SankeyNode × SankeyLink) :=
  if isGlobalView o then []
  else
    sel.topMinistries.filterMap (fun ministry =>
      match mapGet sel.otherProjectsBudgetByMinistry ministry.name with
      | some otherBudget =>
        if otherBudget ≠ 0 ∧ otherBudget > 0 ∧ ¬ truthy o.targetProjectName then
          some ({ id := .projectBudgetOther ministry.id, name := s!"事業(Top{o.projectLimit}以外)",
                  type := .projectBudget, value := otherBudget },
                { source := .ministryBudget ministry.id, target := .projectBudgetOther ministry.id,
                  value := otherBudget })
        else none
      | none => none)

/-- The kept ministries paired with their positive leftover-projects
budgets (the Global-view loop of source lines 2189-2199). -/
def stdGlobalOtherBudgetPerMinistry (sel : DataSelection) : List (TopMinistry × Money) :=
  sel.topMinistries.filterMap (fun ministry =>
    match mapGet sel.otherProjectsBudgetByMinistry ministry.name with
    | some v => if v ≠ 0 ∧ v > 0 then some (ministry, v) else none
    | none => none)

/-- `totalOtherBudget` of the Global-view leftover-projects budget section
(source lines 2186-2209). -/
def stdGlobalTotalOtherBudget (sel : DataSelection) : Money :=
  sumBy (fun e => e.2) (stdGlobalOtherBudgetPerMinistry sel) +
  (if sel.otherMinistriesBudget > 0 then sel.otherMinistriesBudget else 0)

/-- The Global-view links into the single leftover-projects budget node
(source lines 2188-2209). -/
def stdGlobalOtherBudgetLinks (sel : DataSelection) (o : BuildOptions) : List SankeyLink :=
  if isGlobalView o then
    ((stdGlobalOtherBudgetPerMinistry sel).map (fun e =>
      { source := .ministryBudget e.1.id, target := .projectBudgetOtherGlobal, value := e.2 })) ++
    (if sel.otherMinistriesBudget > 0 then
      [{ source := .ministryBudgetOther, target := .projectBudgetOtherGlobal,
         value := sel.otherMinistriesBudget }]
     else [])
  else []

/-- The Global-view leftover-projects budget node (source lines 2214-2234). -/
def stdGlobalOtherBudgetNodes (sel : DataSelection) (o : BuildOptions) : List SankeyNode :=
  if isGlobalView o ∧ stdGlobalTotalOtherBudget sel > 0 then
    [{ id := .projectBudgetOtherGlobal, name := s!"事業(Top{o.spendingLimit}以外)",
       type := .projectBudget, value := stdGlobalTotalOtherBudget sel }]
  else []

/-- The kept projects that have spending destinations (the `continue` of
source lines 2246-2250 skips the others). -/
def stdSpendingProjects (sel : DataSelection) : List BudgetRecord :=
  sel.topProjects.filter (fun p => p.spendingIds.length ≠ 0)

/-- Kept projects with `spendingIds` empty, routed to the no-destination
node (source lines 2241-2250). -/
def stdProjectsWithNoSpending (sel : DataSelection) : List BudgetRecord :=
  sel.topProjects.filter (fun p => p.spendingIds.length = 0)

/-- Column 3 of the standard views (source lines 2244-2265): one
project-spending node per kept project with destinations. -/
def stdProjectSpendingNodes (sel : DataSelection) : List SankeyNode :=
  (stdSpendingProjects sel).map (fun (p : BudgetRecord) =>
    { id := .projectSpending p.projectId, name := p.projectName, type := .projectSpending,
      value := p.totalSpendingAmount, originalId := some p.projectId })

/-- The budget → spending link value (source lines 2267-2271):
`min(totalBudget, totalSpendingAmount)`, the sentinel when the budget is 0
and spending exists. -/
def projectBudgetToSpendingValue (p : BudgetRecord) : Money :=
  let linkValue := min p.totalBudget p.totalSpendingAmount
  if p.totalBudget = 0 ∧ p.totalSpendingAmount > 0 then dummyValue else linkValue

/-- The budget → spending links (source lines 2267-2277). -/
def stdLinksBudgetToSpending (sel : DataSelection) : List SankeyLink :=
  (stdSpendingProjects sel).map (fun (p : BudgetRecord) =>
    { source := .projectBudget p.projectId, target := .projectSpending p.projectId,
      value := projectBudgetToSpendingValue p })

/-- The per-ministry leftover-projects spending nodes and links, non-Global
views (source lines 2280-2315). -/
def stdOtherProjectsSpendingNonGlobal (sel : DataSelection) (o : BuildOptions) :
    List (SankeyNode × SankeyLink) :=
  if isGlobalView o then []
  else
    sel.topMinistries.filterMap (fun ministry =>
      let otherSpending := mapGetD sel.otherProjectsSpendingByMinistry ministry.name 0
      let otherBudget := mapGetD sel.otherProjectsBudgetByMinistry ministry.name 0
      if otherBudget > 0 ∧ ¬ truthy o.targetProjectName then
        let lv := min otherBudget otherSpending
        some ({ id := .projectSpendingOther ministry.id, name := s!"事業(Top{o.projectLimit}以外)",
                type := .projectSpending, value := otherSpending },
              { source := .projectBudgetOther ministry.id,
                target := .projectSpendingOther ministry.id,
                value := if lv = 0 ∧ otherBudget > 0 then dummyValue else lv })
      else none)

/-- `totalOtherSpending` of the Global-view leftover-projects spending
section (source lines 2319-2332). -/
def stdGlobalTotalOtherSpending (sel : DataSelection) : Money :=
  sumBy (fun ministry => mapGetD sel.otherProjectsSpendingByMinistry ministry.name 0)
    sel.topMinistries + sel.otherMinistriesSpending

/-- `totalOtherBudget` as recomputed in the spending section of the Global
view (source lines 2320-2332: per-ministry truthiness guard, then the
leftover-ministries budget added unconditionally). -/
def stdGlobalTotalOtherBudgetForSpending (sel : DataSelection) : Money :=
  sumBy (fun ministry => mapGetD sel.otherProjectsBudgetByMinistry ministry.name 0)
    sel.topMinistries + sel.otherMinistriesBudget

/-- The Global-view leftover-projects spending node (source lines 2334-2347). -/
def stdGlobalOtherSpendingNodes (sel : DataSelection) (o : BuildOptions) : List SankeyNode :=
  if isGlobalView o ∧ stdGlobalTotalOtherSpending sel > 0 then
    [{ id := .projectSpendingOtherGlobal, name := s!"事業(Top{o.spendingLimit}以外)",
       type := .projectSpending, value := stdGlobalTotalOtherSpending sel }]
  else []

/-- The Global-view link between the two leftover-projects nodes (source
lines 2349-2358). -/
def stdGlobalOtherSpendingLinks (sel : DataSelection) (o : BuildOptions) : List SankeyLink :=
  if isGlobalView o ∧ stdGlobalTotalOtherSpending sel > 0 then
    let lv := min (stdGlobalTotalOtherBudgetForSpending sel) (stdGlobalTotalOtherSpending sel)
    if lv > 0 then
      [{ source := .projectBudgetOtherGlobal, target := .projectSpendingOtherGlobal, value := lv }]
    else []
  else []

/-- Column 4, Global view (source lines 2366-2391): one recipient node per
kept top recipient, valued by its spending from the kept projects only. -/
def stdGlobalRecipientNodes (sel : DataSelection) : List SankeyNode :=
  sel.topSpendings.map (fun (spending : SpendingRecord) =>
    let v := sumBy
      (fun sp =>
        if sel.topProjects.any (fun p => p.projectId = sp.projectId) then sp.amount else 0)
      spending.projects
    { id := .recipient spending.spendingId, name := spending.spendingName, type := .recipient,
      value := v, originalId := some spending.spendingId })

/-- The Global-view project-spending → recipient links (source lines
2393-2408). -/
def stdGlobalRecipientLinks (sel : DataSelection) : List SankeyLink :=
  sel.topSpendings.flatMap (fun (spending : SpendingRecord) =>
    spending.projects.filterMap (fun (sp : SpendingProject) =>
      if sel.topProjects.any (fun p => p.projectId = sp.projectId) then
        some { source := .projectSpending sp.projectId, target := .recipient spending.spendingId,
               value := sp.amount }
      else none))

/-- First pass of the non-Global recipient section (source lines 2412-2422):
per-recipient spending totals over the kept projects. -/
def recipientSpendingAmounts (sel : DataSelection) : List (Int × Money) :=
  sel.topProjects.foldl (fun m project =>
    sel.topSpendings.foldl (fun m spending =>
      match spending.projects.find? (fun q => q.projectId = project.projectId) with
      | some sp => mapSet m spending.spendingId (mapGetD m spending.spendingId 0 + sp.amount)
      | none => m) m) []

/-- Column 4, Ministry/Project views (source lines 2424-2459): one node per
recipient reached from a kept project (the source creates it at the first
matching (project, recipient) pair; the node set is the same, only the
relative order may differ, which no claim concerns). -/
def stdNonGlobalRecipientNodes (sel : DataSelection) : List SankeyNode :=
  (sel.topSpendings.filter (fun spending =>
    sel.topProjects.any
      (fun p => (spending.projects.find? (fun q => q.projectId = p.projectId)).isSome))).map
    (fun (spending : SpendingRecord) =>
      { id := .recipient spending.spendingId, name := spending.spendingName, type := .recipient,
        value := mapGetD (recipientSpendingAmounts sel) spending.spendingId 0,
        originalId := some spending.spendingId })

/-- The Ministry/Project-view project-spending → recipient links (source
lines 2425-2459; zero amounts become the sentinel). -/
def stdNonGlobalRecipientLinks (sel : DataSelection) : List SankeyLink :=
  sel.topProjects.flatMap (fun project =>
    sel.topSpendings.filterMap (fun (spending : SpendingRecord) =>
      (spending.projects.find? (fun q => q.projectId = project.projectId)).map
        (fun (sp : SpendingProject) =>
          { source := .projectSpending project.projectId,
            target := .recipient spending.spendingId,
            value := if sp.amount = 0 then dummyValue else sp.amount })))

/-- `totalOtherNamedAmount` (source lines 2464-2467): the sum of the
Other-named map entries. -/
def totalOtherNamedAmount (sel : DataSelection) : Money :=
  sumBy (fun e => e.2) sel.otherNamedSpendingByProject

/-- The reserved 'その他' recipient node (source lines 2469-2480). -/
def stdOtherNamedNode (sel : DataSelection) : List SankeyNode :=
  if totalOtherNamedAmount sel > 0 then
    [{ id := .recipientOtherNamed, name := otherName, type := .recipient,
       value := totalOtherNamedAmount sel }]
  else []

/-- The kept-project → reserved-'その他' links (source lines 2482-2495). -/
def stdOtherNamedLinksFromTopProjects (sel : DataSelection) : List SankeyLink :=
  if totalOtherNamedAmount sel > 0 then
    sel.otherNamedSpendingByProject.filterMap (fun (e : Int × Money) =>
      if sel.topProjects.any (fun p => p.projectId = e.1) then
        let lv := if e.2 = 0 then dummyValue else e.2
        if lv > 0 then
          some { source := .projectSpending e.1, target := .recipientOtherNamed, value := lv }
        else none
      else none)
  else []

/-- Source lines 2568-2601: per kept ministry, the Other-named total of its
projects outside the kept set, keyed by ministry id and by ministry name. -/
def calculateOtherProjectsOtherNamedByMinistry (topMinistries : List TopMinistry)
    (topProjects : List BudgetRecord) (otherNamedSpendingByProject : List (Int × Money))
    (fullData : RS2024StructuredData) : List (Int × Money) × List (String × Money) :=
  topMinistries.foldl (fun acc ministry =>
    let ministryProjectIds :=
      (topProjects.filter (fun p => p.ministry = ministry.name)).map (fun p => p.projectId)
    let allMinistryProjectIds :=
      (fullData.budgets.filter (fun b => b.ministry = ministry.name)).map (fun b => b.projectId)
    let amount := sumBy
      (fun pid =>
        if ministryProjectIds.contains pid then 0
        else
          match mapGet otherNamedSpendingByProject pid with
          | some a => if a ≠ 0 then a else 0
          | none => 0)
      allMinistryProjectIds
    if amount > 0 then (mapSet acc.1 ministry.id amount, mapSet acc.2 ministry.name amount)
    else acc) ([], [])

/-- The leftover-projects → reserved-'その他' links of the Ministry view
(source lines 2497-2513; guarded on the spending-side leftover node existing
among the nodes pushed so far). -/
def stdOtherNamedLinksFromOtherProjects (sel : DataSelection) (fullData : RS2024StructuredData)
    (o : BuildOptions) (nodesSoFar : List SankeyNode) : List SankeyLink :=
  if totalOtherNamedAmount sel > 0 ∧ ¬ truthy o.targetProjectName ∧
      ¬ truthy o.targetRecipientName ∧ ¬ isGlobalView o then
    (calculateOtherProjectsOtherNamedByMinistry sel.topMinistries sel.topProjects
      sel.otherNamedSpendingByProject fullData).1.filterMap (fun (e : Int × Money) =>
        if nodesSoFar.any (fun n => n.id = .projectSpendingOther e.1) then
          some { source := .projectSpendingOther e.1, target := .recipientOtherNamed,
                 value := e.2 }
        else none)
  else []

/-- The beyond-current-page projects of a kept ministry as computed by the
Ministry-view link sections (source lines 2520-2532 and 2750-2762): the
sorted ministry projects after the current page, located via `findIndex`
(with the JS `slice` semantics for the −1 not-found case). -/
def ministryOtherProjects (sel : DataSelection) (fullData : RS2024StructuredData)
    (ministry : TopMinistry) : List BudgetRecord :=
  let topProjectIds :=
    (sel.topProjects.filter (fun p => p.ministry = ministry.name)).map (fun p => p.projectId)
  let sortedMinistryProjects :=
    sortByDesc (fun b => b.totalBudget)
      (fullData.budgets.filter (fun b => b.ministry = ministry.name))
  let currentPageStart :=
    jsFindIndex (fun p => topProjectIds.contains p.projectId) sortedMinistryProjects
  -- `topProjectIds.size` in the source is the size of a JS Set: the number
  -- of distinct ids.
  let currentPageEnd := currentPageStart + (topProjectIds.dedup.length : Int)
  jsSliceFrom sortedMinistryProjects currentPageEnd

/-- The Ministry-view links from the leftover-projects spending node to the
kept top recipients (source lines 2516-2565). -/
def stdOtherToTopRecipientLinks (sel : DataSelection) (fullData : RS2024StructuredData)
    (o : BuildOptions) (nodesSoFar : List SankeyNode) : List SankeyLink :=
  if isGlobalView o ∨ truthy o.targetProjectName ∨ truthy o.targetRecipientName then []
  else
    sel.topMinistries.flatMap (fun ministry =>
      let otherProjects := ministryOtherProjects sel fullData ministry
      sel.topSpendings.filterMap (fun (spending : SpendingRecord) =>
        let amountFromOtherProjects := sumBy
          (fun op =>
            ((spending.projects.find? (fun q => q.projectId = op.projectId)).map (·.amount)).getD 0)
          otherProjects
        let recipientHasNode := sel.topProjects.any
          (fun p => spending.projects.any (fun sp => sp.projectId = p.projectId))
        let nodeExists := nodesSoFar.any (fun n => n.id = .projectSpendingOther ministry.id)
        if amountFromOtherProjects > 0 ∧ recipientHasNode ∧ nodeExists then
          some { source := .projectSpendingOther ministry.id,
                 target := .recipient spending.spendingId, value := amountFromOtherProjects }
        else none))

/-- Global view (source lines 2619-2635): a kept project's spending to
recipients that are neither kept top recipients nor named 'その他'. -/
def globalProjectTotalToOthers (sel : DataSelection) (fullData : RS2024StructuredData)
    (project : BudgetRecord) : Money :=
  let topRecipientIds := sel.topSpendings.map (fun s => s.spendingId)
  sumBy
    (fun sid =>
      match fullData.spendings.find? (fun s => s.spendingId = sid) with
      | none => 0
      | some spending =>
        if topRecipientIds.contains sid ∨ spending.spendingName = otherName then 0
        else ((spending.projects.find? (fun p => p.projectId = project.projectId)).map
          (·.amount)).getD 0)
    project.spendingIds

/-- `otherSpendingsByProject` after the Global-view mutation of source line
2640 (the builder writes the per-project leftover amounts into the
selection's map, which is empty in Global mode). -/
def globalOtherSpendingsByProject (sel : DataSelection) (fullData : RS2024StructuredData) :
    List (Int × Money) :=
  sel.topProjects.foldl (fun m project =>
    let v := globalProjectTotalToOthers sel fullData project
    if v > 0 then mapSet m project.projectId v else m) sel.otherSpendingsByProject

/-- `totalOtherRecipientAmount` in the Global view (source lines 2606-2642):
the value of the leftover-projects spending node (when present among the
nodes pushed so far) plus every kept project's leftover spending. -/
def stdGlobalTotalOtherRecipientAmount (sel : DataSelection) (fullData : RS2024StructuredData)
    (nodesSoFar : List SankeyNode) : Money :=
  (match nodesSoFar.find? (fun n => n.id = .projectSpendingOtherGlobal) with
   | some node => node.value
   | none => 0) +
  sumBy
    (fun project =>
      let v := globalProjectTotalToOthers sel fullData project
      if v > 0 then v else 0)
    sel.topProjects

/-- `totalOtherRecipientAmount` in the Ministry/Project views (source lines
2643-2665): per-ministry leftover budget minus its Other-named part (when
positive), plus the per-project leftover spending map. -/
def stdNonGlobalTotalOtherRecipientAmount (sel : DataSelection)
    (fullData : RS2024StructuredData) (o : BuildOptions) : Money :=
  let namedMap :=
    if totalOtherNamedAmount sel > 0 ∧ ¬ truthy o.targetProjectName ∧
        ¬ truthy o.targetRecipientName then
      (calculateOtherProjectsOtherNamedByMinistry sel.topMinistries sel.topProjects
        sel.otherNamedSpendingByProject fullData).2
    else []
  sumBy
    (fun ministry =>
      let adjusted := mapGetD sel.otherProjectsBudgetByMinistry ministry.name 0 -
        mapGetD namedMap ministry.name 0
      if adjusted > 0 then adjusted else 0)
    sel.topMinistries +
  sumBy (fun e => e.2) sel.otherSpendingsByProject

/-- `totalOtherRecipientAmount` (source lines 2603-2665). -/
def stdTotalOtherRecipientAmount (sel : DataSelection) (fullData : RS2024StructuredData)
    (o : BuildOptions) (nodesSoFar : List SankeyNode) : Money :=
  if isGlobalView o then stdGlobalTotalOtherRecipientAmount sel fullData nodesSoFar
  else stdNonGlobalTotalOtherRecipientAmount sel fullData o

/-- The generic leftover-recipients node (source lines 2667-2678). -/
def stdAggregatedNode (sel : DataSelection) (fullData : RS2024StructuredData)
    (o : BuildOptions) (nodesSoFar : List SankeyNode) : List SankeyNode :=
  if stdTotalOtherRecipientAmount sel fullData o nodesSoFar > 0 then
    [{ id := .recipientOtherAggregated, name := s!"支出先(Top{o.spendingLimit}以外)",
       type := .recipient, value := stdTotalOtherRecipientAmount sel fullData o nodesSoFar }]
  else []

/-- Global view, the leftover-projects → kept-top-recipient links plus the
used-up total (source lines 2683-2717): each kept recipient receives from
the leftover node the part of its selected-ministries spending the kept
projects do not cover. -/
def stdGlobalAggLinksToTopRecipients (sel : DataSelection) (fullData : RS2024StructuredData)
    (nodesSoFar : List SankeyNode) : List SankeyLink × Money :=
  let nodeExists := (nodesSoFar.find? (fun n => n.id = .projectSpendingOtherGlobal)).isSome
  let selectedMinistryNames := sel.topMinistries.map (fun m => m.name)
  sel.topSpendings.foldl
    (fun acc recipient =>
      let receivedFromTopProjects := sumBy
        (fun p =>
          ((recipient.projects.find? (fun rp => rp.projectId = p.projectId)).map (·.amount)).getD 0)
        sel.topProjects
      let totalFromSelectedMinistries := sumBy
        (fun (sp : SpendingProject) =>
          match fullData.budgets.find? (fun b => b.projectId = sp.projectId) with
          | some b => if selectedMinistryNames.contains b.ministry then sp.amount else 0
          | none => 0)
        recipient.projects
      let remainder := totalFromSelectedMinistries - receivedFromTopProjects
      if remainder > 0 ∧ nodeExists then
        (acc.1 ++ [{ source := .projectSpendingOtherGlobal,
                     target := .recipient recipient.spendingId, value := remainder }],
         acc.2 + remainder)
      else acc)
    ([], 0)

/-- The Global-view links of the leftover-recipients section (source lines
2680-2743). -/
def stdGlobalAggLinks (sel : DataSelection) (fullData : RS2024StructuredData)
    (nodesSoFar : List SankeyNode) : List SankeyLink :=
  let toTop := stdGlobalAggLinksToTopRecipients sel fullData nodesSoFar
  toTop.1 ++
  (match nodesSoFar.find? (fun n => n.id = .projectSpendingOtherGlobal) with
   | some node =>
     let remainingValue := node.value - toTop.2
     if remainingValue > 0 then
       [{ source := .projectSpendingOtherGlobal, target := .recipientOtherAggregated,
          value := remainingValue }]
     else []
   | none => []) ++
  (globalOtherSpendingsByProject sel fullData).filterMap (fun (e : Int × Money) =>
    let lv := if e.2 = 0 then dummyValue else e.2
    if lv > 0 then
      some { source := .projectSpending e.1, target := .recipientOtherAggregated, value := lv }
    else none)

/-- Ministry view, the leftover-projects → leftover-recipients links
(source lines 2748-2789). -/
def stdNonGlobalAggLinksFromOtherProjects (sel : DataSelection)
    (fullData : RS2024StructuredData) (o : BuildOptions) (nodesSoFar : List SankeyNode) :
    List SankeyLink :=
  if truthy o.targetProjectName ∨ truthy o.targetRecipientName then []
  else
    sel.topMinistries.filterMap (fun ministry =>
      let otherProjects := ministryOtherProjects sel fullData ministry
      let topSpendingIds := sel.topSpendings.map (fun s => s.spendingId)
      let amountToOtherRecipients := sumBy
        (fun op =>
          sumBy
            (fun (spending : SpendingRecord) =>
              if spending.spendingName = otherName then 0
              else if topSpendingIds.contains spending.spendingId then 0
              else ((spending.projects.find? (fun q => q.projectId = op.projectId)).map
                (·.amount)).getD 0)
            fullData.spendings)
        otherProjects
      if amountToOtherRecipients > 0 ∧
          nodesSoFar.any (fun n => n.id = .projectSpendingOther ministry.id) then
        some { source := .projectSpendingOther ministry.id, target := .recipientOtherAggregated,
               value := amountToOtherRecipients }
      else none)

/-- Ministry/Project views, the kept-project → leftover-recipients links
(source lines 2791-2802; the `>= 0` guard and the zero-to-sentinel rule). -/
def stdNonGlobalAggLinksFromSelected (sel : DataSelection) : List SankeyLink :=
  sel.otherSpendingsByProject.filterMap (fun (e : Int × Money) =>
    if e.2 > 0 ∨ e.2 = 0 then
      some { source := .projectSpending e.1, target := .recipientOtherAggregated,
             value := if e.2 = 0 then dummyValue else e.2 }
    else none)

/-- All links of the leftover-recipients section (source lines 2667-2804,
emitted only when the aggregate total is positive). -/
def stdAggLinks (sel : DataSelection) (fullData : RS2024StructuredData) (o : BuildOptions)
    (nodesSoFar : List SankeyNode) : List SankeyLink :=
  if stdTotalOtherRecipientAmount sel fullData o nodesSoFar > 0 then
    if isGlobalView o then stdGlobalAggLinks sel fullData nodesSoFar
    else
      stdNonGlobalAggLinksFromOtherProjects sel fullData o nodesSoFar ++
      stdNonGlobalAggLinksFromSelected sel
  else []

/-- The no-destination recipient node (source lines 2806-2820). -/
def stdNoSpendingNode (sel : DataSelection) : List SankeyNode :=
  if (stdProjectsWithNoSpending sel).length ≠ 0 then
    [{ id := .recipientNoSpending, name := "支出先なし", type := .recipient, value := 0 }]
  else []

/-- The sentinel links into the no-destination node (source lines 2822-2829). -/
def stdNoSpendingLinks (sel : DataSelection) : List SankeyLink :=
  if (stdProjectsWithNoSpending sel).length ≠ 0 then
    (stdProjectsWithNoSpending sel).map (fun p =>
      { source := .projectBudget p.projectId, target := .recipientNoSpending,
        value := dummyValue })
  else []

/-- The nodes pushed before the recipient section (the state of the mutable
`nodes` array at every `nodes.find`/`nodes.some` guard of the source). -/
def stdNodesBeforeRecipients (sel : DataSelection) (o : BuildOptions) : List SankeyNode :=
  stdTotalBudgetNode sel o ++ stdMinistryNodes sel o ++
  stdProjectBudgetNodes sel ++ (stdOtherProjectsBudgetNonGlobal sel o).map (fun e => e.1) ++
  stdGlobalOtherBudgetNodes sel o ++
  stdProjectSpendingNodes sel ++ (stdOtherProjectsSpendingNonGlobal sel o).map (fun e => e.1) ++
  stdGlobalOtherSpendingNodes sel o

/-- All nodes of the standard views before pruning, in source push order
(regular recipients, then the reserved-'その他' node, then the aggregated
leftover node, then the no-destination node, exactly the source's final
ordering of lines 2832-2839). -/
def stdRawNodes (sel : DataSelection) (fullData : RS2024StructuredData) (o : BuildOptions) :
    List SankeyNode :=
  let nodesSoFar := stdNodesBeforeRecipients sel o
  nodesSoFar ++
  (if isGlobalView o then stdGlobalRecipientNodes sel else stdNonGlobalRecipientNodes sel) ++
  stdOtherNamedNode sel ++
  stdAggregatedNode sel fullData o nodesSoFar ++
  stdNoSpendingNode sel

/-- All links of the standard views before pruning, in source push order. -/
def stdRawLinks (sel : DataSelection) (fullData : RS2024StructuredData) (o : BuildOptions) :
    List SankeyLink :=
  let nodesSoFar := stdNodesBeforeRecipients sel o
  stdLinksTotalToMinistries sel o ++
  stdLinksIntoProjectBudgets sel o ++
  (stdOtherProjectsBudgetNonGlobal sel o).map (fun e => e.2) ++
  stdGlobalOtherBudgetLinks sel o ++
  stdLinksBudgetToSpending sel ++
  (stdOtherProjectsSpendingNonGlobal sel o).map (fun e => e.2) ++
  stdGlobalOtherSpendingLinks sel o ++
  (if isGlobalView o then stdGlobalRecipientLinks sel else stdNonGlobalRecipientLinks sel) ++
  stdOtherNamedLinksFromTopProjects sel ++
  stdOtherNamedLinksFromOtherProjects sel fullData o nodesSoFar ++
  stdOtherToTopRecipientLinks sel fullData o nodesSoFar ++
  stdAggLinks sel fullData o nodesSoFar ++
  stdNoSpendingLinks sel

/-- The final pruning pass of the standard views (source lines 2841-2853):
nodes keep only those incident to some link of the FULL link list; links
keep only positive values. -/
def pruneSankey (nodes : List SankeyNode) (links : List SankeyLink) : SankeyData :=
  { nodes := nodes.filter (fun node => links.any (fun l => l.source = node.id ∨ l.target = node.id))
    links := links.filter (fun l => l.value > 0) }

/-- `buildSankeyData` (source lines 1643-2855): the spending view returns
early (unpruned); the standard views run the final pruning pass. -/
def buildSankeyData (selection : DataSelection) (fullData : RS2024StructuredData)
    (o : BuildOptions) : SankeyData :=
  if truthy o.targetRecipientName then
    buildSpendingView selection o (o.targetRecipientName.getD "")
  else
    pruneSankey (stdRawNodes selection fullData o) (stdRawLinks selection fullData o)

/-! The View Assembler (`generateSankeyData`, `getCacheKey`, source lines
945-1104): options normalization, the response envelope, and the bounded
FIFO result cache. -/

/-- The caller-facing options record (`GenerateOptions` of the source; every
field optional). -/
structure GenerateOptions where
  ministryOffset : Option Nat := none
  projectOffset : Option Nat := none
  ministryLimit : Option Nat := none
  projectLimit : Option Nat := none
  spendingLimit : Option Nat := none
  targetMinistryName : Option String := none
  targetProjectName : Option String := none
  targetRecipientName : Option String := none
  drilldownLevel : Option Nat := none
  projectDrilldownLevel : Option Nat := none
deriving DecidableEq, Repr

/-- The canonical option tuple of `getCacheKey` (source lines 965-980).  The
source serializes this record with `JSON.stringify` over a fixed field
order, which is injective in the field values, so the record itself is the
cache key here. -/
structure CacheKey where
  ministryOffset : Nat
  projectOffset : Nat
  projectDrilldownLevel : Nat
  ministryLimit : Nat
  projectLimit : Nat
  spendingLimit : Nat
  targetMinistryName : String
  targetProjectName : String
  targetRecipientName : String
  drilldownLevel : Nat
deriving DecidableEq, Repr

/-- `getCacheKey` (source lines 965-980): defaults substituted for omitted
fields. -/
def getCacheKey (options : GenerateOptions) : CacheKey :=
  { ministryOffset := options.ministryOffset.getD 0
    projectOffset := options.projectOffset.getD 0
    projectDrilldownLevel := options.projectDrilldownLevel.getD 0
    ministryLimit := options.ministryLimit.getD 3
    projectLimit := options.projectLimit.getD 3
    spendingLimit := options.spendingLimit.getD 5
    targetMinistryName := options.targetMinistryName.getD ""
    targetProjectName := options.targetProjectName.getD ""
    targetRecipientName := options.targetRecipientName.getD ""
    drilldownLevel := options.drilldownLevel.getD 0 }

/-- `filterSettings` of the response envelope. -/
structure FilterSettings where
  topMinistries : Nat
  topProjects : Nat
  topSpendings : Nat
  sortKey : String   -- the `sortBy` field of the source
deriving DecidableEq, Repr

/-- `summary` of the response envelope. -/
structure SummaryData where
  totalMinistries : Nat
  totalProjects : Int
  totalSpendings : Int
  selectedMinistries : Nat
  selectedProjects : Nat
  selectedSpendings : Nat
  totalBudget : Money
  selectedBudget : Money
  coverageRate : ℚ
  ministryTotalProjects : Option Nat
deriving DecidableEq, Repr

/-- `metadata` of the response envelope. -/
structure PresetMetadata where
  generatedAt : String
  fiscalYear : Nat
  presetType : String
  sourceFile : String
  filterSettings : FilterSettings
  summary : SummaryData
deriving DecidableEq, Repr

/-- The response envelope `RS2024PresetData`. -/
structure RS2024PresetData where
  metadata : PresetMetadata
  sankey : SankeyData
deriving DecidableEq, Repr

/-- One un-cached run of the assembler (source lines 991-1094): normalize
options, select, build, and wrap.  `now` stands for `new Date()` at the
moment of the call. -/
def computeSankeyResult (data : RS2024StructuredData) (options : GenerateOptions)
    (now : String) : Except String RS2024PresetData := do
  let ministryOffset := options.ministryOffset.getD 0
  let projectOffset := options.projectOffset.getD 0
  let projectDrilldownLevel := options.projectDrilldownLevel.getD 0
  let ministryLimit := options.ministryLimit.getD 3
  let projectLimit := options.projectLimit.getD 3
  let spendingLimit := options.spendingLimit.getD 5
  let drilldownLevel := options.drilldownLevel.getD 0
  let calculatedProjectOffset :=
    if projectDrilldownLevel > 0 then projectDrilldownLevel * projectLimit else projectOffset
  let selection ← selectData data
    { offset := ministryOffset, projectOffset := calculatedProjectOffset,
      limit := ministryLimit, projectLimit := projectLimit, spendingLimit := spendingLimit,
      targetMinistryName := options.targetMinistryName,
      targetProjectName := options.targetProjectName,
      targetRecipientName := options.targetRecipientName,
      drilldownLevel := drilldownLevel }
  let sankeyData := buildSankeyData selection data
    { offset := ministryOffset, targetMinistryName := options.targetMinistryName,
      targetProjectName := options.targetProjectName,
      targetRecipientName := options.targetRecipientName,
      ministryLimit := ministryLimit, projectLimit := projectLimit,
      spendingLimit := spendingLimit, drilldownLevel := drilldownLevel }
  -- both arms of the source's `targetRecipientName` conditional compute the
  -- same sum (lines 1053-1059)
  let selectedBudget := sumBy (fun p => p.totalBudget) selection.topProjects
  let coverageRate : ℚ := (selectedBudget : ℚ) / (data.metadata.totalBudgetAmount : ℚ) * 100
  let presetType :=
    if truthy options.targetRecipientName then "spending"
    else if truthy options.targetProjectName then "project"
    else if truthy options.targetMinistryName then "ministry"
    else "global"
  .ok
    { metadata :=
      { generatedAt := now
        fiscalYear := 2024
        presetType := presetType
        sourceFile := "rs2024-structured.json"
        filterSettings :=
          { topMinistries := ministryLimit, topProjects := projectLimit,
            topSpendings := spendingLimit, sortKey := "budget" }
        summary :=
          { totalMinistries := data.ministries.length
            totalProjects := data.metadata.totalProjects
            totalSpendings := data.metadata.totalRecipients
            selectedMinistries := selection.topMinistries.length
            selectedProjects := selection.topProjects.length
            selectedSpendings :=
              if truthy options.targetRecipientName then 1 else selection.topSpendings.length
            totalBudget := data.metadata.totalBudgetAmount
            selectedBudget := selectedBudget
            coverageRate := coverageRate
            ministryTotalProjects := selection.ministryTotalProjects } }
      sankey := sankeyData }

/-- The result cache (`resultCache`), an insertion-ordered map. -/
abbrev ResultCache := List (CacheKey × RS2024PresetData)

/-- `CACHE_SIZE_LIMIT` (source line 950). -/
def CACHE_SIZE_LIMIT : Nat := 100

/-- The cache update of source lines 1096-1101: when the cache has reached
the limit, delete the first (oldest) entry, then insert. -/
def cacheEvictInsert (cache : ResultCache) (k : CacheKey) (v : RS2024PresetData) :
    ResultCache :=
  let cache' := if cache.length ≥ CACHE_SIZE_LIMIT then cache.drop 1 else cache
  mapSet cache' k v

/-- `generateSankeyData` (source lines 982-1104) with the module-level cache
threaded explicitly: a hit returns the stored envelope unchanged (its
`generatedAt` included) and leaves the cache untouched; a miss computes,
stores, and returns. -/
def generateSankeyData (data : RS2024StructuredData) (options : GenerateOptions)
    (now : String) (cache : ResultCache) :
    Except String (RS2024PresetData × ResultCache) :=
  let cacheKey := getCacheKey options
  match mapGet cache cacheKey with
  | some result => .ok (result, cache)
  | none =>
    match computeSankeyResult data options now with
    | .error e => .error e
    | .ok result => .ok (result, cacheEvictInsert cache cacheKey result)

/-! Generic lemmas about the JS-collection models. -/

theorem mapGet_mapSet_self [DecidableEq κ] (m : List (κ × β)) (k : κ) (v : β) :
    mapGet (mapSet m k v) k = some v := by
  induction m with
  | nil => simp [mapGet, mapSet]
  | cons e rest ih =>
    by_cases h : e.1 = k
    · simp [mapSet, h, mapGet]
    · simp only [mapSet, if_neg h]
      simpa [mapGet, List.find?, h] using ih

theorem mapGet_eq_none_iff [DecidableEq κ] (m : List (κ × β)) (k : κ) :
    mapGet m k = none ↔ ∀ e ∈ m, e.1 ≠ k := by
  simp [mapGet, List.find?_eq_none]

theorem mapGet_drop_eq_none [DecidableEq κ] (m : List (κ × β)) (k : κ) (n : Nat)
    (h : mapGet m k = none) : mapGet (m.drop n) k = none := by
  rw [mapGet_eq_none_iff] at h ⊢
  exact fun e he => h e (List.mem_of_mem_drop he)

theorem length_mapSet_of_get_none [DecidableEq κ] (m : List (κ × β)) (k : κ) (v : β)
    (h : mapGet m k = none) : (mapSet m k v).length = m.length + 1 := by
  induction m with
  | nil => simp [mapSet]
  | cons e rest ih =>
    rw [mapGet_eq_none_iff] at h
    have he : e.1 ≠ k := h e (List.mem_cons_self e rest)
    simp only [mapSet, if_neg he, List.length_cons]
    rw [ih]
    rw [mapGet_eq_none_iff]
    exact fun e' he' => h e' (List.mem_cons_of_mem e he')

/-! Generic lemmas about the stable descending sort. -/

theorem sortByDesc_perm (key : α → Money) (l : List α) : List.Perm (sortByDesc key l) l :=
  List.perm_insertionSort _ l

theorem sortByDesc_sorted (key : α → Money) (l : List α) :
    (sortByDesc key l).Sorted (fun a b => key b ≤ key a) := by
  haveI : IsTotal α (fun a b => key b ≤ key a) := ⟨fun a b => le_total (key b) (key a)⟩
  haveI : IsTrans α (fun a b => key b ≤ key a) := ⟨fun _ _ _ h1 h2 => le_trans h2 h1⟩
  exact List.sorted_insertionSort _ l

theorem sortByDesc_nodup (key : α → Money) (l : List α) (h : l.Nodup) :
    (sortByDesc key l).Nodup :=
  (sortByDesc_perm key l).nodup_iff.mpr h

theorem sortByDesc_sum (key : α → Money) (f : α → Money) (l : List α) :
    sumBy f (sortByDesc key l) = sumBy f l := by
  unfold sumBy
  exact List.Perm.sum_eq (List.Perm.map f (sortByDesc_perm key l))

theorem sum_take_add_sum_drop (f : α → Money) (l : List α) (k : Nat) :
    sumBy f (l.take k) + sumBy f (l.drop k) = sumBy f l := by
  unfold sumBy
  rw [← List.sum_append, ← List.map_append, List.take_append_drop]

/-- For distinct members of a list, one occurs before the other. -/
theorem pair_sublist_of_mem {x y : α} {l : List α} (hx : x ∈ l) (hy : y ∈ l) (hne : x ≠ y) :
    List.Sublist [x, y] l ∨ List.Sublist [y, x] l := by
  induction l with
  | nil => cases hx
  | cons a t ih =>
    rcases List.mem_cons.mp hx with rfl | hx'
    · rcases List.mem_cons.mp hy with rfl | hy'
      · exact absurd rfl hne
      · exact Or.inl ((List.singleton_sublist.mpr hy').cons₂ x)
    · rcases List.mem_cons.mp hy with rfl | hy'
      · exact Or.inr ((List.singleton_sublist.mpr hx').cons₂ y)
      · exact (ih hx' hy').imp (fun h => h.cons a) (fun h => h.cons a)

/-- If `y` occurs before `x` in a duplicate-free list and `x` is among the
first `k` entries, so is `y`. -/
theorem mem_take_of_pair_sublist {x y : α} {s : List α} {k : Nat} (hnd : s.Nodup)
    (h : List.Sublist [y, x] s) (hx : x ∈ s.take k) : y ∈ s.take k := by
  induction s generalizing k with
  | nil => simp at h
  | cons a t ih =>
    cases k with
    | zero => simp at hx
    | succ k =>
      rw [List.take_succ_cons] at hx ⊢
      rcases List.mem_cons.mp hx with rfl | hx'
      · cases h with
        | cons _ h' =>
          have hxt : x ∈ t := h'.subset (by simp)
          exact absurd hxt (List.nodup_cons.mp hnd).1
        | cons₂ _ h' => exact List.mem_cons_self _ _
      · cases h with
        | cons _ h' =>
          exact List.mem_cons_of_mem a (ih (List.nodup_cons.mp hnd).2 h' hx')
        | cons₂ _ h' => exact List.mem_cons_self _ _

/-- Specification-side reading of "the K entries with the highest key, ties
broken by stable input order": `kept` is a sub-permutation of `l` of the
right length, and every kept entry beats every non-kept entry, strictly by
key or by earlier input position on ties. -/
def IsTopKByDesc (key : α → Money) (K : Nat) (l : List α) (kept : List α) : Prop :=
  kept.length = min K l.length ∧
  List.Subperm kept l ∧
  ∀ x ∈ kept, ∀ y ∈ l, y ∉ kept →
    key y < key x ∨ (key y = key x ∧ List.Sublist [x, y] l)

/-- The code's `sort(desc).slice(0, K)` satisfies the specification-side
top-K property on duplicate-free input. -/
theorem take_sortByDesc_isTopK (key : α → Money) (K : Nat) (l : List α) (hnd : l.Nodup) :
    IsTopKByDesc key K l ((sortByDesc key l).take K) := by
  have hperm := sortByDesc_perm key l
  have hsnd : (sortByDesc key l).Nodup := sortByDesc_nodup key l hnd
  refine ⟨?_, ?_, ?_⟩
  · rw [List.length_take, hperm.length_eq]
  · exact ((List.take_sublist K (sortByDesc key l)).subperm).trans hperm.subperm
  · intro x hx y hyl hyk
    have hys : y ∈ sortByDesc key l := hperm.mem_iff.mpr hyl
    have hyd : y ∈ (sortByDesc key l).drop K := by
      have heq := List.take_append_drop K (sortByDesc key l)
      rw [← heq, List.mem_append] at hys
      exact hys.resolve_left hyk
    have hle : key y ≤ key x :=
      (sortByDesc_sorted key l).rel_of_mem_take_of_mem_drop hx hyd
    rcases lt_or_eq_of_le hle with hlt | heq
    · exact Or.inl hlt
    · refine Or.inr ⟨heq, ?_⟩
      have hxl : x ∈ l := hperm.mem_iff.mp (List.mem_of_mem_take hx)
      have hne : x ≠ y := by
        rintro rfl
        exact (List.disjoint_take_drop hsnd (le_refl K)) hx hyd
      rcases pair_sublist_of_mem hxl hyl hne with hpair | hpair
      · exact hpair
      · exfalso
        have hpair' : List.Sublist [y, x] (sortByDesc key l) :=
          List.pair_sublist_insertionSort (le_of_eq heq.symm) hpair
        exact (List.disjoint_take_drop hsnd (le_refl K))
          (mem_take_of_pair_sublist hsnd hpair' hx) hyd

/-! Concrete record stores used by the witnesses and counterexamples. -/

/-- Ministry A: budget 100, one project. -/
def exMinistryA : MinistryNode := ⟨1, "A", yen 100, 0⟩
/-- Ministry B: budget 50, one project paying only the reserved name. -/
def exMinistryB : MinistryNode := ⟨2, "B", yen 50, 0⟩
/-- Ministry C: budget 10. -/
def exMinistryC : MinistryNode := ⟨3, "C", yen 10, 0⟩
/-- Project of A: budget 100, spending 80 to recipient R1. -/
def exProjectP1 : BudgetRecord := ⟨101, "P1", "A", yen 100, yen 80, [201]⟩
/-- Project of B: budget 50, spending 50 to the reserved 'その他' name. -/
def exProjectP2 : BudgetRecord := ⟨102, "P2", "B", yen 50, yen 50, [202]⟩
/-- Project of C: budget 10, no spending. -/
def exProjectP3 : BudgetRecord := ⟨103, "P3", "C", yen 10, 0, []⟩
/-- Recipient R1: paid 80 by P1. -/
def exRecipientR1 : SpendingRecord := ⟨201, "R1", yen 80, 1, [⟨101, yen 80⟩]⟩
/-- The reserved-name recipient record: paid 50 by P2. -/
def exRecipientOther : SpendingRecord := ⟨202, "その他", yen 50, 1, [⟨102, yen 50⟩]⟩

/-- A three-ministry record store (ministries deliberately out of budget
order so that sorting is observable). -/
def exData : RS2024StructuredData :=
  ⟨[exMinistryB, exMinistryA, exMinistryC], [exProjectP1, exProjectP2, exProjectP3],
   [exRecipientR1, exRecipientOther],
   [("A", yen 80), ("B", yen 50), ("C", 0)], ⟨3, 2, yen 160⟩⟩

/-- Global-mode selector options: keep 2 ministries, 1 project, 1 recipient. -/
def exSelOpts : SelectOptions := ⟨0, 0, 2, 1, 1, none, none, none, 0⟩

/-- The matching builder options. -/
def exBuildOpts : BuildOptions := ⟨0, none, none, none, 2, 1, 1, 0⟩

/-! Claim C3: Global-mode top-K ministry selection. -/

/-- Claim C3 (confirmed).  In Global mode with `drilldownLevel = 0` and
`ministryLimit = K`, the kept-ministry list is exactly the K ministries with
the highest `totalBudget` (ties broken by stable input order, stated by
`IsTopKByDesc`), and the leftover-ministries bucket equals the total budget
of all ministries minus the kept ministries' budgets. -/
theorem c3_global_topk_ministries (data : RS2024StructuredData) (o : SelectOptions)
    (sel : DataSelection)
    (hm : o.targetMinistryName = none) (hp : o.targetProjectName = none)
    (hr : o.targetRecipientName = none) (hd : o.drilldownLevel = 0)
    (hnd : data.ministries.Nodup)
    (hsel : selectData data o = .ok sel) :
    ∃ kept : List MinistryNode,
      IsTopKByDesc (fun m => m.totalBudget) o.limit data.ministries kept ∧
      sel.topMinistries = kept.map (fun m =>
        { name := m.name, id := m.id, totalBudget := m.totalBudget,
          bureauCount := m.bureauCount }) ∧
      sel.otherMinistriesBudget =
        sumBy (fun m => m.totalBudget) data.ministries -
          sumBy (fun m => m.totalBudget) kept := by
  have hsel' : sel = selectGlobalView data o := by
    simp [selectData, truthy, hm, hp, hr] at hsel
    exact hsel.symm
  subst hsel'
  refine ⟨(sortByDesc (fun m => m.totalBudget) data.ministries).take o.limit,
    take_sortByDesc_isTopK _ _ _ hnd, ?_, ?_⟩
  · simp [selectGlobalView, selectGlobalMinistries, hd]
  · have hsum := sum_take_add_sum_drop (fun m => m.totalBudget)
      (sortByDesc (fun m => m.totalBudget) data.ministries) o.limit
    have hperm := sortByDesc_sum (fun m => m.totalBudget) (fun m => m.totalBudget)
      data.ministries
    simp only [selectGlobalView, selectGlobalMinistries, hd]
    simp only [gt_iff_lt, lt_self_iff_false, if_false]
    linarith

/-- Witness for C3 at the concrete store: two kept ministries (A and B) and
a leftover bucket of 10. -/
theorem c3_witness :
    ∃ kept : List MinistryNode,
      IsTopKByDesc (fun m => m.totalBudget) exSelOpts.limit exData.ministries kept ∧
      (selectGlobalView exData exSelOpts).topMinistries = kept.map (fun m =>
        { name := m.name, id := m.id, totalBudget := m.totalBudget,
          bureauCount := m.bureauCount }) ∧
      (selectGlobalView exData exSelOpts).otherMinistriesBudget =
        sumBy (fun m => m.totalBudget) exData.ministries -
          sumBy (fun m => m.totalBudget) kept :=
  c3_global_topk_ministries exData exSelOpts (selectGlobalView exData exSelOpts)
    rfl rfl rfl rfl (by decide) rfl

/-! Claim C9: mutation of the Record Store. -/

/-- Claim C9 counterexample.  `selectData` in Global mode sorts the cached
store's `budgetTree.ministries` array in place (source line 1336,
`Array.prototype.sort` mutates its receiver), so after the request the
loaded data is NOT unchanged: the element order of `ministries` differs. -/
theorem c9_counterexample : storeAfterSelectData exData exSelOpts ≠ exData := by decide

/-- Claim C9 amended.  The engine never changes the budgets, spendings,
statistics or metadata of the store, and never adds, removes or edits a
ministry record — but Global-mode selection reorders the `ministries` array
in place (it remains a permutation of the original); with any focused
target the store is untouched. -/
theorem c9_store_mutation_amended (data : RS2024StructuredData) (o : SelectOptions) :
    (storeAfterSelectData data o).budgets = data.budgets ∧
    (storeAfterSelectData data o).spendings = data.spendings ∧
    (storeAfterSelectData data o).statisticsByMinistry = data.statisticsByMinistry ∧
    (storeAfterSelectData data o).metadata = data.metadata ∧
    List.Perm (storeAfterSelectData data o).ministries data.ministries ∧
    ((truthy o.targetRecipientName ∨ truthy o.targetProjectName ∨
        truthy o.targetMinistryName) →
      storeAfterSelectData data o = data) := by
  unfold storeAfterSelectData
  by_cases h : (truthy o.targetRecipientName || truthy o.targetProjectName ||
      truthy o.targetMinistryName) = true
  · rw [if_pos h]
    exact ⟨rfl, rfl, rfl, rfl, List.Perm.refl _, fun _ => rfl⟩
  · rw [if_neg h]
    refine ⟨rfl, rfl, rfl, rfl, sortByDesc_perm _ _, ?_⟩
    intro hcontra
    exfalso
    apply h
    rcases hcontra with h1 | h1 | h1 <;> simp [h1]

/-- Witness for the C9 amended theorem: with a Ministry-focused target the
store is untouched. -/
theorem c9_witness :
    storeAfterSelectData exData
      { exSelOpts with targetMinistryName := some "A" } = exData :=
  (c9_store_mutation_amended exData
    { exSelOpts with targetMinistryName := some "A" }).2.2.2.2.2
    (Or.inr (Or.inr (by decide)))

/-! Claim C2: NotFound behaviour of the focused views. -/

/-- Options asking for a recipient that matches no record. -/
def c2Opts : GenerateOptions := { targetRecipientName := some "X" }

/-- Claim C2 counterexample.  A Recipient-focused query whose target matches
no spending record does NOT fail: `selectData` silently proceeds with an
empty selection (source lines 1172-1175) and the engine returns a success
envelope. -/
theorem c2_counterexample :
    ∃ result, computeSankeyResult exData c2Opts "t" = .ok result :=
  ⟨_, rfl⟩

/-- A Spending-view selection over a name that matches no record is the
empty selection. -/
theorem selectSpendingView_of_no_match (data : RS2024StructuredData) (o : SelectOptions)
    (name : String)
    (h : data.spendings.filter (fun s => s.spendingName = name) = []) :
    selectSpendingView data o name = emptySelection := by
  simp [selectSpendingView, h]

/-- The spending view built over the empty selection: a single zero-valued
recipient-root node and no links. -/
theorem buildSpendingView_empty (o : BuildOptions) (name : String) :
    buildSpendingView emptySelection o name =
      { nodes := [{ id := .recipientRoot, name := name, type := .recipient, value := 0 }],
        links := [] } := by
  simp [buildSpendingView, svRecipientRootNode, svPosProjects, svProjectSpendingNodes,
    svProjectBudgetNodes, svMinistryBudgetNodes, svOtherProjectsNodes, svOtherMinistriesNodes,
    svLinksSpendingToRecipient, svLinksBudgetToSpending, svLinksMinistryToBudget,
    svOtherProjectsLinks, svOtherMinistriesLinks, emptySelection, sumBy]

/-- Claim C2 amended.  Ministry- and Project-focused requests whose target
matches no record raise the corresponding NotFound error and never return
an envelope; a Recipient-focused request whose target matches no spending
record instead returns a SUCCESS envelope whose graph consists of a single
zero-valued recipient-root node and no links. -/
theorem c2_notfound_amended (data : RS2024StructuredData) (go : GenerateOptions)
    (now : String) :
    (truthy go.targetProjectName → go.targetRecipientName = none →
      (∀ b ∈ data.budgets, b.projectName ≠ go.targetProjectName.getD "") →
      computeSankeyResult data go now =
        .error ("Project not found: " ++ go.targetProjectName.getD "")) ∧
    (truthy go.targetMinistryName → go.targetRecipientName = none →
      go.targetProjectName = none →
      (∀ m ∈ data.ministries, m.name ≠ go.targetMinistryName.getD "") →
      computeSankeyResult data go now =
        .error ("Ministry not found: " ++ go.targetMinistryName.getD "")) ∧
    (truthy go.targetRecipientName →
      (∀ s ∈ data.spendings, s.spendingName ≠ go.targetRecipientName.getD "") →
      ∃ result, computeSankeyResult data go now = .ok result ∧
        result.sankey =
          { nodes := [{ id := .recipientRoot, name := go.targetRecipientName.getD "",
                        type := .recipient, value := 0 }],
            links := [] }) := by
  refine ⟨?_, ?_, ?_⟩
  · intro htp htr hnone
    have htp' : ¬ (go.targetProjectName.getD "" = "") := by simpa [truthy] using htp
    have hfind : data.budgets.find?
        (fun b => b.projectName = go.targetProjectName.getD "") = none := by
      rw [List.find?_eq_none]
      intro b hb
      simpa using hnone b hb
    simp [computeSankeyResult, selectData, htr, truthy, htp', hfind]
    rfl
  · intro htm htr htp hnone
    have htm' : ¬ (go.targetMinistryName.getD "" = "") := by simpa [truthy] using htm
    have hfind : data.ministries.find?
        (fun m => m.name = go.targetMinistryName.getD "") = none := by
      rw [List.find?_eq_none]
      intro m hm
      simpa using hnone m hm
    simp [computeSankeyResult, selectData, htr, htp, truthy, htm', hfind]
    rfl
  · intro htr hnone
    have hfilter : data.spendings.filter
        (fun s => s.spendingName = go.targetRecipientName.getD "") = [] := by
      rw [List.filter_eq_nil_iff]
      intro s hs
      simpa using hnone s hs
    have htr' : ¬ (go.targetRecipientName.getD "" = "") := by simpa [truthy] using htr
    simp [computeSankeyResult, selectData, truthy, htr',
      selectSpendingView_of_no_match _ _ _ hfilter, buildSankeyData,
      buildSpendingView_empty]
    exact ⟨_, rfl, by simp [buildSpendingView_empty]⟩

/-- Witness for the C2 amended theorem: the unknown-project branch at a
concrete store. -/
theorem c2_witness :
    computeSankeyResult exData { targetProjectName := some "missing" } "t" =
      .error ("Project not found: " ++ "missing") :=
  (c2_notfound_amended exData { targetProjectName := some "missing" } "t").1
    (by decide) rfl (by decide)

/-! Claim C8: cache idempotence, boundedness and FIFO eviction. -/

/-- Claim C8 (confirmed).  Two calls whose options normalize to the same
canonical tuple return structurally identical envelopes: the second call is
served from the cache (it returns the stored envelope — `generatedAt`
included — and leaves the cache untouched, so nothing is recomputed).  The
cache stays bounded by `CACHE_SIZE_LIMIT`, and when it is full a miss
evicts exactly the oldest (first-inserted) entry before inserting. -/
theorem c8_cache_idempotent_fifo (data : RS2024StructuredData) (o1 o2 : GenerateOptions)
    (now1 now2 : String) (cache : ResultCache) (r1 : RS2024PresetData) (c1 : ResultCache)
    (hkey : getCacheKey o1 = getCacheKey o2)
    (h1 : generateSankeyData data o1 now1 cache = .ok (r1, c1)) :
    generateSankeyData data o2 now2 c1 = .ok (r1, c1) ∧
    (cache.length ≤ CACHE_SIZE_LIMIT → c1.length ≤ CACHE_SIZE_LIMIT) ∧
    (cache.length = CACHE_SIZE_LIMIT → mapGet cache (getCacheKey o1) = none →
      c1 = mapSet (cache.drop 1) (getCacheKey o1) r1) := by
  unfold generateSankeyData at h1 ⊢
  rcases hc : mapGet cache (getCacheKey o1) with _ | r
  · -- first call was a miss
    simp only [hc] at h1
    rcases hres : computeSankeyResult data o1 now1 with e | result
    · rw [hres] at h1
      cases h1
    · rw [hres] at h1
      injection h1 with h1'
      injection h1' with hr hcache
      subst hr
      subst hcache
      have habsent : mapGet (if cache.length ≥ CACHE_SIZE_LIMIT then cache.drop 1 else cache)
          (getCacheKey o1) = none := by
        split
        · exact mapGet_drop_eq_none cache (getCacheKey o1) 1 hc
        · exact hc
      have hget2 : mapGet (cacheEvictInsert cache (getCacheKey o1) result) (getCacheKey o2) =
          some result := by
        rw [← hkey]
        unfold cacheEvictInsert
        exact mapGet_mapSet_self _ _ _
      refine ⟨?_, ?_, ?_⟩
      · simp only [hget2]
      · intro hb
        unfold cacheEvictInsert
        rw [length_mapSet_of_get_none _ _ _ habsent]
        unfold CACHE_SIZE_LIMIT at hb ⊢
        split <;> rename_i hsplit <;> simp at hsplit ⊢ <;> omega
      · intro hfull _
        unfold cacheEvictInsert
        rw [if_pos (le_of_eq hfull.symm)]
  · -- first call was a hit: the stored envelope comes back, cache unchanged
    simp only [hc] at h1
    injection h1 with h1'
    injection h1' with hr hcache
    subst hr
    subst hcache
    have hget2 : mapGet cache (getCacheKey o2) = some r := by rw [← hkey]; exact hc
    refine ⟨?_, fun hb => hb, fun _ habs => ?_⟩
    · simp only [hget2]
    · exact Option.noConfusion habs

/-- An empty record store for the cache witness. -/
def c8Data : RS2024StructuredData := ⟨[], [], [], [], ⟨0, 0, 0⟩⟩

/-- Witness for C8: two default-option calls; the second returns the very
envelope stored by the first and leaves the cache unchanged. -/
theorem c8_witness :
    ∃ r1 c1, generateSankeyData c8Data {} "t1" [] = .ok (r1, c1) ∧
      generateSankeyData c8Data {} "t2" c1 = .ok (r1, c1) := by
  refine ⟨_, _, rfl, ?_⟩
  exact (c8_cache_idempotent_fifo c8Data {} {} "t1" "t2" [] _ _ rfl rfl).1

/-! Claim C5: the budget → spending edge and the zero-budget sentinel. -/

/-- Claim C5 (confirmed).  For every kept project with at least one
recipient, in the standard views: (1) the builder emits exactly one
budget → spending edge for it, valued `min(totalBudget, totalSpendingAmount)`
— replaced by the fixed sentinel when the budget is 0 and spending exists;
(2) the project-budget node likewise carries the sentinel instead of 0 in
that case; (3) the edge survives pruning whenever its value is positive;
(4) in the Project view the incoming `total-budget` → project-budget edge
also carries the sentinel in the zero-budget case; and (5) the
project-spending → recipient edge of a kept recipient carries the real
contribution amount (Ministry/Project views, positive contributions). -/
theorem c5_min_edge_and_sentinel (sel : DataSelection) (fullData : RS2024StructuredData)
    (o : BuildOptions) (p : BudgetRecord)
    (htr : o.targetRecipientName = none)
    (hp : p ∈ sel.topProjects) (hids : p.spendingIds ≠ []) :
    (SankeyLink.mk (.projectBudget p.projectId) (.projectSpending p.projectId)
        (if p.totalBudget = 0 ∧ p.totalSpendingAmount > 0 then dummyValue
         else min p.totalBudget p.totalSpendingAmount) ∈ stdRawLinks sel fullData o) ∧
    (SankeyNode.mk (.projectBudget p.projectId) p.projectName .projectBudget
        (if p.totalBudget = 0 ∧ p.totalSpendingAmount > 0 then dummyValue else p.totalBudget)
        (some p.projectId) ∈ stdRawNodes sel fullData o) ∧
    (0 < (if p.totalBudget = 0 ∧ p.totalSpendingAmount > 0 then dummyValue
         else min p.totalBudget p.totalSpendingAmount) →
      SankeyLink.mk (.projectBudget p.projectId) (.projectSpending p.projectId)
        (if p.totalBudget = 0 ∧ p.totalSpendingAmount > 0 then dummyValue
         else min p.totalBudget p.totalSpendingAmount) ∈
        (buildSankeyData sel fullData o).links) ∧
    (truthy o.targetProjectName → p.totalBudget = 0 → p.totalSpendingAmount > 0 →
      SankeyLink.mk .totalBudget (.projectBudget p.projectId) dummyValue ∈
        stdRawLinks sel fullData o) ∧
    (isGlobalView o = false → ∀ s ∈ sel.topSpendings, ∀ c : SpendingProject,
      s.projects.find? (fun q => q.projectId = p.projectId) = some c → 0 < c.amount →
      SankeyLink.mk (.projectSpending p.projectId) (.recipient s.spendingId) c.amount ∈
        (buildSankeyData sel fullData o).links) := by
  have hmem5 : SankeyLink.mk (.projectBudget p.projectId) (.projectSpending p.projectId)
      (if p.totalBudget = 0 ∧ p.totalSpendingAmount > 0 then dummyValue
       else min p.totalBudget p.totalSpendingAmount) ∈ stdLinksBudgetToSpending sel := by
    refine List.mem_map.mpr ⟨p, ?_, ?_⟩
    · refine List.mem_filter.mpr ⟨hp, ?_⟩
      simp [hids]
    · simp [projectBudgetToSpendingValue]
  have hnode : SankeyNode.mk (.projectBudget p.projectId) p.projectName .projectBudget
      (if p.totalBudget = 0 ∧ p.totalSpendingAmount > 0 then dummyValue else p.totalBudget)
      (some p.projectId) ∈ stdProjectBudgetNodes sel := by
    refine List.mem_map.mpr ⟨p, hp, ?_⟩
    simp [projectBudgetNodeValue]
  have hnotr : truthy o.targetRecipientName = false := by simp [truthy, htr]
  refine ⟨?_, ?_, ?_, ?_, ?_⟩
  · simp only [stdRawLinks, List.mem_append]
    tauto
  · simp only [stdRawNodes, stdNodesBeforeRecipients, List.mem_append]
    tauto
  · intro hv
    simp only [buildSankeyData, hnotr, Bool.false_eq_true, if_false, pruneSankey]
    refine List.mem_filter.mpr ⟨?_, by simpa using hv⟩
    simp only [stdRawLinks, List.mem_append]
    tauto
  · intro htp hb0 hs0
    have hmem2 : SankeyLink.mk .totalBudget (.projectBudget p.projectId) dummyValue ∈
        stdLinksIntoProjectBudgets sel o := by
      refine List.mem_filterMap.mpr ⟨p, hp, ?_⟩
      simp [htp, projectBudgetNodeValue, hb0, hs0]
    simp only [stdRawLinks, List.mem_append]
    tauto
  · intro hng s hs c hc hca
    have hmemr : SankeyLink.mk (.projectSpending p.projectId) (.recipient s.spendingId)
        c.amount ∈ (if isGlobalView o then stdGlobalRecipientLinks sel
          else stdNonGlobalRecipientLinks sel) := by
      rw [if_neg (by simp [hng])]
      refine List.mem_flatMap.mpr ⟨p, hp, ?_⟩
      refine List.mem_filterMap.mpr ⟨s, hs, ?_⟩
      have hcz : ¬ (c.amount = 0) := ne_of_gt hca
      rw [hc]
      simp [hcz]
    simp only [buildSankeyData, hnotr, Bool.false_eq_true, if_false, pruneSankey]
    refine List.mem_filter.mpr ⟨?_, by simpa using hca⟩
    simp only [stdRawLinks, List.mem_append]
    tauto

/-- Ministry for the C5 scenario store. -/
def c5Ministry : MinistryNode := ⟨5, "M5", 0, 0⟩
/-- The C5 scenario project: budget 0, spending 500, one recipient. -/
def c5Project : BudgetRecord := ⟨501, "Z", "M5", 0, yen 500, [301]⟩
/-- The C5 scenario recipient, paid 500 by the project. -/
def c5Recipient : SpendingRecord := ⟨301, "W", yen 500, 1, [⟨501, yen 500⟩]⟩
/-- The C5 scenario store. -/
def c5Data : RS2024StructuredData :=
  ⟨[c5Ministry], [c5Project], [c5Recipient], [("M5", yen 500)], ⟨1, 1, 0⟩⟩
/-- Project-focused selector options for the C5 scenario. -/
def c5SelOpts : SelectOptions := ⟨0, 0, 3, 3, 5, none, some "Z", none, 0⟩
/-- Project-focused builder options for the C5 scenario. -/
def c5BuildOpts : BuildOptions := ⟨0, none, some "Z", none, 3, 3, 5, 0⟩
/-- The C5 scenario selection, as the Selector produces it. -/
def c5Sel : DataSelection := selectProjectView c5Data c5SelOpts c5Project

/-- Witness for C5 at the spec's own Project-focused scenario
(`totalBudget = 0`, `totalSpendingAmount = 500`): the budget → spending edge
carries the sentinel, and the spending → recipient edge carries the real
500. -/
theorem c5_witness :
    (SankeyLink.mk (.projectBudget 501) (.projectSpending 501) dummyValue ∈
      stdRawLinks c5Sel c5Data c5BuildOpts) ∧
    (SankeyLink.mk (.projectSpending 501) (.recipient 301) (yen 500) ∈
      (buildSankeyData c5Sel c5Data c5BuildOpts).links) := by
  have h := c5_min_edge_and_sentinel c5Sel c5Data c5BuildOpts c5Project rfl
    (by decide) (by decide)
  refine ⟨?_, ?_⟩
  · have h1 := h.1
    simpa using h1
  · have h5 := h.2.2.2.2 (by decide) c5Recipient (by decide) ⟨501, yen 500⟩ (by decide)
      (by decide)
    simpa using h5

/-! Claim C1: flow conservation. -/

/-- Sum of the outgoing edge values of a node. -/
def outflow (links : List SankeyLink) (id : NodeId) : Money :=
  sumBy (fun l => l.value) (links.filter (fun l => l.source = id))

/-- A value with the sentinel dummy treated as zero (the claim's reading of
the conservation check). -/
def adjValue (v : Money) : Money := if v = dummyValue then 0 else v

/-- Sum of the outgoing edge values of a node, sentinel treated as zero. -/
def outflowAdj (links : List SankeyLink) (id : NodeId) : Money :=
  sumBy (fun l => adjValue l.value) (links.filter (fun l => l.source = id))

/-- The graph the engine emits for the concrete Global request. -/
def exOut : SankeyData :=
  buildSankeyData (selectGlobalView exData exSelOpts) exData exBuildOpts

/-- Claim C1 counterexample.  In the emitted Global-mode graph the
project-budget node of P1 carries value 100 while its only outgoing edge
carries `min(budget, spending) = 80`: the node is non-terminal (it has both
an incoming and an outgoing edge), no sentinel is involved, and the deficit
of 20 currency units far exceeds the 1-unit tolerance. -/
theorem c1_counterexample :
    (SankeyNode.mk (.projectBudget 101) "P1" .projectBudget (yen 100) (some 101) ∈
      exOut.nodes) ∧
    (∃ l ∈ exOut.links, l.source = NodeId.projectBudget 101) ∧
    (∃ l ∈ exOut.links, l.target = NodeId.projectBudget 101) ∧
    outflowAdj exOut.links (.projectBudget 101) = yen 80 ∧
    ¬ (yen 100 - outflowAdj exOut.links (.projectBudget 101) ≤ yen 1) := by
  refine ⟨by decide, ⟨⟨.projectBudget 101, .projectSpending 101, yen 80⟩, by decide, rfl⟩,
    ⟨⟨.ministryBudget 1, .projectBudget 101, yen 100⟩, by decide, rfl⟩, by decide, by decide⟩

/-! Support lemmas for the flow-conservation theorem (claim C1). -/

theorem sumBy_append (f : α → Money) (l1 l2 : List α) :
    sumBy f (l1 ++ l2) = sumBy f l1 + sumBy f l2 := by
  simp [sumBy]

theorem outflow_append (l1 l2 : List SankeyLink) (id : NodeId) :
    outflow (l1 ++ l2) id = outflow l1 id + outflow l2 id := by
  simp [outflow, List.filter_append, sumBy_append]

theorem outflowAdj_append (l1 l2 : List SankeyLink) (id : NodeId) :
    outflowAdj (l1 ++ l2) id = outflowAdj l1 id + outflowAdj l2 id := by
  simp [outflowAdj, List.filter_append, sumBy_append]

theorem outflow_eq_zero (ls : List SankeyLink) (id : NodeId)
    (h : ∀ l ∈ ls, l.source ≠ id) : outflow ls id = 0 := by
  have : ls.filter (fun l => l.source = id) = [] := by
    simp only [List.filter_eq_nil_iff]
    intro l hl
    simpa using h l hl
  simp [outflow, this, sumBy]

theorem outflowAdj_eq_zero (ls : List SankeyLink) (id : NodeId)
    (h : ∀ l ∈ ls, l.source ≠ id) : outflowAdj ls id = 0 := by
  have : ls.filter (fun l => l.source = id) = [] := by
    simp only [List.filter_eq_nil_iff]
    intro l hl
    simpa using h l hl
  simp [outflowAdj, this, sumBy]

theorem outflow_all (ls : List SankeyLink) (id : NodeId)
    (h : ∀ l ∈ ls, l.source = id) : outflow ls id = sumBy (fun l => l.value) ls := by
  have : ls.filter (fun l => l.source = id) = ls := by
    rw [List.filter_eq_self]
    intro l hl
    simpa using h l hl
  simp [outflow, this]

theorem mapGet_mapSet_ne [DecidableEq κ] (m : List (κ × β)) (k k' : κ) (v : β)
    (hne : k' ≠ k) : mapGet (mapSet m k v) k' = mapGet m k' := by
  induction m with
  | nil => simp [mapSet, mapGet, Ne.symm hne]
  | cons e t ih =>
    by_cases h : e.1 = k
    · have he : ¬ e.1 = k' := by rw [h]; exact Ne.symm hne
      simp [mapSet, h, mapGet, List.find?_cons, Ne.symm hne, he]
    · simp only [mapSet, if_neg h]
      by_cases h2 : e.1 = k'
      · simp [mapGet, List.find?_cons, h2]
      · simpa [mapGet, List.find?_cons, h2] using ih

theorem adjValue_of_dvd (v : Money) (h : (1000 : Int) ∣ v) : adjValue v = v := by
  have : v ≠ dummyValue := by
    intro he
    rw [he] at h
    simp only [dummyValue] at h
    omega
  simp [adjValue, this]

theorem adjValue_pbnv (p : BudgetRecord) (h : (1000 : Int) ∣ p.totalBudget) :
    adjValue (projectBudgetNodeValue p) = p.totalBudget := by
  by_cases hz : p.totalBudget = 0 ∧ p.totalSpendingAmount > 0
  · simp [projectBudgetNodeValue, hz, adjValue, dummyValue, hz.1]
  · rw [projectBudgetNodeValue, if_neg hz]
    exact adjValue_of_dvd _ h

theorem map_nodup_inj {f : α → β} {l : List α} (h : (l.map f).Nodup)
    {x y : α} (hx : x ∈ l) (hy : y ∈ l) (hf : f x = f y) : x = y :=
  List.inj_on_of_nodup_map h hx hy hf

theorem sumBy_sublist_le (f : α → Money) {l1 l2 : List α} (h : l1.Sublist l2)
    (hf : ∀ x ∈ l2, 0 ≤ f x) : sumBy f l1 ≤ sumBy f l2 := by
  induction h with
  | slnil => simp
  | cons a hs ih =>
    have := ih (fun x hx => hf x (List.mem_cons_of_mem a hx))
    have ha : 0 ≤ f a := hf a (List.mem_cons_self a _)
    simp only [sumBy, List.map_cons, List.sum_cons] at *
    linarith
  | cons₂ a hs ih =>
    have := ih (fun x hx => hf x (List.mem_cons_of_mem a hx))
    simp only [sumBy, List.map_cons, List.sum_cons] at *
    linarith

theorem sumBy_perm (f : α → Money) {l1 l2 : List α} (h : List.Perm l1 l2) :
    sumBy f l1 = sumBy f l2 :=
  (h.map f).sum_eq

theorem sumBy_subperm_le (f : α → Money) {l1 l2 : List α} (h : List.Subperm l1 l2)
    (hf : ∀ x ∈ l2, 0 ≤ f x) : sumBy f l1 ≤ sumBy f l2 := by
  obtain ⟨l', hp, hs⟩ := h
  calc sumBy f l1 = sumBy f l' := (sumBy_perm f hp).symm
    _ ≤ sumBy f l2 := sumBy_sublist_le f hs hf

theorem subperm_filter {l1 l2 : List α} (p : α → Bool) (h : List.Subperm l1 l2) :
    List.Subperm (l1.filter p) (l2.filter p) := by
  obtain ⟨l', hp, hs⟩ := h
  exact ⟨l'.filter p, hp.filter p, hs.filter p⟩

theorem dvd_sumBy (d : Int) (f : α → Money) (l : List α)
    (h : ∀ x ∈ l, d ∣ f x) : d ∣ sumBy f l := by
  induction l with
  | nil => simp [sumBy]
  | cons a t ih =>
    simp only [sumBy, List.map_cons, List.sum_cons]
    exact dvd_add (h a (List.mem_cons_self a t))
      (ih (fun x hx => h x (List.mem_cons_of_mem a hx)))

theorem sumBy_nonneg (f : α → Money) (l : List α) (h : ∀ x ∈ l, 0 ≤ f x) :
    0 ≤ sumBy f l := by
  induction l with
  | nil => simp [sumBy]
  | cons a t ih =>
    have := ih (fun x hx => h x (List.mem_cons_of_mem a hx))
    have := h a (List.mem_cons_self a t)
    simp only [sumBy, List.map_cons, List.sum_cons] at *
    linarith

/-- The kept Global-view ministries are a tuple image of a sublist of the
descending-sorted ministry list, in both drilldown branches. -/
theorem selectGlobalMinistries_shape (data : RS2024StructuredData) (o : SelectOptions) :
    ∃ base : List MinistryNode,
      base.Sublist (sortByDesc (fun m => m.totalBudget) data.ministries) ∧
      (selectGlobalMinistries data o).1 = base.map (fun m =>
        { name := m.name, id := m.id, totalBudget := m.totalBudget,
          bureauCount := m.bureauCount : TopMinistry }) := by
  by_cases h : o.drilldownLevel > 0
  · exact ⟨((sortByDesc (fun m => m.totalBudget) data.ministries).drop
        (o.limit * o.drilldownLevel)).take o.limit,
      (List.take_sublist _ _).trans (List.drop_sublist _ _),
      by simp [selectGlobalMinistries, h]⟩
  · exact ⟨(sortByDesc (fun m => m.totalBudget) data.ministries).take o.limit,
      List.take_sublist _ _, by simp [selectGlobalMinistries, h]⟩

/-- Every kept Global-view ministry tuple comes from a source ministry
record with the same name, id and budget. -/
theorem topMinistry_mem_source (data : RS2024StructuredData) (o : SelectOptions)
    (m : TopMinistry) (hm : m ∈ (selectGlobalMinistries data o).1) :
    ∃ mm ∈ data.ministries, m.name = mm.name ∧ m.id = mm.id ∧
      m.totalBudget = mm.totalBudget := by
  obtain ⟨base, hsub, heq⟩ := selectGlobalMinistries_shape data o
  rw [heq] at hm
  obtain ⟨mm, hmm, rfl⟩ := List.mem_map.1 hm
  exact ⟨mm, (sortByDesc_perm _ _).subset (hsub.subset hmm), rfl, rfl, rfl⟩

theorem topMinistries_names_nodup (data : RS2024StructuredData) (o : SelectOptions)
    (h : (data.ministries.map (fun m => m.name)).Nodup) :
    (((selectGlobalMinistries data o).1).map (fun m => m.name)).Nodup := by
  obtain ⟨base, hsub, heq⟩ := selectGlobalMinistries_shape data o
  rw [heq, List.map_map]
  have hsorted : ((sortByDesc (fun m => m.totalBudget) data.ministries).map
      (fun m => m.name)).Nodup :=
    (((sortByDesc_perm (fun m => m.totalBudget) data.ministries).map _).nodup_iff).2 h
  exact (hsub.map _).nodup hsorted

theorem topMinistries_ids_nodup (data : RS2024StructuredData) (o : SelectOptions)
    (h : (data.ministries.map (fun m => m.id)).Nodup) :
    (((selectGlobalMinistries data o).1).map (fun m => m.id)).Nodup := by
  obtain ⟨base, hsub, heq⟩ := selectGlobalMinistries_shape data o
  rw [heq, List.map_map]
  have hsorted : ((sortByDesc (fun m => m.totalBudget) data.ministries).map
      (fun m => m.id)).Nodup :=
    (((sortByDesc_perm (fun m => m.totalBudget) data.ministries).map _).nodup_iff).2 h
  exact (hsub.map _).nodup hsorted

theorem otherMinistriesBudget_nonneg (data : RS2024StructuredData) (o : SelectOptions)
    (h : ∀ mm ∈ data.ministries, 0 ≤ mm.totalBudget) :
    0 ≤ (selectGlobalMinistries data o).2.1 := by
  unfold selectGlobalMinistries
  by_cases hd : o.drilldownLevel > 0 <;>
    simp only [hd, if_true, if_false] <;>
    (apply sumBy_nonneg
     intro x hx
     first
     | exact h x ((sortByDesc_perm _ _).subset
         (List.mem_of_mem_drop (List.mem_of_mem_drop hx)))
     | exact h x ((sortByDesc_perm _ _).subset (List.mem_of_mem_drop hx)))

/-- The Global-view `projectsFromSelectedMinistries` (source line 1393). -/
def globalSelectedProjects (data : RS2024StructuredData) (o : SelectOptions) :
    List BudgetRecord :=
  data.budgets.filter (fun b =>
    ((selectGlobalMinistries data o).1.map (fun m => m.name)).contains b.ministry)

/-- The Global-view `recipientSpendingFromSelectedMinistries` map. -/
def globalRecipientMoneyMap (data : RS2024StructuredData) (o : SelectOptions) :
    List (Int × Money) :=
  recipientSpendingFromSelectedMinistriesMap data (globalSelectedProjects data o)

/-- The Global-view `topRecipients` list (source lines 1414-1427). -/
def globalTopRecipients (data : RS2024StructuredData) (o : SelectOptions) :
    List SpendingRecord :=
  (sortByDesc (fun s => mapGetD (globalRecipientMoneyMap data o) s.spendingId 0)
    (data.spendings.filter (fun s => mapMem (globalRecipientMoneyMap data o) s.spendingId))).take
    o.spendingLimit

/-- The Global-view `projectSpendingToTopRecipients` map. -/
def globalProjToTopMap (data : RS2024StructuredData) (o : SelectOptions) :
    List (Int × Money) :=
  projectSpendingToTopRecipientsMap data (globalSelectedProjects data o)
    ((globalTopRecipients data o).map (fun r => r.spendingId))

/-- The Global-view `topProjects` list (source lines 1449-1458). -/
def globalTopProjects (data : RS2024StructuredData) (o : SelectOptions) :
    List BudgetRecord :=
  (sortByDesc (fun b => mapGetD (globalProjToTopMap data o) b.projectId 0)
    ((globalSelectedProjects data o).filter
      (fun b => mapMem (globalProjToTopMap data o) b.projectId))).take o.spendingLimit

theorem selectGlobalView_topMinistries (data : RS2024StructuredData) (o : SelectOptions) :
    (selectGlobalView data o).topMinistries = (selectGlobalMinistries data o).1 := rfl

theorem selectGlobalView_otherMinistriesBudget (data : RS2024StructuredData)
    (o : SelectOptions) :
    (selectGlobalView data o).otherMinistriesBudget = (selectGlobalMinistries data o).2.1 := rfl

theorem selectGlobalView_topProjects (data : RS2024StructuredData) (o : SelectOptions) :
    (selectGlobalView data o).topProjects = globalTopProjects data o := rfl

theorem selectGlobalView_otherProjectsBudgetByMinistry (data : RS2024StructuredData)
    (o : SelectOptions) :
    (selectGlobalView data o).otherProjectsBudgetByMinistry =
      (globalOtherBuckets data (selectGlobalMinistries data o).1
        (globalTopProjects data o)).1 := rfl

/-- The kept Global-view projects are drawn (without duplication) from the
budget records. -/
theorem globalTopProjects_subperm (data : RS2024StructuredData) (o : SelectOptions) :
    List.Subperm (globalTopProjects data o) data.budgets := by
  have h1 : List.Sublist (globalTopProjects data o)
      (sortByDesc (fun b => mapGetD (globalProjToTopMap data o) b.projectId 0)
        ((globalSelectedProjects data o).filter
          (fun b => mapMem (globalProjToTopMap data o) b.projectId))) :=
    List.take_sublist _ _
  have h2 := sortByDesc_perm (fun b => mapGetD (globalProjToTopMap data o) b.projectId 0)
    ((globalSelectedProjects data o).filter
      (fun b => mapMem (globalProjToTopMap data o) b.projectId))
  have h3 : List.Sublist ((globalSelectedProjects data o).filter
      (fun b => mapMem (globalProjToTopMap data o) b.projectId)) (globalSelectedProjects data o) :=
    List.filter_sublist _
  have h4 : List.Sublist (globalSelectedProjects data o) data.budgets :=
    List.filter_sublist _
  exact (h1.subperm.trans h2.subperm).trans ((h3.trans h4).subperm)

/-- Every kept Global-view project belongs to one of the kept ministries. -/
theorem globalTopProjects_ministry_mem (data : RS2024StructuredData) (o : SelectOptions)
    (p : BudgetRecord) (hp : p ∈ globalTopProjects data o) :
    ∃ m ∈ (selectGlobalMinistries data o).1, m.name = p.ministry := by
  have h1 : p ∈ sortByDesc (fun b => mapGetD (globalProjToTopMap data o) b.projectId 0)
      ((globalSelectedProjects data o).filter
        (fun b => mapMem (globalProjToTopMap data o) b.projectId)) :=
    List.mem_of_mem_take hp
  have h2 : p ∈ (globalSelectedProjects data o).filter
      (fun b => mapMem (globalProjToTopMap data o) b.projectId) :=
    (sortByDesc_perm _ _).subset h1
  have h3 : p ∈ globalSelectedProjects data o := (List.mem_filter.1 h2).1
  have h4 := (List.mem_filter.1 h3).2
  have h5 : p.ministry ∈ (selectGlobalMinistries data o).1.map (fun m => m.name) := by
    simpa using h4
  obtain ⟨m, hm, hname⟩ := List.mem_map.1 h5
  exact ⟨m, hm, hname⟩

/-- One iteration of the Global-view leftover-buckets loop (the foldl body of
`globalOtherBuckets`). -/
def globalOtherBucketsStep (data : RS2024StructuredData) (topProjects : List BudgetRecord)
    (acc : List (String × Money) × List (String × Money)) (ministry : TopMinistry) :
    List (String × Money) × List (String × Money) :=
  let ministryProjects := topProjects.filter (fun p => p.ministry = ministry.name)
  let usedBudget := sumBy (fun p => p.totalBudget) ministryProjects
  let otherBudget := ministry.totalBudget - usedBudget
  let accB := if otherBudget > 0 then mapSet acc.1 ministry.name otherBudget else acc.1
  let totalSpending := mapGetD data.statisticsByMinistry ministry.name 0
  let usedSpending := sumBy (fun p => p.totalSpendingAmount) ministryProjects
  let otherSpending := totalSpending - usedSpending
  let accS := if otherSpending > 0 then mapSet acc.2 ministry.name otherSpending else acc.2
  (accB, accS)

theorem globalOtherBuckets_eq_foldl (data : RS2024StructuredData)
    (tops : List TopMinistry) (tp : List BudgetRecord) :
    globalOtherBuckets data tops tp = tops.foldl (globalOtherBucketsStep data tp) ([], []) :=
  rfl

theorem bucketsB_step_unchanged (data : RS2024StructuredData) (tp : List BudgetRecord)
    (acc : List (String × Money) × List (String × Money)) (a : TopMinistry) (k : String)
    (h : a.name ≠ k) :
    mapGet (globalOtherBucketsStep data tp acc a).1 k = mapGet acc.1 k := by
  simp only [globalOtherBucketsStep]
  by_cases hb : a.totalBudget -
      sumBy (fun p => p.totalBudget) (tp.filter (fun p => p.ministry = a.name)) > 0
  · simp only [hb, if_true]
    exact mapGet_mapSet_ne _ _ _ _ (Ne.symm h)
  · simp only [hb, if_false]

theorem bucketsB_foldl_unchanged (data : RS2024StructuredData) (tp : List BudgetRecord)
    (l : List TopMinistry)
    (acc : List (String × Money) × List (String × Money)) (k : String)
    (h : ∀ x ∈ l, x.name ≠ k) :
    mapGet (l.foldl (globalOtherBucketsStep data tp) acc).1 k = mapGet acc.1 k := by
  induction l generalizing acc with
  | nil => rfl
  | cons a t ih =>
    rw [List.foldl_cons, ih _ (fun x hx => h x (List.mem_cons_of_mem a hx))]
    exact bucketsB_step_unchanged data tp acc a k (h a (List.mem_cons_self a t))

/-- What the Global-view leftover-budget map holds for a processed ministry:
its positive leftover, or nothing (when the kept projects use everything or
more). -/
theorem bucketsB_foldl_get (data : RS2024StructuredData) (tp : List BudgetRecord)
    (l : List TopMinistry) (acc : List (String × Money) × List (String × Money))
    (m : TopMinistry) (hm : m ∈ l) (hnd : (l.map (fun x => x.name)).Nodup) :
    mapGet (l.foldl (globalOtherBucketsStep data tp) acc).1 m.name =
      (if m.totalBudget -
          sumBy (fun p => p.totalBudget) (tp.filter (fun p => p.ministry = m.name)) > 0 then
        some (m.totalBudget -
          sumBy (fun p => p.totalBudget) (tp.filter (fun p => p.ministry = m.name)))
      else mapGet acc.1 m.name) := by
  induction l generalizing acc with
  | nil => cases hm
  | cons a t ih =>
    rw [List.foldl_cons]
    have hnd' : (∀ x ∈ t, ¬ x.name = a.name) ∧ (t.map (fun x => x.name)).Nodup := by
      simpa using hnd
    rcases List.mem_cons.1 hm with rfl | hmt
    · have htail : ∀ x ∈ t, x.name ≠ m.name := fun x hx => hnd'.1 x hx
      rw [bucketsB_foldl_unchanged data tp t _ _ htail]
      simp only [globalOtherBucketsStep]
      by_cases hb : m.totalBudget -
          sumBy (fun p => p.totalBudget) (tp.filter (fun p => p.ministry = m.name)) > 0
      · simp [hb, mapGet_mapSet_self]
      · simp [hb]
    · have hne : a.name ≠ m.name := fun he => hnd'.1 m hmt he.symm
      have hnd2 : (t.map (fun x => x.name)).Nodup := hnd'.2
      rw [ih _ hmt (by simpa using hnd2),
        bucketsB_step_unchanged data tp acc a m.name hne]

theorem outflowAdj_cons (x : SankeyLink) (ls : List SankeyLink) (id : NodeId) :
    outflowAdj (x :: ls) id =
      (if x.source = id then adjValue x.value else 0) + outflowAdj ls id := by
  by_cases h : x.source = id <;> simp [outflowAdj, List.filter_cons, h, sumBy]

/-- The ministry → project links of the standard views, with the Project-view
branch discharged. -/
theorem stdLinksIntoProjectBudgets_of_notP (sel : DataSelection) (o : BuildOptions)
    (htp : truthy o.targetProjectName = false) :
    stdLinksIntoProjectBudgets sel o = sel.topProjects.filterMap (fun (p : BudgetRecord) =>
      match sel.topMinistries.find? (fun m => m.name = p.ministry) with
      | some ministry =>
        some { source := .ministryBudget ministry.id, target := .projectBudget p.projectId,
               value := projectBudgetNodeValue p }
      | none =>
        if isGlobalView o ∧ sel.otherMinistriesBudget > 0 then
          some { source := .ministryBudgetOther, target := .projectBudget p.projectId,
                 value := projectBudgetNodeValue p }
        else none) := by
  unfold stdLinksIntoProjectBudgets
  apply List.filterMap_congr
  intro p _
  simp [htp]

/-- Sentinel-adjusted outgoing flow of one ministry node through the
ministry → project links: exactly the summed budgets of its kept projects. -/
theorem outflowAdj_linksInto (tops : List TopMinistry) (m : TopMinistry)
    (hname : (tops.map (fun x => x.name)).Nodup)
    (hid : (tops.map (fun x => x.id)).Nodup) (hm : m ∈ tops)
    (gfall : BudgetRecord → Option SankeyLink) (l : List BudgetRecord)
    (hcov : ∀ p ∈ l, ∃ m' ∈ tops, m'.name = p.ministry)
    (hyen : ∀ p ∈ l, (1000 : Int) ∣ p.totalBudget) :
    outflowAdj (l.filterMap (fun (p : BudgetRecord) =>
      match tops.find? (fun m' => m'.name = p.ministry) with
      | some ministry =>
        some { source := .ministryBudget ministry.id, target := .projectBudget p.projectId,
               value := projectBudgetNodeValue p }
      | none => gfall p)) (.ministryBudget m.id) =
      sumBy (fun p => p.totalBudget) (l.filter (fun p => p.ministry = m.name)) := by
  induction l with
  | nil => simp [outflowAdj, sumBy]
  | cons p t ih =>
    have ih' := ih (fun q hq => hcov q (List.mem_cons_of_mem p hq))
      (fun q hq => hyen q (List.mem_cons_of_mem p hq))
    rcases hcov p (List.mem_cons_self p t) with ⟨m', hm', hm'name⟩
    have hsome : (tops.find? (fun m'' => m''.name = p.ministry)).isSome := by
      rw [List.find?_isSome]
      exact ⟨m', hm', by simp [hm'name]⟩
    obtain ⟨mf, heq⟩ := Option.isSome_iff_exists.1 hsome
    have hmemf : mf ∈ tops := List.mem_of_find?_eq_some heq
    have hnamef : mf.name = p.ministry := by simpa using List.find?_some heq
    rw [List.filterMap_cons, heq]
    rw [outflowAdj_cons]
    by_cases hpm : p.ministry = m.name
    · have hmf : mf = m := map_nodup_inj hname hmemf hm (by rw [hnamef, hpm])
      rw [List.filter_cons_of_pos (by simpa using hpm)]
      simp only [hmf, if_pos rfl, sumBy, List.map_cons, List.sum_cons]
      rw [adjValue_pbnv p (hyen p (List.mem_cons_self p t))]
      simp only [sumBy, List.map] at ih'
      rw [ih']
      simp
    · have hmf : mf ≠ m := by
        intro he
        exact hpm (by rw [← hnamef, he])
      have hidne : mf.id ≠ m.id := by
        intro he
        exact hmf (map_nodup_inj hid hmemf hm he)
      rw [List.filter_cons_of_neg (by simpa using hpm)]
      have hsrc : (NodeId.ministryBudget mf.id = NodeId.ministryBudget m.id) = False := by
        simp [hidne]
      simp only [hsrc, if_false, ih']
      ring

/-- Sentinel-adjusted outgoing flow of one ministry node through the
Global-view leftover-projects budget links: the ministry's positive leftover
(as recorded in the per-ministry map) or nothing. -/
theorem outflowAdj_globalOtherPerMinistry (tops : List TopMinistry)
    (mp : List (String × Money)) (m : TopMinistry) (hm : m ∈ tops)
    (hid : (tops.map (fun x => x.id)).Nodup) :
    outflowAdj ((tops.filterMap (fun ministry =>
        match mapGet mp ministry.name with
        | some v => if v ≠ 0 ∧ v > 0 then some (ministry, v) else none
        | none => none)).map (fun (e : TopMinistry × Money) =>
          { source := .ministryBudget e.1.id, target := .projectBudgetOtherGlobal,
            value := e.2 : SankeyLink })) (.ministryBudget m.id) =
      (match mapGet mp m.name with
       | some v => if v ≠ 0 ∧ v > 0 then adjValue v else 0
       | none => 0) := by
  induction tops with
  | nil => cases hm
  | cons a t ih =>
    have hid' : (∀ x ∈ t, ¬ x.id = a.id) ∧ (t.map (fun x => x.id)).Nodup := by
      simpa using hid
    have hzero_tail : ∀ (idm : TopMinistry), idm ∈ t → idm.id ≠ a.id :=
      fun idm hidm => hid'.1 idm hidm
    rcases List.mem_cons.1 hm with rfl | hmt
    · -- m is the head; every tail entry has a different ministry id
      have htail0 : outflowAdj ((t.filterMap (fun ministry =>
          match mapGet mp ministry.name with
          | some v => if v ≠ 0 ∧ v > 0 then some (ministry, v) else none
          | none => none)).map (fun (e : TopMinistry × Money) =>
            { source := .ministryBudget e.1.id, target := .projectBudgetOtherGlobal,
              value := e.2 : SankeyLink })) (.ministryBudget m.id) = 0 := by
        apply outflowAdj_eq_zero
        intro l hl
        obtain ⟨e, he, rfl⟩ := List.mem_map.1 hl
        obtain ⟨x, hx, hfx⟩ := List.mem_filterMap.1 he
        have hex : e.1 ∈ t := by
          rcases hmg : mapGet mp x.name with _ | v <;> simp only [hmg] at hfx
          · cases hfx
          · by_cases hc : v ≠ 0 ∧ v > 0
            · rw [if_pos hc] at hfx
              cases hfx
              exact hx
            · rw [if_neg hc] at hfx
              cases hfx
        simp only [ne_eq, NodeId.ministryBudget.injEq]
        exact hzero_tail e.1 hex
      rcases hmg : mapGet mp m.name with _ | v
      · simp only [List.filterMap_cons, hmg]
        simpa using htail0
      · simp only [List.filterMap_cons, hmg]
        by_cases hc : v ≠ 0 ∧ v > 0
        · rw [if_pos hc, List.map_cons, outflowAdj_cons]
          simp [htail0, hc]
        · rw [if_neg hc]
          simp only [hc, if_false]
          simpa using htail0
    · -- m sits in the tail; the head entry (if any) has a different id
      have hane : a.id ≠ m.id := fun he => hid'.1 m hmt he.symm
      have ih' := ih hmt (by simpa using hid'.2)
      rcases hmg : mapGet mp a.name with _ | v
      · simp only [List.filterMap_cons, hmg]
        exact ih'
      · simp only [List.filterMap_cons, hmg]
        by_cases hc : v ≠ 0 ∧ v > 0
        · rw [if_pos hc, List.map_cons, outflowAdj_cons]
          simp only [ih']
          simp [hane]
        · rw [if_neg hc]
          exact ih'

/-! Source shapes of the link groups, used to cut the outgoing-flow sums of
claim C1 down to the contributing groups. -/

theorem sources_totalToMinistries (sel : DataSelection) (o : BuildOptions) :
    ∀ l ∈ stdLinksTotalToMinistries sel o, l.source = .totalBudget := by
  intro l hl
  unfold stdLinksTotalToMinistries at hl
  split at hl
  · cases hl
  · rcases List.mem_append.1 hl with h | h
    · obtain ⟨m, _, rfl⟩ := List.mem_map.1 h
      rfl
    · split at h
      · rw [List.mem_singleton] at h
        subst h
        rfl
      · cases h

theorem sources_linksInto (sel : DataSelection) (o : BuildOptions)
    (htp : truthy o.targetProjectName = false) :
    ∀ l ∈ stdLinksIntoProjectBudgets sel o,
      (∃ i, l.source = .ministryBudget i) ∨ l.source = .ministryBudgetOther := by
  intro l hl
  rw [stdLinksIntoProjectBudgets_of_notP sel o htp] at hl
  obtain ⟨p, _, hfp⟩ := List.mem_filterMap.1 hl
  rcases heq : sel.topMinistries.find? (fun m => m.name = p.ministry) with _ | ministry <;>
    simp only [heq] at hfp
  · split at hfp
    · cases hfp
      exact Or.inr rfl
    · cases hfp
  · cases hfp
    exact Or.inl ⟨ministry.id, rfl⟩

theorem sources_globalOtherBudgetLinks (sel : DataSelection) (o : BuildOptions) :
    ∀ l ∈ stdGlobalOtherBudgetLinks sel o,
      (∃ i, l.source = .ministryBudget i) ∨ l.source = .ministryBudgetOther := by
  intro l hl
  unfold stdGlobalOtherBudgetLinks at hl
  split at hl
  · rcases List.mem_append.1 hl with h | h
    · obtain ⟨e, _, rfl⟩ := List.mem_map.1 h
      exact Or.inl ⟨e.1.id, rfl⟩
    · split at h
      · rw [List.mem_singleton] at h
        subst h
        exact Or.inr rfl
      · cases h
  · cases hl

theorem sources_budgetToSpending (sel : DataSelection) :
    ∀ l ∈ stdLinksBudgetToSpending sel, ∃ i, l.source = .projectBudget i := by
  intro l hl
  obtain ⟨p, _, rfl⟩ := List.mem_map.1 hl
  exact ⟨p.projectId, rfl⟩

theorem sources_globalOtherSpendingLinks (sel : DataSelection) (o : BuildOptions) :
    ∀ l ∈ stdGlobalOtherSpendingLinks sel o, l.source = .projectBudgetOtherGlobal := by
  intro l hl
  unfold stdGlobalOtherSpendingLinks at hl
  split at hl
  · dsimp only at hl
    split at hl
    · rw [List.mem_singleton] at hl
      subst hl
      rfl
    · cases hl
  · cases hl

theorem sources_globalRecipientLinks (sel : DataSelection) :
    ∀ l ∈ stdGlobalRecipientLinks sel, ∃ i, l.source = .projectSpending i := by
  intro l hl
  obtain ⟨s, _, hs⟩ := List.mem_flatMap.1 hl
  obtain ⟨sp, _, hsp⟩ := List.mem_filterMap.1 hs
  split at hsp
  · cases hsp
    exact ⟨sp.projectId, rfl⟩
  · cases hsp

theorem sources_otherNamedTop (sel : DataSelection) :
    ∀ l ∈ stdOtherNamedLinksFromTopProjects sel, ∃ i, l.source = .projectSpending i := by
  intro l hl
  unfold stdOtherNamedLinksFromTopProjects at hl
  split at hl
  · obtain ⟨e, _, he⟩ := List.mem_filterMap.1 hl
    simp only [Option.ite_none_right_eq_some, Option.some.injEq] at he
    obtain ⟨_, _, rfl⟩ := he
    exact ⟨e.1, rfl⟩
  · cases hl

theorem sources_noSpendingLinks (sel : DataSelection) :
    ∀ l ∈ stdNoSpendingLinks sel, ∃ i, l.source = .projectBudget i := by
  intro l hl
  unfold stdNoSpendingLinks at hl
  split at hl
  · obtain ⟨p, _, rfl⟩ := List.mem_map.1 hl
    exact ⟨p.projectId, rfl⟩
  · cases hl

/-- Fold invariant: a link-accumulating fold preserves a per-link property
when each step only appends links satisfying it. -/
theorem foldl_links_sources {σ : Type} (P : SankeyLink → Prop)
    (step : List SankeyLink × Money → σ → List SankeyLink × Money)
    (hstep : ∀ acc x, ∀ l ∈ (step acc x).1, l ∈ acc.1 ∨ P l)
    (rs : List σ) (acc : List SankeyLink × Money) (hacc : ∀ l ∈ acc.1, P l) :
    ∀ l ∈ (rs.foldl step acc).1, P l := by
  induction rs generalizing acc with
  | nil => exact hacc
  | cons a t ih =>
    refine ih _ (fun l hl => ?_)
    rcases hstep acc a l hl with h | h
    · exact hacc l h
    · exact h

theorem sources_globalAggToTop (sel : DataSelection) (fullData : RS2024StructuredData)
    (ns : List SankeyNode) :
    ∀ l ∈ (stdGlobalAggLinksToTopRecipients sel fullData ns).1,
      l.source = .projectSpendingOtherGlobal := by
  unfold stdGlobalAggLinksToTopRecipients
  refine foldl_links_sources _ _ ?_ _ _ (by simp)
  intro acc x l hl
  simp only at hl
  split at hl
  · rcases List.mem_append.1 hl with h | h
    · exact Or.inl h
    · rw [List.mem_singleton] at h
      subst h
      exact Or.inr rfl
  · exact Or.inl hl

theorem sources_globalAggLinks (sel : DataSelection) (fullData : RS2024StructuredData)
    (ns : List SankeyNode) :
    ∀ l ∈ stdGlobalAggLinks sel fullData ns,
      l.source = .projectSpendingOtherGlobal ∨ ∃ i, l.source = .projectSpending i := by
  intro l hl
  unfold stdGlobalAggLinks at hl
  rcases List.mem_append.1 hl with h | h
  · rcases List.mem_append.1 h with h1 | h1
    · exact Or.inl (sources_globalAggToTop sel fullData ns l h1)
    · rcases hfind : List.find? (fun n => n.id = NodeId.projectSpendingOtherGlobal) ns with
        _ | node <;> simp only [hfind] at h1
      · cases h1
      · split at h1
        · rw [List.mem_singleton] at h1
          subst h1
          exact Or.inl rfl
        · cases h1
  · obtain ⟨e, _, he⟩ := List.mem_filterMap.1 h
    simp only [Option.ite_none_right_eq_some, Option.some.injEq] at he
    obtain ⟨_, rfl⟩ := he
    exact Or.inr ⟨e.1, rfl⟩

theorem sources_aggLinks_global (sel : DataSelection) (fullData : RS2024StructuredData)
    (o : BuildOptions) (ns : List SankeyNode) (hg : isGlobalView o = true) :
    ∀ l ∈ stdAggLinks sel fullData o ns,
      l.source = .projectSpendingOtherGlobal ∨ ∃ i, l.source = .projectSpending i := by
  intro l hl
  unfold stdAggLinks at hl
  rw [hg] at hl
  simp only [if_true] at hl
  split at hl
  · exact sources_globalAggLinks sel fullData ns l hl
  · cases hl

/-- Outgoing flow through the standard views' raw link list, split by group
(Global mode). -/
theorem outflow_raw (sel : DataSelection) (fullData : RS2024StructuredData)
    (o : BuildOptions) (id : NodeId) (hg : isGlobalView o = true) :
    outflow (stdRawLinks sel fullData o) id =
      outflow (stdLinksTotalToMinistries sel o) id +
      (outflow (stdLinksIntoProjectBudgets sel o) id +
      (outflow ((stdOtherProjectsBudgetNonGlobal sel o).map (fun e => e.2)) id +
      (outflow (stdGlobalOtherBudgetLinks sel o) id +
      (outflow (stdLinksBudgetToSpending sel) id +
      (outflow ((stdOtherProjectsSpendingNonGlobal sel o).map (fun e => e.2)) id +
      (outflow (stdGlobalOtherSpendingLinks sel o) id +
      (outflow (stdGlobalRecipientLinks sel) id +
      (outflow (stdOtherNamedLinksFromTopProjects sel) id +
      (outflow (stdOtherNamedLinksFromOtherProjects sel fullData o
        (stdNodesBeforeRecipients sel o)) id +
      (outflow (stdOtherToTopRecipientLinks sel fullData o
        (stdNodesBeforeRecipients sel o)) id +
      (outflow (stdAggLinks sel fullData o (stdNodesBeforeRecipients sel o)) id +
      outflow (stdNoSpendingLinks sel) id))))))))))) := by
  simp only [stdRawLinks, hg, if_true, outflow_append]
  ring

/-- Sentinel-adjusted outgoing flow through the standard views' raw link
list, split by group (Global mode). -/
theorem outflowAdj_raw (sel : DataSelection) (fullData : RS2024StructuredData)
    (o : BuildOptions) (id : NodeId) (hg : isGlobalView o = true) :
    outflowAdj (stdRawLinks sel fullData o) id =
      outflowAdj (stdLinksTotalToMinistries sel o) id +
      (outflowAdj (stdLinksIntoProjectBudgets sel o) id +
      (outflowAdj ((stdOtherProjectsBudgetNonGlobal sel o).map (fun e => e.2)) id +
      (outflowAdj (stdGlobalOtherBudgetLinks sel o) id +
      (outflowAdj (stdLinksBudgetToSpending sel) id +
      (outflowAdj ((stdOtherProjectsSpendingNonGlobal sel o).map (fun e => e.2)) id +
      (outflowAdj (stdGlobalOtherSpendingLinks sel o) id +
      (outflowAdj (stdGlobalRecipientLinks sel) id +
      (outflowAdj (stdOtherNamedLinksFromTopProjects sel) id +
      (outflowAdj (stdOtherNamedLinksFromOtherProjects sel fullData o
        (stdNodesBeforeRecipients sel o)) id +
      (outflowAdj (stdOtherToTopRecipientLinks sel fullData o
        (stdNodesBeforeRecipients sel o)) id +
      (outflowAdj (stdAggLinks sel fullData o (stdNodesBeforeRecipients sel o)) id +
      outflowAdj (stdNoSpendingLinks sel) id))))))))))) := by
  simp only [stdRawLinks, hg, if_true, outflowAdj_append]
  ring

/-- Well-formedness of the record store assumed by the conservation
statement: unique ministry names and ids, non-negative budgets stated in
whole yen (thousandths here), and ministry totals equal to the sum of their
projects' budgets. -/
structure GlobalWF (data : RS2024StructuredData) : Prop where
  names_nodup : (data.ministries.map (fun m => m.name)).Nodup
  ids_nodup : (data.ministries.map (fun m => m.id)).Nodup
  budgets_nonneg : ∀ b ∈ data.budgets, 0 ≤ b.totalBudget
  ministry_totals : ∀ mm ∈ data.ministries,
    mm.totalBudget =
      sumBy (fun b => b.totalBudget) (data.budgets.filter (fun b => b.ministry = mm.name))
  budgets_yen : ∀ b ∈ data.budgets, (1000 : Int) ∣ b.totalBudget

set_option maxHeartbeats 1000000 in
/-- Claim C1, amended.  Universal flow conservation fails (see
`c1_counterexample`: a kept project's budget node keeps the full budget while
its only outgoing edge carries `min(budget, spending)`).  What the Global
view does conserve, exactly and for every well-formed store: (a) the
`total-budget` root node's value equals the plain sum of its outgoing edge
values, and (b) every kept ministry node's value equals its sentinel-adjusted
outgoing flow (ministry → kept-project links plus the leftover-projects
link). -/
theorem c1_global_conservation_amended (data : RS2024StructuredData) (so : SelectOptions)
    (bo : BuildOptions) (hwf : GlobalWF data)
    (htm : truthy bo.targetMinistryName = false)
    (htp : truthy bo.targetProjectName = false)
    (htr : truthy bo.targetRecipientName = false) :
    (∃ n ∈ stdRawNodes (selectGlobalView data so) data bo, n.id = .totalBudget ∧
      n.value = sumBy (fun m => m.totalBudget) (selectGlobalView data so).topMinistries +
        (selectGlobalView data so).otherMinistriesBudget ∧
      outflow (stdRawLinks (selectGlobalView data so) data bo) .totalBudget = n.value) ∧
    (∀ m ∈ (selectGlobalView data so).topMinistries,
      ∃ n ∈ stdRawNodes (selectGlobalView data so) data bo, n.id = .ministryBudget m.id ∧
        n.value = m.totalBudget ∧
        outflowAdj (stdRawLinks (selectGlobalView data so) data bo) (.ministryBudget m.id) =
          m.totalBudget) := by
  have hg : isGlobalView bo = true := by simp [isGlobalView, htm, htp, htr]
  set sel := selectGlobalView data so with hsel
  have hTM : sel.topMinistries = (selectGlobalMinistries data so).1 := rfl
  have hTP : sel.topProjects = globalTopProjects data so := rfl
  have hOB : sel.otherMinistriesBudget = (selectGlobalMinistries data so).2.1 := rfl
  have hPB : sel.otherProjectsBudgetByMinistry =
      (globalOtherBuckets data (selectGlobalMinistries data so).1
        (globalTopProjects data so)).1 := rfl
  clear_value sel
  have hname : (sel.topMinistries.map (fun x => x.name)).Nodup := by
    rw [hTM]
    exact topMinistries_names_nodup data so hwf.names_nodup
  have hid : (sel.topMinistries.map (fun x => x.id)).Nodup := by
    rw [hTM]
    exact topMinistries_ids_nodup data so hwf.ids_nodup
  have hmin_nonneg : ∀ mm ∈ data.ministries, 0 ≤ mm.totalBudget := by
    intro mm hmm
    rw [hwf.ministry_totals mm hmm]
    exact sumBy_nonneg _ _ (fun b hb => hwf.budgets_nonneg b (List.mem_of_mem_filter hb))
  have hnn : 0 ≤ sel.otherMinistriesBudget := by
    rw [hOB]
    exact otherMinistriesBudget_nonneg data so hmin_nonneg
  -- the groups that vanish in Global mode
  have e3 : stdOtherProjectsBudgetNonGlobal sel bo = [] := by
    simp [stdOtherProjectsBudgetNonGlobal, hg]
  have e6 : stdOtherProjectsSpendingNonGlobal sel bo = [] := by
    simp [stdOtherProjectsSpendingNonGlobal, hg]
  have e10 : ∀ ns, stdOtherNamedLinksFromOtherProjects sel data bo ns = [] := by
    intro ns
    simp [stdOtherNamedLinksFromOtherProjects, hg]
  have e11 : ∀ ns, stdOtherToTopRecipientLinks sel data bo ns = [] := by
    intro ns
    simp [stdOtherToTopRecipientLinks, hg]
  constructor
  · -- (a) the total-budget root node
    have hnode : ∃ n ∈ stdTotalBudgetNode sel bo, n.id = .totalBudget ∧
        n.value = sumBy (fun m => m.totalBudget) sel.topMinistries +
          sel.otherMinistriesBudget := by
      simp [stdTotalBudgetNode, htm]
    obtain ⟨n, hnmem, hnid, hnval⟩ := hnode
    have houtflow : outflow (stdRawLinks sel data bo) .totalBudget =
        sumBy (fun m => m.totalBudget) sel.topMinistries + sel.otherMinistriesBudget := by
      have z2 : outflow (stdLinksIntoProjectBudgets sel bo) .totalBudget = 0 := by
        apply outflow_eq_zero
        intro l hl
        rcases sources_linksInto sel bo htp l hl with ⟨i, hi⟩ | hi <;> simp [hi]
      have z3 : outflow ((stdOtherProjectsBudgetNonGlobal sel bo).map (fun e => e.2))
          .totalBudget = 0 := by
        rw [e3]
        simp [outflow, sumBy]
      have z4 : outflow (stdGlobalOtherBudgetLinks sel bo) .totalBudget = 0 := by
        apply outflow_eq_zero
        intro l hl
        rcases sources_globalOtherBudgetLinks sel bo l hl with ⟨i, hi⟩ | hi <;> simp [hi]
      have z5 : outflow (stdLinksBudgetToSpending sel) .totalBudget = 0 := by
        apply outflow_eq_zero
        intro l hl
        obtain ⟨i, hi⟩ := sources_budgetToSpending sel l hl
        simp [hi]
      have z6 : outflow ((stdOtherProjectsSpendingNonGlobal sel bo).map (fun e => e.2))
          .totalBudget = 0 := by
        rw [e6]
        simp [outflow, sumBy]
      have z7 : outflow (stdGlobalOtherSpendingLinks sel bo) .totalBudget = 0 := by
        apply outflow_eq_zero
        intro l hl
        rw [sources_globalOtherSpendingLinks sel bo l hl]
        simp
      have z8 : outflow (stdGlobalRecipientLinks sel) .totalBudget = 0 := by
        apply outflow_eq_zero
        intro l hl
        obtain ⟨i, hi⟩ := sources_globalRecipientLinks sel l hl
        simp [hi]
      have z9 : outflow (stdOtherNamedLinksFromTopProjects sel) .totalBudget = 0 := by
        apply outflow_eq_zero
        intro l hl
        obtain ⟨i, hi⟩ := sources_otherNamedTop sel l hl
        simp [hi]
      have z12 : outflow (stdAggLinks sel data bo (stdNodesBeforeRecipients sel bo))
          .totalBudget = 0 := by
        apply outflow_eq_zero
        intro l hl
        rcases sources_aggLinks_global sel data bo _ hg l hl with hi | ⟨i, hi⟩ <;> simp [hi]
      have z13 : outflow (stdNoSpendingLinks sel) .totalBudget = 0 := by
        apply outflow_eq_zero
        intro l hl
        obtain ⟨i, hi⟩ := sources_noSpendingLinks sel l hl
        simp [hi]
      have h1 : outflow (stdLinksTotalToMinistries sel bo) .totalBudget =
          sumBy (fun m => m.totalBudget) sel.topMinistries + sel.otherMinistriesBudget := by
        unfold stdLinksTotalToMinistries
        simp only [htm, htp, Bool.false_eq_true, or_self, if_false]
        rw [outflow_append, outflow_all _ _ (fun l hl => by
          obtain ⟨mtop, _, rfl⟩ := List.mem_map.1 hl
          rfl)]
        have hmap : sumBy (fun l => l.value) (sel.topMinistries.map (fun m =>
            { source := .totalBudget, target := .ministryBudget m.id,
              value := m.totalBudget : SankeyLink })) =
            sumBy (fun m => m.totalBudget) sel.topMinistries := by
          simp [sumBy, List.map_map, Function.comp_def]
        rw [hmap]
        by_cases hob : sel.otherMinistriesBudget > 0
        · simp [hob, outflow, sumBy]
        · have hzero : sel.otherMinistriesBudget = 0 := le_antisymm (not_lt.1 hob) hnn
          simp [hob, outflow, sumBy, hzero]
      rw [outflow_raw sel data bo _ hg, h1, z2, z3, z4, z5, z6, z7, z8, z9,
        e10, e11, z12, z13]
      simp [outflow, sumBy]
    refine ⟨n, ?_, hnid, hnval, by rw [houtflow, hnval]⟩
    simp only [stdRawNodes, stdNodesBeforeRecipients]
    exact List.mem_append_left _ (List.mem_append_left _ (List.mem_append_left _
      (List.mem_append_left _ (List.mem_append_left _ (List.mem_append_left _
      (List.mem_append_left _ (List.mem_append_left _ (List.mem_append_left _
      (List.mem_append_left _ (List.mem_append_left _ hnmem))))))))))
  · -- (b) the kept ministry nodes
    intro m hm
    obtain ⟨mm, hmm, hname_eq, hid_eq, hbud_eq⟩ :=
      topMinistry_mem_source data so m (hTM ▸ hm)
    -- the node
    have hnodeM : ∃ n ∈ stdMinistryNodes sel bo, n.id = .ministryBudget m.id ∧
        n.value = m.totalBudget := by
      refine ⟨{ id := .ministryBudget m.id, name := m.name, type := .ministryBudget,
                value := stdMinistryNodeValue sel bo m, originalId := some m.id }, ?_, rfl, ?_⟩
      · unfold stdMinistryNodes
        simp only [htp, Bool.false_eq_true, if_false]
        exact List.mem_append_left _ (List.mem_map.2 ⟨m, hm, rfl⟩)
      · simp [stdMinistryNodeValue, htm]
    obtain ⟨n, hnmem, hnid, hnval⟩ := hnodeM
    -- kept-project coverage and yen-multiples
    have hcov : ∀ p ∈ sel.topProjects, ∃ m' ∈ sel.topMinistries, m'.name = p.ministry := by
      intro p hp
      rw [hTP] at hp
      obtain ⟨m', hm', hn⟩ := globalTopProjects_ministry_mem data so p hp
      exact ⟨m', by rw [hTM]; exact hm', hn⟩
    have hyen : ∀ p ∈ sel.topProjects, (1000 : Int) ∣ p.totalBudget := by
      intro p hp
      rw [hTP] at hp
      exact hwf.budgets_yen p ((globalTopProjects_subperm data so).subset hp)
    -- the two contributing groups
    have h2 : outflowAdj (stdLinksIntoProjectBudgets sel bo) (.ministryBudget m.id) =
        sumBy (fun p => p.totalBudget)
          (sel.topProjects.filter (fun p => p.ministry = m.name)) := by
      rw [stdLinksIntoProjectBudgets_of_notP sel bo htp]
      exact outflowAdj_linksInto sel.topMinistries m hname hid hm _ sel.topProjects hcov hyen
    have h4 : outflowAdj (stdGlobalOtherBudgetLinks sel bo) (.ministryBudget m.id) =
        (match mapGet sel.otherProjectsBudgetByMinistry m.name with
         | some v => if v ≠ 0 ∧ v > 0 then adjValue v else 0
         | none => 0) := by
      unfold stdGlobalOtherBudgetLinks
      rw [hg]
      simp only [if_true]
      rw [outflowAdj_append]
      have hsecond : outflowAdj (if sel.otherMinistriesBudget > 0 then
          [{ source := .ministryBudgetOther, target := .projectBudgetOtherGlobal,
             value := sel.otherMinistriesBudget : SankeyLink }] else [])
          (.ministryBudget m.id) = 0 := by
        apply outflowAdj_eq_zero
        intro l hl
        split at hl
        · rw [List.mem_singleton] at hl
          subst hl
          simp
        · cases hl
      rw [hsecond, add_zero]
      unfold stdGlobalOtherBudgetPerMinistry
      exact outflowAdj_globalOtherPerMinistry sel.topMinistries
        sel.otherProjectsBudgetByMinistry m hm hid
    -- the bucket record for this ministry
    have hbucket : mapGet sel.otherProjectsBudgetByMinistry m.name =
        (if m.totalBudget - sumBy (fun p => p.totalBudget)
            (sel.topProjects.filter (fun p => p.ministry = m.name)) > 0 then
          some (m.totalBudget - sumBy (fun p => p.totalBudget)
            (sel.topProjects.filter (fun p => p.ministry = m.name)))
        else none) := by
      rw [hTP, hPB, globalOtherBuckets_eq_foldl,
        bucketsB_foldl_get data (globalTopProjects data so) _ _ m (hTM ▸ hm) (hTM ▸ hname)]
      rfl
    -- arithmetic facts
    have husedle : sumBy (fun p => p.totalBudget)
        (sel.topProjects.filter (fun p => p.ministry = m.name)) ≤ m.totalBudget := by
      have hsub : List.Subperm (sel.topProjects.filter (fun p => p.ministry = m.name))
          (data.budgets.filter (fun p => p.ministry = m.name)) := by
        rw [hTP]
        exact subperm_filter _ (globalTopProjects_subperm data so)
      have h5 := sumBy_subperm_le (fun p => p.totalBudget) hsub
        (fun x hx => hwf.budgets_nonneg x (List.mem_of_mem_filter hx))
      rw [hbud_eq, hwf.ministry_totals mm hmm, ← hname_eq]
      exact h5
    have hdvd : (1000 : Int) ∣ m.totalBudget - sumBy (fun p => p.totalBudget)
        (sel.topProjects.filter (fun p => p.ministry = m.name)) := by
      apply dvd_sub
      · rw [hbud_eq, hwf.ministry_totals mm hmm]
        exact dvd_sumBy _ _ _ (fun b hb => hwf.budgets_yen b (List.mem_of_mem_filter hb))
      · exact dvd_sumBy _ _ _ (fun p hp => hyen p (List.mem_of_mem_filter hp))
    -- total outgoing adjusted flow
    have houtM : outflowAdj (stdRawLinks sel data bo) (.ministryBudget m.id) =
        m.totalBudget := by
      have z1 : outflowAdj (stdLinksTotalToMinistries sel bo) (.ministryBudget m.id) = 0 := by
        apply outflowAdj_eq_zero
        intro l hl
        rw [sources_totalToMinistries sel bo l hl]
        simp
      have z3 : outflowAdj ((stdOtherProjectsBudgetNonGlobal sel bo).map (fun e => e.2))
          (.ministryBudget m.id) = 0 := by
        rw [e3]
        simp [outflowAdj, sumBy]
      have z5 : outflowAdj (stdLinksBudgetToSpending sel) (.ministryBudget m.id) = 0 := by
        apply outflowAdj_eq_zero
        intro l hl
        obtain ⟨i, hi⟩ := sources_budgetToSpending sel l hl
        simp [hi]
      have z6 : outflowAdj ((stdOtherProjectsSpendingNonGlobal sel bo).map (fun e => e.2))
          (.ministryBudget m.id) = 0 := by
        rw [e6]
        simp [outflowAdj, sumBy]
      have z7 : outflowAdj (stdGlobalOtherSpendingLinks sel bo) (.ministryBudget m.id) = 0 := by
        apply outflowAdj_eq_zero
        intro l hl
        rw [sources_globalOtherSpendingLinks sel bo l hl]
        simp
      have z8 : outflowAdj (stdGlobalRecipientLinks sel) (.ministryBudget m.id) = 0 := by
        apply outflowAdj_eq_zero
        intro l hl
        obtain ⟨i, hi⟩ := sources_globalRecipientLinks sel l hl
        simp [hi]
      have z9 : outflowAdj (stdOtherNamedLinksFromTopProjects sel) (.ministryBudget m.id) = 0 := by
        apply outflowAdj_eq_zero
        intro l hl
        obtain ⟨i, hi⟩ := sources_otherNamedTop sel l hl
        simp [hi]
      have z12 : outflowAdj (stdAggLinks sel data bo (stdNodesBeforeRecipients sel bo))
          (.ministryBudget m.id) = 0 := by
        apply outflowAdj_eq_zero
        intro l hl
        rcases sources_aggLinks_global sel data bo _ hg l hl with hi | ⟨i, hi⟩ <;> simp [hi]
      have z13 : outflowAdj (stdNoSpendingLinks sel) (.ministryBudget m.id) = 0 := by
        apply outflowAdj_eq_zero
        intro l hl
        obtain ⟨i, hi⟩ := sources_noSpendingLinks sel l hl
        simp [hi]
      have h4x : outflowAdj (stdGlobalOtherBudgetLinks sel bo) (.ministryBudget m.id) =
          m.totalBudget - sumBy (fun p => p.totalBudget)
            (sel.topProjects.filter (fun p => p.ministry = m.name)) := by
        rw [h4, hbucket]
        by_cases hpos : m.totalBudget - sumBy (fun p => p.totalBudget)
            (sel.topProjects.filter (fun p => p.ministry = m.name)) > 0
        · rw [if_pos hpos]
          show (if (m.totalBudget - sumBy (fun p => p.totalBudget)
              (sel.topProjects.filter (fun p => p.ministry = m.name))) ≠ 0 ∧
              (m.totalBudget - sumBy (fun p => p.totalBudget)
              (sel.topProjects.filter (fun p => p.ministry = m.name))) > 0 then
            adjValue (m.totalBudget - sumBy (fun p => p.totalBudget)
              (sel.topProjects.filter (fun p => p.ministry = m.name)))
          else 0) = _
          rw [if_pos ⟨ne_of_gt hpos, hpos⟩, adjValue_of_dvd _ hdvd]
        · rw [if_neg hpos]
          show (0 : Money) = m.totalBudget - sumBy (fun p => p.totalBudget)
            (sel.topProjects.filter (fun p => p.ministry = m.name))
          have hle := not_lt.1 hpos
          linarith [husedle]
      rw [outflowAdj_raw sel data bo _ hg, h2, h4x, z1, z3, z5, z6, z7, z8, z9,
        e10, e11, z12, z13]
      have hnil : outflowAdj ([] : List SankeyLink) (NodeId.ministryBudget m.id) = 0 := by
        simp [outflowAdj, sumBy]
      simp only [hnil]
      ring
    refine ⟨n, ?_, hnid, hnval, houtM⟩
    simp only [stdRawNodes, stdNodesBeforeRecipients]
    exact List.mem_append_left _ (List.mem_append_left _ (List.mem_append_left _
      (List.mem_append_left _ (List.mem_append_left _ (List.mem_append_left _
      (List.mem_append_left _ (List.mem_append_left _ (List.mem_append_left _
      (List.mem_append_left _ (List.mem_append_right _ hnmem))))))))))

theorem c1_witness :
    (∃ n ∈ stdRawNodes (selectGlobalView exData exSelOpts) exData exBuildOpts,
      n.id = .totalBudget ∧
      n.value = sumBy (fun m => m.totalBudget) (selectGlobalView exData exSelOpts).topMinistries +
        (selectGlobalView exData exSelOpts).otherMinistriesBudget ∧
      outflow (stdRawLinks (selectGlobalView exData exSelOpts) exData exBuildOpts) .totalBudget =
        n.value) ∧
    (∃ n ∈ stdRawNodes (selectGlobalView exData exSelOpts) exData exBuildOpts,
      n.id = .ministryBudget (⟨"A", 1, yen 100, 0⟩ : TopMinistry).id ∧
      n.value = (⟨"A", 1, yen 100, 0⟩ : TopMinistry).totalBudget ∧
      outflowAdj (stdRawLinks (selectGlobalView exData exSelOpts) exData exBuildOpts)
        (.ministryBudget (⟨"A", 1, yen 100, 0⟩ : TopMinistry).id) =
        (⟨"A", 1, yen 100, 0⟩ : TopMinistry).totalBudget) := by
  have h := c1_global_conservation_amended exData exSelOpts exBuildOpts
    ⟨by decide, by decide, by decide, by decide, by decide⟩ (by decide) (by decide) (by decide)
  exact ⟨h.1, h.2 ⟨"A", 1, yen 100, 0⟩ (by decide)⟩

/-! Claim C4: Global-mode project selection. -/

/-- C4 scenario, project with the ministry's largest budget but no recipient
destinations. -/
def c4P1 : BudgetRecord := ⟨1, "P1", "M", yen 100, 0, []⟩

/-- C4 scenario, small project that spends to a recipient. -/
def c4P2 : BudgetRecord := ⟨2, "P2", "M", yen 10, yen 10, [21]⟩

/-- C4 scenario store: one ministry, two projects, one recipient. -/
def c4Data : RS2024StructuredData :=
  ⟨[⟨1, "M", yen 110, 0⟩], [c4P1, c4P2], [⟨21, "R", yen 10, 1, [⟨2, yen 10⟩]⟩],
    [("M", yen 10)], ⟨1, 2, yen 110⟩⟩

/-- C4 request: Global view, `limit` 1, `projectLimit` 1, `spendingLimit` 5. -/
def c4SelOpts : SelectOptions := ⟨0, 0, 1, 1, 5, none, none, none, 0⟩

/-- Claim C4 counterexample.  The kept Global-mode project set is [P2], not
the ministry's top-`projectLimit` projects by budget (which would be [P1]):
Global mode ranks candidates by their spending to the kept top recipients
and slices to `spendingLimit`, so the ministry's largest project is dropped
entirely (it reaches no recipient) and its full budget lands in the
leftover-projects bucket. -/
theorem c4_counterexample :
    (selectGlobalView c4Data c4SelOpts).topProjects = [c4P2] ∧
    (sortByDesc (fun b => b.totalBudget)
      (c4Data.budgets.filter (fun b => b.ministry = "M"))).take c4SelOpts.projectLimit =
      [c4P1] ∧
    c4P1 ∉ (selectGlobalView c4Data c4SelOpts).topProjects ∧
    mapGet (selectGlobalView c4Data c4SelOpts).otherProjectsBudgetByMinistry "M" =
      some (yen 100) := by
  refine ⟨by decide, by decide, by decide, by decide⟩

/-- Claim C4, amended.  In Global mode the kept projects are not a
per-ministry top-`projectLimit`-by-budget selection: they are a single
top-`spendingLimit` selection (stable descending, ties by input order) over
all kept ministries' projects that spend anything to the kept top
recipients, ranked by that spending; and each kept ministry's
leftover-projects bucket holds its total budget minus the budgets of its
kept projects, recorded only when positive. -/
theorem c4_global_selection_amended (data : RS2024StructuredData) (o : SelectOptions)
    (hbn : data.budgets.Nodup)
    (hnames : (data.ministries.map (fun m => m.name)).Nodup) :
    IsTopKByDesc (fun b => mapGetD (globalProjToTopMap data o) b.projectId 0) o.spendingLimit
      ((globalSelectedProjects data o).filter
        (fun b => mapMem (globalProjToTopMap data o) b.projectId))
      (selectGlobalView data o).topProjects ∧
    (∀ m ∈ (selectGlobalView data o).topMinistries,
      mapGet (selectGlobalView data o).otherProjectsBudgetByMinistry m.name =
        (if m.totalBudget - sumBy (fun p => p.totalBudget)
            ((selectGlobalView data o).topProjects.filter (fun p => p.ministry = m.name)) > 0
        then
          some (m.totalBudget - sumBy (fun p => p.totalBudget)
            ((selectGlobalView data o).topProjects.filter (fun p => p.ministry = m.name)))
        else none)) := by
  constructor
  · rw [selectGlobalView_topProjects]
    unfold globalTopProjects
    exact take_sortByDesc_isTopK _ _ _
      (((List.filter_sublist _).trans (List.filter_sublist _)).nodup hbn)
  · intro m hm
    rw [selectGlobalView_topMinistries] at hm
    rw [selectGlobalView_topProjects, selectGlobalView_otherProjectsBudgetByMinistry,
      globalOtherBuckets_eq_foldl,
      bucketsB_foldl_get data (globalTopProjects data o) _ _ m hm
        (topMinistries_names_nodup data o hnames)]
    rfl

theorem c4_witness :
    IsTopKByDesc (fun b => mapGetD (globalProjToTopMap c4Data c4SelOpts) b.projectId 0)
      c4SelOpts.spendingLimit
      ((globalSelectedProjects c4Data c4SelOpts).filter
        (fun b => mapMem (globalProjToTopMap c4Data c4SelOpts) b.projectId))
      (selectGlobalView c4Data c4SelOpts).topProjects ∧
    (∀ m ∈ (selectGlobalView c4Data c4SelOpts).topMinistries,
      mapGet (selectGlobalView c4Data c4SelOpts).otherProjectsBudgetByMinistry m.name =
        (if m.totalBudget - sumBy (fun p => p.totalBudget)
            ((selectGlobalView c4Data c4SelOpts).topProjects.filter
              (fun p => p.ministry = m.name)) > 0
        then
          some (m.totalBudget - sumBy (fun p => p.totalBudget)
            ((selectGlobalView c4Data c4SelOpts).topProjects.filter
              (fun p => p.ministry = m.name)))
        else none)) :=
  c4_global_selection_amended c4Data c4SelOpts (by decide) (by decide)

/-! Claim C6: isolation of the reserved recipient name 'その他'. -/

theorem mem_mapSet [DecidableEq κ] (m : List (κ × β)) (k : κ) (v : β) :
    ∀ e ∈ mapSet m k v, e = (k, v) ∨ e ∈ m := by
  induction m with
  | nil =>
    intro e he
    simp only [mapSet, List.mem_singleton] at he
    exact Or.inl he
  | cons a t ih =>
    intro e he
    simp only [mapSet] at he
    split at he
    · rcases List.mem_cons.1 he with rfl | h
      · exact Or.inl rfl
      · exact Or.inr (List.mem_cons_of_mem a h)
    · rcases List.mem_cons.1 he with rfl | h
      · exact Or.inr (List.mem_cons_self _ _)
      · rcases ih e h with h1 | h1
        · exact Or.inl h1
        · exact Or.inr (List.mem_cons_of_mem a h1)

/-- Generic foldl invariant. -/
theorem foldl_inv {σ τ : Type} (P : τ → Prop) (step : τ → σ → τ) (l : List σ)
    (hstep : ∀ acc x, x ∈ l → P acc → P (step acc x)) (init : τ) (hinit : P init) :
    P (l.foldl step init) := by
  induction l generalizing init with
  | nil => exact hinit
  | cons a t ih =>
    exact ih (fun acc x hx => hstep acc x (List.mem_cons_of_mem a hx)) _
      (hstep init a (List.mem_cons_self a t) hinit)

/-- The Global-view `topSpendings` list (source lines 1414-1427). -/
theorem selectGlobalView_topSpendings (data : RS2024StructuredData) (o : SelectOptions) :
    (selectGlobalView data o).topSpendings = globalTopRecipients data o := rfl

/-- Keys of the Global-view recipient map come from recipients not named
'その他'. -/
theorem globalRecipientMoneyMap_keys (data : RS2024StructuredData) (o : SelectOptions) :
    ∀ e ∈ globalRecipientMoneyMap data o,
      ∃ s' ∈ data.spendings, s'.spendingId = e.1 ∧ ¬ s'.spendingName = otherName := by
  unfold globalRecipientMoneyMap recipientSpendingFromSelectedMinistriesMap
  refine foldl_inv (fun (m : List (Int × Money)) => ∀ e ∈ m,
      ∃ s' ∈ data.spendings, s'.spendingId = e.1 ∧ ¬ s'.spendingName = otherName)
    _ _ ?_ _ (fun e he => absurd he (List.not_mem_nil e))
  intro acc x hx hacc e he
  dsimp only at he
  split at he
  · exact hacc e he
  · split at he
    · rcases mem_mapSet _ _ _ e he with rfl | h
      · exact ⟨x, hx, rfl, by assumption⟩
      · exact hacc e h
    · exact hacc e he

/-- The Ministry-view current page of projects (source lines 1512-1519). -/
def ministryTopProjects (data : RS2024StructuredData) (o : SelectOptions)
    (targetMinistryName : String) : List BudgetRecord :=
  ((sortByDesc (fun b => b.totalBudget)
    (data.budgets.filter (fun p => p.ministry = targetMinistryName))).drop
      o.projectOffset).take o.projectLimit

/-- The Ministry-view current-page recipient map (source lines 1533-1544). -/
def ministryPageSpendingMap (data : RS2024StructuredData) (o : SelectOptions)
    (targetMinistryName : String) : List (Int × Money) :=
  data.spendings.foldl (fun m spending =>
    if spending.spendingName = otherName then m
    else
      let totalFromCurrentPage := sumBy
        (fun proj =>
          if ((ministryTopProjects data o targetMinistryName).map
              (fun p => p.projectId)).contains proj.projectId then proj.amount else 0)
        spending.projects
      if totalFromCurrentPage > 0 then mapSet m spending.spendingId totalFromCurrentPage
      else m) []

theorem selectMinistryView_topSpendings (data : RS2024StructuredData) (o : SelectOptions)
    (tm : String) (mi : MinistryNode) :
    (selectMinistryView data o tm mi).topSpendings =
      data.spendings.filter (fun s =>
        (((sortByDesc (fun e => e.2) (ministryPageSpendingMap data o tm)).take
          o.spendingLimit).map (fun e => e.1)).contains s.spendingId) := rfl

theorem ministryPageSpendingMap_keys (data : RS2024StructuredData) (o : SelectOptions)
    (tm : String) :
    ∀ e ∈ ministryPageSpendingMap data o tm,
      ∃ s' ∈ data.spendings, s'.spendingId = e.1 ∧ ¬ s'.spendingName = otherName := by
  unfold ministryPageSpendingMap
  refine foldl_inv (fun (m : List (Int × Money)) => ∀ e ∈ m,
      ∃ s' ∈ data.spendings, s'.spendingId = e.1 ∧ ¬ s'.spendingName = otherName)
    _ _ ?_ _ (fun e he => absurd he (List.not_mem_nil e))
  intro acc x hx hacc e he
  dsimp only at he
  split at he
  · exact hacc e he
  · split at he
    · rcases mem_mapSet _ _ _ e he with rfl | h
      · exact ⟨x, hx, rfl, by assumption⟩
      · exact hacc e h
    · exact hacc e he

/-- The Project-view kept recipient ids (source lines 1594-1612; the view
keeps exactly one project, so the accumulating loop is one step). -/
def projectTopSpendingIds (data : RS2024StructuredData) (o : SelectOptions)
    (project : BudgetRecord) : List Int :=
  [] ++ ((sortByDesc (fun e => e.2)
    (((data.spendings.filter (fun s => project.spendingIds.contains s.spendingId)).filter
      (fun s => s.spendingName ≠ otherName)).map
      (fun s => (s, ((s.projects.find? (fun p => p.projectId = project.projectId)).map
        (·.amount)).getD 0)))).take o.spendingLimit).map (fun e => e.1.spendingId)

theorem selectProjectView_topSpendings (data : RS2024StructuredData) (o : SelectOptions)
    (project : BudgetRecord) :
    (selectProjectView data o project).topSpendings =
      data.spendings.filter (fun s =>
        (projectTopSpendingIds data o project).contains s.spendingId) := rfl

/-- C6 request: Spending view targeting the reserved name itself. -/
def c6SpendOpts : SelectOptions := ⟨0, 0, 2, 1, 1, none, none, some "その他", 0⟩

/-- Claim C6 counterexample.  (i) The Spending view happily selects a
recipient literally named 'その他' into `topSpendings` when it is the
target.  (ii) In the emitted Global-mode graph of `exData`, no
reserved-'その他' node exists at all, while the recipient named 'その他'
contributed 50 to the selected scope; that amount sits inside the generic
leftover-recipients aggregate node instead. -/
theorem c6_counterexample :
    (selectSpendingView exData c6SpendOpts "その他").topSpendings = [exRecipientOther] ∧
    exRecipientOther.spendingName = otherName ∧
    (∀ n ∈ exOut.nodes, n.id ≠ NodeId.recipientOtherNamed) ∧
    (∃ n ∈ exOut.nodes, n.id = NodeId.recipientOtherAggregated ∧ n.value = yen 50) := by
  refine ⟨by decide, rfl, by decide, by decide⟩

/-- Claim C6, amended.  In the Global, Ministry and Project views a
recipient named 'その他' never enters `topSpendings` (granted distinct
spending ids); in the Spending view the reserved name can be selected as
the target itself.  The Ministry and Project views compute the reserved
node's backing map over the whole data set (every project's 'その他'-named
spending total) and hand it to the builder unchanged.  The Global view
leaves that map empty, so the reserved node is never emitted there — the
reserved amounts are not isolated in Global mode (see the
counterexample: they land in the generic leftover aggregate). -/
theorem c6_reserved_name_amended (data : RS2024StructuredData) (o : SelectOptions)
    (hsid : (data.spendings.map (fun s => s.spendingId)).Nodup) :
    (∀ s ∈ (selectGlobalView data o).topSpendings, ¬ s.spendingName = otherName) ∧
    (∀ tm mi, ∀ s ∈ (selectMinistryView data o tm mi).topSpendings,
      ¬ s.spendingName = otherName) ∧
    (∀ p, ∀ s ∈ (selectProjectView data o p).topSpendings, ¬ s.spendingName = otherName) ∧
    (∀ tm mi, (selectMinistryView data o tm mi).otherNamedSpendingByProject =
      otherNamedSpendingByProjectAll data) ∧
    (∀ p, (selectProjectView data o p).otherNamedSpendingByProject =
      otherNamedSpendingByProjectAll data) ∧
    (selectGlobalView data o).otherNamedSpendingByProject = [] ∧
    stdOtherNamedNode (selectGlobalView data o) = [] := by
  refine ⟨?_, ?_, ?_, fun tm mi => rfl, fun p => rfl, rfl, ?_⟩
  · intro s hs hcontra
    rw [selectGlobalView_topSpendings] at hs
    unfold globalTopRecipients at hs
    have hs1 : s ∈ data.spendings.filter
        (fun s => mapMem (globalRecipientMoneyMap data o) s.spendingId) :=
      (sortByDesc_perm _ _).subset (List.mem_of_mem_take hs)
    have hsd : s ∈ data.spendings := (List.mem_filter.1 hs1).1
    have hmem : ∃ e ∈ globalRecipientMoneyMap data o, e.1 = s.spendingId := by
      have := (List.mem_filter.1 hs1).2
      simpa [mapMem, List.any_eq_true] using this
    obtain ⟨e, he, heid⟩ := hmem
    obtain ⟨s', hs', hsid', hno⟩ := globalRecipientMoneyMap_keys data o e he
    have heq : s' = s := map_nodup_inj hsid hs' hsd (by rw [hsid', heid])
    exact hno (by rw [heq]; exact hcontra)
  · intro tm mi s hs hcontra
    rw [selectMinistryView_topSpendings] at hs
    have hsd : s ∈ data.spendings := (List.mem_filter.1 hs).1
    have hmemid : s.spendingId ∈ ((sortByDesc (fun e => e.2)
        (ministryPageSpendingMap data o tm)).take o.spendingLimit).map (fun e => e.1) := by
      have := (List.mem_filter.1 hs).2
      simpa using this
    obtain ⟨e, hetake, heid⟩ := List.mem_map.1 hmemid
    have hemem : e ∈ ministryPageSpendingMap data o tm :=
      (sortByDesc_perm _ _).subset (List.mem_of_mem_take hetake)
    obtain ⟨s', hs', hsid', hno⟩ := ministryPageSpendingMap_keys data o tm e hemem
    have heq : s' = s := map_nodup_inj hsid hs' hsd (by rw [hsid', heid])
    exact hno (by rw [heq]; exact hcontra)
  · intro p s hs hcontra
    rw [selectProjectView_topSpendings] at hs
    have hsd : s ∈ data.spendings := (List.mem_filter.1 hs).1
    have hcont : s.spendingId ∈ projectTopSpendingIds data o p := by
      have := (List.mem_filter.1 hs).2
      simpa using this
    unfold projectTopSpendingIds at hcont
    rw [List.nil_append] at hcont
    obtain ⟨e, hetake, heid⟩ := List.mem_map.1 hcont
    have hemem := (sortByDesc_perm _ _).subset (List.mem_of_mem_take hetake)
    obtain ⟨s', hs', rfl⟩ := List.mem_map.1 hemem
    have hs'name : ¬ s'.spendingName = otherName := by
      have := (List.mem_filter.1 hs').2
      simpa using this
    have hs'd : s' ∈ data.spendings := (List.mem_filter.1 (List.mem_filter.1 hs').1).1
    have heq : s' = s := map_nodup_inj hsid hs'd hsd heid
    exact hs'name (by rw [heq]; exact hcontra)
  · have hempty : (selectGlobalView data o).otherNamedSpendingByProject = [] := rfl
    simp [stdOtherNamedNode, totalOtherNamedAmount, hempty, sumBy]

theorem c6_witness :
    (∀ s ∈ (selectGlobalView exData exSelOpts).topSpendings,
      ¬ s.spendingName = otherName) ∧
    (∀ tm mi, ∀ s ∈ (selectMinistryView exData exSelOpts tm mi).topSpendings,
      ¬ s.spendingName = otherName) ∧
    (∀ p, ∀ s ∈ (selectProjectView exData exSelOpts p).topSpendings,
      ¬ s.spendingName = otherName) ∧
    (∀ tm mi, (selectMinistryView exData exSelOpts tm mi).otherNamedSpendingByProject =
      otherNamedSpendingByProjectAll exData) ∧
    (∀ p, (selectProjectView exData exSelOpts p).otherNamedSpendingByProject =
      otherNamedSpendingByProjectAll exData) ∧
    (selectGlobalView exData exSelOpts).otherNamedSpendingByProject = [] ∧
    stdOtherNamedNode (selectGlobalView exData exSelOpts) = [] :=
  c6_reserved_name_amended exData exSelOpts (by decide)

/-! Claim C7: the pruning guarantee. -/

/-- C7 scenario store: one ministry, one project with budget but zero
spending, one recipient reached with amount 0. -/
def c7Data : RS2024StructuredData :=
  ⟨[⟨1, "M", yen 100, 0⟩], [⟨1, "P", "M", yen 100, 0, [40]⟩], [⟨40, "R", 0, 1, [⟨1, 0⟩]⟩],
    [("M", 0)], ⟨1, 1, yen 100⟩⟩

/-- C7 request: Ministry view of M. -/
def c7SelOpts : SelectOptions := ⟨0, 0, 3, 3, 5, some "M", none, none, 0⟩

def c7BuildOpts : BuildOptions := ⟨0, some "M", none, none, 3, 3, 5, 0⟩

def c7Sel : DataSelection := selectMinistryView c7Data c7SelOpts "M" ⟨1, "M", yen 100, 0⟩

/-- Claim C7 counterexample.  The pruning pass checks node incidence against
the PRE-value-filter link list, so the project-spending node of P (value 0,
reached only by the 0-valued budget → spending edge that the value filter
then drops) is emitted with zero incident edges in the final edge list. -/
theorem c7_counterexample :
    ∃ n ∈ (buildSankeyData c7Sel c7Data c7BuildOpts).nodes,
      n.id = NodeId.projectSpending 1 ∧
      ∀ l ∈ (buildSankeyData c7Sel c7Data c7BuildOpts).links,
        ¬ l.source = n.id ∧ ¬ l.target = n.id := by decide

/-- Claim C7, amended.  Every emitted edge is positive in every view: the
standard views filter edges by value, and each spending-view edge is
positive by construction (the sentinel replaces non-positive values).  The
node guarantee is weaker than claimed: a standard-view emitted node is
incident to some edge of the PRE-value-filter link list only; incidence in
the final edge list can fail (see the counterexample). -/
theorem c7_pruning_amended (sel : DataSelection) (fullData : RS2024StructuredData)
    (o : BuildOptions) :
    (∀ l ∈ (buildSankeyData sel fullData o).links, l.value > 0) ∧
    (truthy o.targetRecipientName = false →
      ∀ n ∈ (buildSankeyData sel fullData o).nodes,
        ∃ l ∈ stdRawLinks sel fullData o, l.source = n.id ∨ l.target = n.id) := by
  constructor
  · intro l hl
    unfold buildSankeyData at hl
    split at hl
    · -- spending view: positivity by construction, group by group
      unfold buildSpendingView at hl
      simp only [List.mem_append] at hl
      rcases hl with (((hl | hl) | hl) | hl) | hl
      · unfold svLinksSpendingToRecipient at hl
        obtain ⟨p, hp, rfl⟩ := List.mem_map.1 hl
        have := (List.mem_filter.1 (by simpa [svPosProjects] using hp :
          p ∈ sel.topProjects.filter
            (fun p => spendingAmountTo sel.topSpendings p.projectId > 0))).2
        simpa using this
      · unfold svLinksBudgetToSpending at hl
        obtain ⟨p, hp, rfl⟩ := List.mem_map.1 hl
        dsimp only
        split
        · assumption
        · simp [dummyValue]
      · unfold svLinksMinistryToBudget at hl
        obtain ⟨ministry, _, hl2⟩ := List.mem_flatMap.1 hl
        obtain ⟨p, hp, rfl⟩ := List.mem_map.1 hl2
        dsimp only
        split
        · assumption
        · simp [dummyValue]
      · unfold svOtherProjectsLinks at hl
        dsimp only at hl
        split at hl
        · rename_i hops
          rcases List.mem_append.1 hl with h | h
          · rcases hmatch : sel.otherProjectsSpendingByMinistryInSpendingView with _ | mlist <;>
              simp only [hmatch] at h
            · cases h
            · obtain ⟨e, _, he⟩ := List.mem_filterMap.1 h
              rcases hfind : sel.topMinistries.find? (fun t => t.name = e.1) with _ | ministry <;>
                simp only [hfind] at he
              · cases he
              · split at he
                · cases he
                  assumption
                · cases he
          · rcases List.mem_cons.1 h with rfl | h2
            · exact hops
            · rw [List.mem_singleton] at h2
              subst h2
              exact hops
        · cases hl
      · unfold svOtherMinistriesLinks at hl
        dsimp only at hl
        split at hl
        · rename_i homs
          rcases List.mem_cons.1 hl with rfl | h2
          · exact homs
          · rcases List.mem_cons.1 h2 with rfl | h3
            · exact homs
            · rw [List.mem_singleton] at h3
              subst h3
              exact homs
        · cases hl
    · -- standard views: the final value filter
      have := (List.mem_filter.1 hl).2
      simpa using this
  · intro htr n hn
    unfold buildSankeyData at hn
    rw [htr] at hn
    simp only [Bool.false_eq_true, if_false] at hn
    have := (List.mem_filter.1 hn).2
    simpa [List.any_eq_true] using this

theorem c7_witness :
    (∀ l ∈ (buildSankeyData c7Sel c7Data c7BuildOpts).links, l.value > 0) ∧
    (∀ n ∈ (buildSankeyData c7Sel c7Data c7BuildOpts).nodes,
      ∃ l ∈ stdRawLinks c7Sel c7Data c7BuildOpts, l.source = n.id ∨ l.target = n.id) :=
  ⟨(c7_pruning_amended c7Sel c7Data c7BuildOpts).1,
   (c7_pruning_amended c7Sel c7Data c7BuildOpts).2 (by decide)⟩

/-! Claim C10: edge endpoint well-formedness. -/

/-- If every raw link's endpoints have raw nodes, the pruned graph is
endpoint-closed: the link itself keeps both endpoint nodes alive. -/
theorem pruneSankey_endpoint (ns : List SankeyNode) (ls : List SankeyLink)
    (h : ∀ l ∈ ls, (∃ n ∈ ns, n.id = l.source) ∧ (∃ n ∈ ns, n.id = l.target)) :
    ∀ l ∈ (pruneSankey ns ls).links,
      (∃ n ∈ (pruneSankey ns ls).nodes, n.id = l.source) ∧
      (∃ n ∈ (pruneSankey ns ls).nodes, n.id = l.target) := by
  intro l hl
  have hlr : l ∈ ls := List.mem_of_mem_filter hl
  obtain ⟨⟨n1, hn1, hid1⟩, ⟨n2, hn2, hid2⟩⟩ := h l hlr
  constructor
  · refine ⟨n1, List.mem_filter.2 ⟨hn1, ?_⟩, hid1⟩
    simp only [List.any_eq_true]
    exact ⟨l, hlr, by simp [hid1]⟩
  · refine ⟨n2, List.mem_filter.2 ⟨hn2, ?_⟩, hid2⟩
    simp only [List.any_eq_true]
    exact ⟨l, hlr, by simp [hid2]⟩

/-- Every value held by the Global-view leftover-budget map is positive. -/
theorem bucketsB_values_pos (data : RS2024StructuredData) (tops : List TopMinistry)
    (tp : List BudgetRecord) :
    ∀ k v, mapGet (globalOtherBuckets data tops tp).1 k = some v → v > 0 := by
  rw [globalOtherBuckets_eq_foldl]
  refine foldl_inv (fun (acc : List (String × Money) × List (String × Money)) =>
      ∀ k v, mapGet acc.1 k = some v → v > 0) _ _ ?_ _ ?_
  · intro acc x hx hacc k v hv
    simp only [globalOtherBucketsStep] at hv
    by_cases hb : x.totalBudget -
        sumBy (fun p => p.totalBudget) (tp.filter (fun p => p.ministry = x.name)) > 0
    · rw [if_pos hb] at hv
      by_cases hk : k = x.name
      · subst hk
        rw [mapGet_mapSet_self] at hv
        cases hv
        exact hb
      · rw [mapGet_mapSet_ne _ _ _ _ hk] at hv
        exact hacc k v hv
    · rw [if_neg hb] at hv
      exact hacc k v hv
  · intro k v hv
    cases hv

/-- Every entry of `stdGlobalOtherBudgetPerMinistry` carries a positive
amount. -/
theorem perMinistry_values_pos (sel : DataSelection) :
    ∀ e ∈ stdGlobalOtherBudgetPerMinistry sel, e.2 > 0 := by
  intro e he
  unfold stdGlobalOtherBudgetPerMinistry at he
  obtain ⟨x, _, hfx⟩ := List.mem_filterMap.1 he
  rcases hmg : mapGet sel.otherProjectsBudgetByMinistry x.name with _ | v <;>
    simp only [hmg] at hfx
  · cases hfx
  · split at hfx
    · cases hfx
      rename_i hc
      exact hc.2
    · cases hfx

theorem sumBy_nonneg_of_pos (f : α → Money) (l : List α) (h : ∀ x ∈ l, 0 < f x) :
    0 ≤ sumBy f l :=
  sumBy_nonneg f l (fun x hx => le_of_lt (h x hx))

/-- The budget total the spending section of the Global view recomputes
agrees with the one the budget section used, whenever the map holds only
positive values and the leftover-ministries budget is non-negative. -/
theorem globalOtherBudget_totals_agree (sel : DataSelection)
    (hpos : ∀ k v, mapGet sel.otherProjectsBudgetByMinistry k = some v → v > 0)
    (hnn : 0 ≤ sel.otherMinistriesBudget) :
    stdGlobalTotalOtherBudget sel = stdGlobalTotalOtherBudgetForSpending sel := by
  unfold stdGlobalTotalOtherBudget stdGlobalTotalOtherBudgetForSpending
    stdGlobalOtherBudgetPerMinistry
  have hsum : sumBy (fun (e : TopMinistry × Money) => e.2) (sel.topMinistries.filterMap
      (fun ministry => match mapGet sel.otherProjectsBudgetByMinistry ministry.name with
        | some v => if v ≠ 0 ∧ v > 0 then some (ministry, v) else none
        | none => none)) =
      sumBy (fun ministry => mapGetD sel.otherProjectsBudgetByMinistry ministry.name 0)
        sel.topMinistries := by
    induction sel.topMinistries with
    | nil => rfl
    | cons a t ih =>
      rw [List.filterMap_cons]
      rcases hmg : mapGet sel.otherProjectsBudgetByMinistry a.name with _ | v <;>
        simp only [hmg]
      · simp only [sumBy, List.map_cons, List.sum_cons, mapGetD, hmg, Option.getD_none,
          zero_add] at ih ⊢
        exact ih
      · have hv := hpos a.name v hmg
        rw [if_pos ⟨ne_of_gt hv, hv⟩]
        simp only [sumBy, List.map_cons, List.sum_cons, mapGetD, hmg, Option.getD_some] at ih ⊢
        rw [ih]
  rw [hsum]
  by_cases hob : sel.otherMinistriesBudget > 0
  · rw [if_pos hob]
  · rw [if_neg hob]
    have : sel.otherMinistriesBudget = 0 := le_antisymm (not_lt.1 hob) hnn
    rw [this]

/-- The Global-view kept recipients are source spending records. -/
theorem globalTopRecipients_subset (data : RS2024StructuredData) (o : SelectOptions) :
    ∀ s ∈ globalTopRecipients data o, s ∈ data.spendings := by
  intro s hs
  unfold globalTopRecipients at hs
  exact List.mem_of_mem_filter ((sortByDesc_perm _ _).subset (List.mem_of_mem_take hs))

/-! Node membership plumbing for the endpoint theorem. -/

theorem mem_raw_of_before (sel : DataSelection) (fullData : RS2024StructuredData)
    (o : BuildOptions) (n : SankeyNode) (h : n ∈ stdNodesBeforeRecipients sel o) :
    n ∈ stdRawNodes sel fullData o := by
  simp only [stdRawNodes]
  exact List.mem_append_left _ (List.mem_append_left _ (List.mem_append_left _
    (List.mem_append_left _ h)))

theorem mem_before_total (sel : DataSelection) (o : BuildOptions) (n : SankeyNode)
    (h : n ∈ stdTotalBudgetNode sel o) : n ∈ stdNodesBeforeRecipients sel o := by
  unfold stdNodesBeforeRecipients
  exact List.mem_append_left _ (List.mem_append_left _ (List.mem_append_left _
    (List.mem_append_left _ (List.mem_append_left _ (List.mem_append_left _
    (List.mem_append_left _ h))))))

theorem mem_before_ministry (sel : DataSelection) (o : BuildOptions) (n : SankeyNode)
    (h : n ∈ stdMinistryNodes sel o) : n ∈ stdNodesBeforeRecipients sel o := by
  unfold stdNodesBeforeRecipients
  exact List.mem_append_left _ (List.mem_append_left _ (List.mem_append_left _
    (List.mem_append_left _ (List.mem_append_left _ (List.mem_append_left _
    (List.mem_append_right _ h))))))

theorem mem_before_projectBudget (sel : DataSelection) (o : BuildOptions) (n : SankeyNode)
    (h : n ∈ stdProjectBudgetNodes sel) : n ∈ stdNodesBeforeRecipients sel o := by
  unfold stdNodesBeforeRecipients
  exact List.mem_append_left _ (List.mem_append_left _ (List.mem_append_left _
    (List.mem_append_left _ (List.mem_append_left _ (List.mem_append_right _ h)))))

theorem mem_before_globalOtherBudget (sel : DataSelection) (o : BuildOptions) (n : SankeyNode)
    (h : n ∈ stdGlobalOtherBudgetNodes sel o) : n ∈ stdNodesBeforeRecipients sel o := by
  unfold stdNodesBeforeRecipients
  exact List.mem_append_left _ (List.mem_append_left _ (List.mem_append_left _
    (List.mem_append_right _ h)))

theorem mem_before_projectSpending (sel : DataSelection) (o : BuildOptions) (n : SankeyNode)
    (h : n ∈ stdProjectSpendingNodes sel) : n ∈ stdNodesBeforeRecipients sel o := by
  unfold stdNodesBeforeRecipients
  exact List.mem_append_left _ (List.mem_append_left _ (List.mem_append_right _ h))

theorem mem_before_globalOtherSpending (sel : DataSelection) (o : BuildOptions)
    (n : SankeyNode) (h : n ∈ stdGlobalOtherSpendingNodes sel o) :
    n ∈ stdNodesBeforeRecipients sel o := by
  unfold stdNodesBeforeRecipients
  exact List.mem_append_right _ h

theorem mem_raw_recipients_global (sel : DataSelection) (fullData : RS2024StructuredData)
    (o : BuildOptions) (hg : isGlobalView o = true) (n : SankeyNode)
    (h : n ∈ stdGlobalRecipientNodes sel) : n ∈ stdRawNodes sel fullData o := by
  simp only [stdRawNodes, hg, if_true]
  exact List.mem_append_left _ (List.mem_append_left _ (List.mem_append_left _
    (List.mem_append_right _ h)))

theorem mem_raw_aggregated (sel : DataSelection) (fullData : RS2024StructuredData)
    (o : BuildOptions) (n : SankeyNode)
    (h : n ∈ stdAggregatedNode sel fullData o (stdNodesBeforeRecipients sel o)) :
    n ∈ stdRawNodes sel fullData o := by
  simp only [stdRawNodes]
  exact List.mem_append_left _ (List.mem_append_right _ h)

theorem mem_raw_noSpending (sel : DataSelection) (fullData : RS2024StructuredData)
    (o : BuildOptions) (n : SankeyNode) (h : n ∈ stdNoSpendingNode sel) :
    n ∈ stdRawNodes sel fullData o := by
  simp only [stdRawNodes]
  exact List.mem_append_right _ h

/-! Existence of the individual columns' nodes. -/

theorem node_total (sel : DataSelection) (o : BuildOptions)
    (htm : truthy o.targetMinistryName = false) :
    ∃ n ∈ stdTotalBudgetNode sel o, n.id = NodeId.totalBudget := by
  simp [stdTotalBudgetNode, htm]

theorem node_ministry (sel : DataSelection) (o : BuildOptions)
    (htp : truthy o.targetProjectName = false) (m : TopMinistry)
    (hm : m ∈ sel.topMinistries) :
    ∃ n ∈ stdMinistryNodes sel o, n.id = NodeId.ministryBudget m.id := by
  unfold stdMinistryNodes
  simp only [htp, Bool.false_eq_true, if_false]
  exact ⟨_, List.mem_append_left _ (List.mem_map.2 ⟨m, hm, rfl⟩), rfl⟩

theorem node_ministryOther (sel : DataSelection) (o : BuildOptions)
    (htp : truthy o.targetProjectName = false) (hg : isGlobalView o = true)
    (hob : sel.otherMinistriesBudget > 0) :
    ∃ n ∈ stdMinistryNodes sel o, n.id = NodeId.ministryBudgetOther := by
  unfold stdMinistryNodes
  simp only [htp, Bool.false_eq_true, if_false]
  rw [if_pos (⟨hg, hob⟩ : isGlobalView o = true ∧ sel.otherMinistriesBudget > 0)]
  exact ⟨_, List.mem_append_right _ (List.mem_singleton_self _), rfl⟩

theorem node_projectBudget (sel : DataSelection) (p : BudgetRecord)
    (hp : p ∈ sel.topProjects) :
    ∃ n ∈ stdProjectBudgetNodes sel, n.id = NodeId.projectBudget p.projectId :=
  ⟨_, List.mem_map.2 ⟨p, hp, rfl⟩, rfl⟩

theorem node_globalOtherBudget (sel : DataSelection) (o : BuildOptions)
    (hg : isGlobalView o = true) (hpos : stdGlobalTotalOtherBudget sel > 0) :
    ∃ n ∈ stdGlobalOtherBudgetNodes sel o, n.id = NodeId.projectBudgetOtherGlobal := by
  unfold stdGlobalOtherBudgetNodes
  rw [if_pos ⟨hg, hpos⟩]
  exact ⟨_, List.mem_singleton_self _, rfl⟩

theorem node_projectSpending (sel : DataSelection) (p : BudgetRecord)
    (hp : p ∈ sel.topProjects) (hne : p.spendingIds ≠ []) :
    ∃ n ∈ stdProjectSpendingNodes sel, n.id = NodeId.projectSpending p.projectId := by
  refine ⟨_, List.mem_map.2 ⟨p, ?_, rfl⟩, rfl⟩
  unfold stdSpendingProjects
  refine List.mem_filter.2 ⟨hp, ?_⟩
  simp [List.length_eq_zero, hne]

theorem node_globalOtherSpending (sel : DataSelection) (o : BuildOptions)
    (hg : isGlobalView o = true) (hpos : stdGlobalTotalOtherSpending sel > 0) :
    ∃ n ∈ stdGlobalOtherSpendingNodes sel o, n.id = NodeId.projectSpendingOtherGlobal := by
  unfold stdGlobalOtherSpendingNodes
  rw [if_pos ⟨hg, hpos⟩]
  exact ⟨_, List.mem_singleton_self _, rfl⟩

theorem node_globalRecipient (sel : DataSelection) (s : SpendingRecord)
    (hs : s ∈ sel.topSpendings) :
    ∃ n ∈ stdGlobalRecipientNodes sel, n.id = NodeId.recipient s.spendingId :=
  ⟨_, List.mem_map.2 ⟨s, hs, rfl⟩, rfl⟩

theorem node_aggregated (sel : DataSelection) (fullData : RS2024StructuredData)
    (o : BuildOptions) (ns : List SankeyNode)
    (hpos : stdTotalOtherRecipientAmount sel fullData o ns > 0) :
    ∃ n ∈ stdAggregatedNode sel fullData o ns, n.id = NodeId.recipientOtherAggregated := by
  unfold stdAggregatedNode
  rw [if_pos hpos]
  exact ⟨_, List.mem_singleton_self _, rfl⟩

theorem node_noSpending (sel : DataSelection) (p : BudgetRecord)
    (hp : p ∈ stdProjectsWithNoSpending sel) :
    ∃ n ∈ stdNoSpendingNode sel, n.id = NodeId.recipientNoSpending := by
  unfold stdNoSpendingNode
  rw [if_pos (by simp [List.length_eq_zero]; exact List.ne_nil_of_mem hp)]
  exact ⟨_, List.mem_singleton_self _, rfl⟩

theorem sumBy_pos_of_mem (f : α → Money) (l : List α) (h : ∀ x ∈ l, 0 < f x)
    {x : α} (hx : x ∈ l) : 0 < sumBy f l := by
  cases l with
  | nil => cases hx
  | cons a t =>
    have ha := h a (List.mem_cons_self a t)
    have ht : 0 ≤ sumBy f t :=
      sumBy_nonneg f t (fun y hy => le_of_lt (h y (List.mem_cons_of_mem a hy)))
    simp only [sumBy, List.map_cons, List.sum_cons]
    simp only [sumBy] at ht
    linarith

theorem perMinistry_mem (sel : DataSelection) :
    ∀ e ∈ stdGlobalOtherBudgetPerMinistry sel, e.1 ∈ sel.topMinistries := by
  intro e he
  unfold stdGlobalOtherBudgetPerMinistry at he
  obtain ⟨x, hx, hfx⟩ := List.mem_filterMap.1 he
  rcases hmg : mapGet sel.otherProjectsBudgetByMinistry x.name with _ | v <;>
    simp only [hmg] at hfx
  · cases hfx
  · split at hfx
    · cases hfx
      exact hx
    · cases hfx

/-- Every link the Global leftover → top-recipient loop pushes: the
leftover-spending node existed when the loop checked, the source is that
node, and the target is a kept top recipient. -/
theorem globalAggToTop_shape (sel : DataSelection) (fullData : RS2024StructuredData)
    (ns : List SankeyNode) :
    ∀ l ∈ (stdGlobalAggLinksToTopRecipients sel fullData ns).1,
      (ns.find? (fun n => n.id = NodeId.projectSpendingOtherGlobal)).isSome = true ∧
      l.source = NodeId.projectSpendingOtherGlobal ∧
      ∃ r ∈ sel.topSpendings, l.target = NodeId.recipient r.spendingId := by
  simp only [stdGlobalAggLinksToTopRecipients]
  refine foldl_inv (fun (acc : List SankeyLink × Money) => ∀ l ∈ acc.1,
      (ns.find? (fun n => n.id = NodeId.projectSpendingOtherGlobal)).isSome = true ∧
      l.source = NodeId.projectSpendingOtherGlobal ∧
      ∃ r ∈ sel.topSpendings, l.target = NodeId.recipient r.spendingId)
    _ _ ?_ _ (fun l hl => absurd hl (List.not_mem_nil l))
  intro acc x hx hacc l hl
  split at hl
  · rename_i hguard
    rcases List.mem_append.1 hl with h | h
    · exact hacc l h
    · rw [List.mem_singleton] at h
      subst h
      exact ⟨hguard.2, rfl, ⟨x, hx, rfl⟩⟩
  · exact hacc l hl

/-- Keys of the Global per-project leftover-spending map are ids of kept
projects with at least one destination. -/
theorem globalOtherSpendingsByProject_keys (sel : DataSelection)
    (fullData : RS2024StructuredData) (hinit : sel.otherSpendingsByProject = []) :
    ∀ e ∈ globalOtherSpendingsByProject sel fullData,
      ∃ p ∈ sel.topProjects, p.projectId = e.1 ∧ p.spendingIds ≠ [] := by
  unfold globalOtherSpendingsByProject
  rw [hinit]
  refine foldl_inv (fun (m : List (Int × Money)) => ∀ e ∈ m,
      ∃ p ∈ sel.topProjects, p.projectId = e.1 ∧ p.spendingIds ≠ [])
    _ _ ?_ _ (fun e he => absurd he (List.not_mem_nil e))
  intro acc x hx hacc e he
  dsimp only at he
  split at he
  · rename_i hv
    rcases mem_mapSet _ _ _ e he with rfl | h
    · refine ⟨x, hx, rfl, ?_⟩
      intro hnil
      unfold globalProjectTotalToOthers at hv
      rw [hnil] at hv
      simp [sumBy] at hv
    · exact hacc e h
  · exact hacc e he

/-- Raw-link endpoint closure of the Global view: every link the builder
pushes refers to node ids that the builder also pushes. -/
theorem globalRawEndpoints (data : RS2024StructuredData) (so : SelectOptions)
    (bo : BuildOptions) (hwf : GlobalWF data)
    (hlink : ∀ s ∈ data.spendings, ∀ c ∈ s.projects, ∀ p ∈ data.budgets,
      p.projectId = c.projectId → s.spendingId ∈ p.spendingIds)
    (htm : truthy bo.targetMinistryName = false)
    (htp : truthy bo.targetProjectName = false)
    (htr : truthy bo.targetRecipientName = false) :
    ∀ l ∈ stdRawLinks (selectGlobalView data so) data bo,
      (∃ n ∈ stdRawNodes (selectGlobalView data so) data bo, n.id = l.source) ∧
      (∃ n ∈ stdRawNodes (selectGlobalView data so) data bo, n.id = l.target) := by
  have hg : isGlobalView bo = true := by simp [isGlobalView, htm, htp, htr]
  set sel := selectGlobalView data so with hsel
  have hTM : sel.topMinistries = (selectGlobalMinistries data so).1 := rfl
  have hTP : sel.topProjects = globalTopProjects data so := rfl
  have hOB : sel.otherMinistriesBudget = (selectGlobalMinistries data so).2.1 := rfl
  have hPB : sel.otherProjectsBudgetByMinistry =
      (globalOtherBuckets data (selectGlobalMinistries data so).1
        (globalTopProjects data so)).1 := rfl
  have hTS : sel.topSpendings = globalTopRecipients data so := rfl
  have hOS : sel.otherSpendingsByProject = [] := rfl
  have hON : sel.otherNamedSpendingByProject = [] := rfl
  clear_value sel
  have hmin_nonneg : ∀ mm ∈ data.ministries, 0 ≤ mm.totalBudget := by
    intro mm hmm
    rw [hwf.ministry_totals mm hmm]
    exact sumBy_nonneg _ _ (fun b hb => hwf.budgets_nonneg b (List.mem_of_mem_filter hb))
  have hnn : 0 ≤ sel.otherMinistriesBudget := by
    rw [hOB]
    exact otherMinistriesBudget_nonneg data so hmin_nonneg
  have hbpos : ∀ k v, mapGet sel.otherProjectsBudgetByMinistry k = some v → v > 0 := by
    rw [hPB]
    exact bucketsB_values_pos data _ _
  have e3 : stdOtherProjectsBudgetNonGlobal sel bo = [] := by
    simp [stdOtherProjectsBudgetNonGlobal, hg]
  have e6 : stdOtherProjectsSpendingNonGlobal sel bo = [] := by
    simp [stdOtherProjectsSpendingNonGlobal, hg]
  have e9 : stdOtherNamedLinksFromTopProjects sel = [] := by
    unfold stdOtherNamedLinksFromTopProjects totalOtherNamedAmount
    rw [hON]
    simp [sumBy]
  have e10 : ∀ ns, stdOtherNamedLinksFromOtherProjects sel data bo ns = [] := by
    intro ns
    simp [stdOtherNamedLinksFromOtherProjects, hg]
  have e11 : ∀ ns, stdOtherToTopRecipientLinks sel data bo ns = [] := by
    intro ns
    simp [stdOtherToTopRecipientLinks, hg]
  intro l hl
  simp only [stdRawLinks, hg, if_true, List.mem_append] at hl
  rcases hl with
    ((((((((((((h | h) | h) | h) | h) | h) | h) | h) | h) | h) | h) | h) | h)
  · -- group 1: total-budget → ministries
    unfold stdLinksTotalToMinistries at h
    simp only [htm, htp, Bool.false_eq_true, or_self, if_false] at h
    rcases List.mem_append.1 h with h1 | h1
    · obtain ⟨m, hm, rfl⟩ := List.mem_map.1 h1
      constructor
      · obtain ⟨n, hn, hid⟩ := node_total sel bo htm
        exact ⟨n, mem_raw_of_before sel data bo n (mem_before_total sel bo n hn), hid⟩
      · obtain ⟨n, hn, hid⟩ := node_ministry sel bo htp m hm
        exact ⟨n, mem_raw_of_before sel data bo n (mem_before_ministry sel bo n hn), hid⟩
    · split at h1
      · rename_i hob
        rw [List.mem_singleton] at h1
        subst h1
        constructor
        · obtain ⟨n, hn, hid⟩ := node_total sel bo htm
          exact ⟨n, mem_raw_of_before sel data bo n (mem_before_total sel bo n hn), hid⟩
        · obtain ⟨n, hn, hid⟩ := node_ministryOther sel bo htp hg hob
          exact ⟨n, mem_raw_of_before sel data bo n (mem_before_ministry sel bo n hn), hid⟩
      · cases h1
  · -- group 2: ministry → project-budget
    rw [stdLinksIntoProjectBudgets_of_notP sel bo htp] at h
    obtain ⟨p, hp, hfp⟩ := List.mem_filterMap.1 h
    have htarget : ∃ n ∈ stdRawNodes sel data bo, n.id = NodeId.projectBudget p.projectId := by
      obtain ⟨n, hn, hid⟩ := node_projectBudget sel p hp
      exact ⟨n, mem_raw_of_before sel data bo n (mem_before_projectBudget sel bo n hn), hid⟩
    rcases heq : sel.topMinistries.find? (fun m => m.name = p.ministry) with _ | ministry <;>
      simp only [heq] at hfp
    · split at hfp
      · rename_i hcond
        cases hfp
        refine ⟨?_, htarget⟩
        obtain ⟨n, hn, hid⟩ := node_ministryOther sel bo htp hcond.1 hcond.2
        exact ⟨n, mem_raw_of_before sel data bo n (mem_before_ministry sel bo n hn), hid⟩
      · cases hfp
    · cases hfp
      refine ⟨?_, htarget⟩
      obtain ⟨n, hn, hid⟩ :=
        node_ministry sel bo htp ministry (List.mem_of_find?_eq_some heq)
      exact ⟨n, mem_raw_of_before sel data bo n (mem_before_ministry sel bo n hn), hid⟩
  · -- group 3: empty in Global mode
    rw [e3] at h
    simp at h
  · -- group 4: ministries → Global leftover-projects budget node
    unfold stdGlobalOtherBudgetLinks at h
    simp only [hg, if_true] at h
    have hperpos := perMinistry_values_pos sel
    rcases List.mem_append.1 h with h1 | h1
    · obtain ⟨e, he, rfl⟩ := List.mem_map.1 h1
      constructor
      · obtain ⟨n, hn, hid⟩ := node_ministry sel bo htp e.1 (perMinistry_mem sel e he)
        exact ⟨n, mem_raw_of_before sel data bo n (mem_before_ministry sel bo n hn), hid⟩
      · have hpos : stdGlobalTotalOtherBudget sel > 0 := by
          unfold stdGlobalTotalOtherBudget
          have h1 := sumBy_pos_of_mem (fun (e : TopMinistry × Money) => e.2) _ hperpos he
          have h2 : (0 : Money) ≤
              (if sel.otherMinistriesBudget > 0 then sel.otherMinistriesBudget else 0) := by
            split
            · linarith
            · linarith
          linarith
        obtain ⟨n, hn, hid⟩ := node_globalOtherBudget sel bo hg hpos
        exact ⟨n, mem_raw_of_before sel data bo n
          (mem_before_globalOtherBudget sel bo n hn), hid⟩
    · split at h1
      · rename_i hob
        rw [List.mem_singleton] at h1
        subst h1
        constructor
        · obtain ⟨n, hn, hid⟩ := node_ministryOther sel bo htp hg hob
          exact ⟨n, mem_raw_of_before sel data bo n (mem_before_ministry sel bo n hn), hid⟩
        · have hpos : stdGlobalTotalOtherBudget sel > 0 := by
            unfold stdGlobalTotalOtherBudget
            have h1 := sumBy_nonneg_of_pos (fun (e : TopMinistry × Money) => e.2) _ hperpos
            rw [if_pos hob]
            linarith
          obtain ⟨n, hn, hid⟩ := node_globalOtherBudget sel bo hg hpos
          exact ⟨n, mem_raw_of_before sel data bo n
            (mem_before_globalOtherBudget sel bo n hn), hid⟩
      · cases h1
  · -- group 5: project budget → project spending
    obtain ⟨p, hpS, rfl⟩ := List.mem_map.1 h
    have hp : p ∈ sel.topProjects := (List.mem_filter.1 hpS).1
    have hne : p.spendingIds ≠ [] := by
      have := (List.mem_filter.1 hpS).2
      simpa [List.length_eq_zero] using this
    constructor
    · obtain ⟨n, hn, hid⟩ := node_projectBudget sel p hp
      exact ⟨n, mem_raw_of_before sel data bo n (mem_before_projectBudget sel bo n hn), hid⟩
    · obtain ⟨n, hn, hid⟩ := node_projectSpending sel p hp hne
      exact ⟨n, mem_raw_of_before sel data bo n (mem_before_projectSpending sel bo n hn), hid⟩
  · -- group 6: empty in Global mode
    rw [e6] at h
    simp at h
  · -- group 7: leftover budget node → leftover spending node
    unfold stdGlobalOtherSpendingLinks at h
    split at h
    · rename_i hgs
      dsimp only at h
      split at h
      · rename_i hlv
        rw [List.mem_singleton] at h
        subst h
        constructor
        · have hfs : stdGlobalTotalOtherBudgetForSpending sel > 0 := (lt_min_iff.1 hlv).1
          have hpos : stdGlobalTotalOtherBudget sel > 0 := by
            rw [globalOtherBudget_totals_agree sel hbpos hnn]
            exact hfs
          obtain ⟨n, hn, hid⟩ := node_globalOtherBudget sel bo hg hpos
          exact ⟨n, mem_raw_of_before sel data bo n
            (mem_before_globalOtherBudget sel bo n hn), hid⟩
        · obtain ⟨n, hn, hid⟩ := node_globalOtherSpending sel bo hg hgs.2
          exact ⟨n, mem_raw_of_before sel data bo n
            (mem_before_globalOtherSpending sel bo n hn), hid⟩
      · cases h
    · cases h
  · -- group 8: project spending → recipient
    obtain ⟨spending, hsp, hin⟩ := List.mem_flatMap.1 h
    obtain ⟨sp, hspp, hf⟩ := List.mem_filterMap.1 hin
    split at hf
    · rename_i hany
      cases hf
      have hsd : spending ∈ data.spendings := by
        rw [hTS] at hsp
        exact globalTopRecipients_subset data so spending hsp
      obtain ⟨p, hp, hpid⟩ : ∃ p ∈ sel.topProjects, p.projectId = sp.projectId := by
        simpa [List.any_eq_true] using hany
      have hpd : p ∈ data.budgets := by
        rw [hTP] at hp
        exact (globalTopProjects_subperm data so).subset hp
      have hne : p.spendingIds ≠ [] :=
        List.ne_nil_of_mem (hlink spending hsd sp hspp p hpd hpid)
      constructor
      · obtain ⟨n, hn, hid⟩ := node_projectSpending sel p hp hne
        exact ⟨n, mem_raw_of_before sel data bo n (mem_before_projectSpending sel bo n hn),
          by rw [hid, hpid]⟩
      · obtain ⟨n, hn, hid⟩ := node_globalRecipient sel spending hsp
        exact ⟨n, mem_raw_recipients_global sel data bo hg n hn, hid⟩
    · cases hf
  · -- group 9: empty in Global mode
    rw [e9] at h
    cases h
  · -- group 10: empty in Global mode
    rw [e10] at h
    cases h
  · -- group 11: empty in Global mode
    rw [e11] at h
    cases h
  · -- group 12: the leftover-recipients section
    unfold stdAggLinks at h
    rw [hg] at h
    simp only [if_true] at h
    split at h
    · rename_i htotal
      unfold stdGlobalAggLinks at h
      have hsrcnode : (((stdNodesBeforeRecipients sel bo).find?
          (fun n => n.id = NodeId.projectSpendingOtherGlobal)).isSome = true) →
          ∃ n ∈ stdRawNodes sel data bo, n.id = NodeId.projectSpendingOtherGlobal := by
        intro hsome
        obtain ⟨nd, hnd⟩ := Option.isSome_iff_exists.1 hsome
        refine ⟨nd, mem_raw_of_before sel data bo nd (List.mem_of_find?_eq_some hnd), ?_⟩
        simpa using List.find?_some hnd
      have haggnode : ∃ n ∈ stdRawNodes sel data bo,
          n.id = NodeId.recipientOtherAggregated := by
        obtain ⟨n, hn, hid⟩ := node_aggregated sel data bo _ htotal
        exact ⟨n, mem_raw_aggregated sel data bo n hn, hid⟩
      rcases List.mem_append.1 h with h1 | h1
      · rcases List.mem_append.1 h1 with h2 | h2
        · obtain ⟨hsome, hsrc, r, hr, htgt⟩ := globalAggToTop_shape sel data _ l h2
          constructor
          · obtain ⟨n, hn, hid⟩ := hsrcnode hsome
            exact ⟨n, hn, by rw [hid, hsrc]⟩
          · obtain ⟨n, hn, hid⟩ := node_globalRecipient sel r hr
            exact ⟨n, mem_raw_recipients_global sel data bo hg n hn, by rw [hid, htgt]⟩
        · rcases hfind : (stdNodesBeforeRecipients sel bo).find?
              (fun n => n.id = NodeId.projectSpendingOtherGlobal) with _ | nd <;>
            simp only [hfind] at h2
          · cases h2
          · split at h2
            · rw [List.mem_singleton] at h2
              subst h2
              refine ⟨?_, haggnode⟩
              exact hsrcnode (by rw [hfind]; rfl)
            · cases h2
      · obtain ⟨e, heOS, hf⟩ := List.mem_filterMap.1 h1
        simp only [Option.ite_none_right_eq_some, Option.some.injEq] at hf
        obtain ⟨-, rfl⟩ := hf
        obtain ⟨p, hp, hpid, hne⟩ :=
          globalOtherSpendingsByProject_keys sel data hOS e heOS
        obtain ⟨n2, hn2, hid2⟩ := haggnode
        refine ⟨?_, ⟨n2, hn2, by rw [hid2]⟩⟩
        obtain ⟨n, hn, hid⟩ := node_projectSpending sel p hp hne
        exact ⟨n, mem_raw_of_before sel data bo n (mem_before_projectSpending sel bo n hn),
          by rw [hid]; simp [hpid]⟩
    · cases h
  · -- group 13: sentinel links into the no-destination node
    unfold stdNoSpendingLinks at h
    split at h
    · obtain ⟨p, hp, rfl⟩ := List.mem_map.1 h
      constructor
      · obtain ⟨n, hn, hid⟩ :=
          node_projectBudget sel p (List.mem_of_mem_filter hp)
        exact ⟨n, mem_raw_of_before sel data bo n (mem_before_projectBudget sel bo n hn), hid⟩
      · obtain ⟨n, hn, hid⟩ := node_noSpending sel p hp
        exact ⟨n, mem_raw_noSpending sel data bo n hn, hid⟩
    · cases h

/-- C10 scenario store: the target recipient reaches projects of two
ministries, one with zero contribution. -/
def c10Data : RS2024StructuredData :=
  ⟨[⟨1, "M1", yen 100, 0⟩, ⟨2, "M2", yen 50, 0⟩],
   [⟨1, "P1", "M1", yen 100, yen 100, [7]⟩, ⟨2, "P2", "M2", yen 50, 0, [7]⟩],
   [⟨7, "R", yen 100, 2, [⟨1, yen 100⟩, ⟨2, 0⟩]⟩],
   [("M1", yen 100), ("M2", 0)], ⟨2, 2, yen 150⟩⟩

/-- C10 request: Spending view of R, keeping both ministries. -/
def c10SelOpts : SelectOptions := ⟨0, 0, 2, 2, 3, none, none, some "R", 0⟩

def c10BuildOpts : BuildOptions := ⟨0, none, none, some "R", 2, 2, 3, 0⟩

def c10Sel : DataSelection := selectSpendingView c10Data c10SelOpts "R"

/-- Claim C10 counterexample.  The spending view's ministry → project links
carry no positivity guard while the project nodes do (the `amount > 0`
filter), so project P2 (contribution 0) gets an incoming edge of value 50
whose target id `project-budget-2` matches no emitted node: the spending
view returns early and is never pruned. -/
theorem c10_counterexample :
    ∃ l ∈ (buildSankeyData c10Sel c10Data c10BuildOpts).links,
      l.target = NodeId.projectBudget 2 ∧
      ∀ n ∈ (buildSankeyData c10Sel c10Data c10BuildOpts).nodes,
        ¬ n.id = NodeId.projectBudget 2 := by decide

/-! Endpoint closure of the Ministry and Project views (claim C10): shared
node lemmas for the non-Global columns. -/

theorem mem_before_otherProjectsBudget (sel : DataSelection) (o : BuildOptions)
    (n : SankeyNode) (h : n ∈ (stdOtherProjectsBudgetNonGlobal sel o).map (fun e => e.1)) :
    n ∈ stdNodesBeforeRecipients sel o := by
  unfold stdNodesBeforeRecipients
  exact List.mem_append_left _ (List.mem_append_left _ (List.mem_append_left _
    (List.mem_append_left _ (List.mem_append_right _ h))))

theorem mem_before_otherProjectsSpending (sel : DataSelection) (o : BuildOptions)
    (n : SankeyNode) (h : n ∈ (stdOtherProjectsSpendingNonGlobal sel o).map (fun e => e.1)) :
    n ∈ stdNodesBeforeRecipients sel o := by
  unfold stdNodesBeforeRecipients
  exact List.mem_append_left _ (List.mem_append_right _ h)

theorem mem_raw_otherNamed (sel : DataSelection) (fullData : RS2024StructuredData)
    (o : BuildOptions) (n : SankeyNode) (h : n ∈ stdOtherNamedNode sel) :
    n ∈ stdRawNodes sel fullData o := by
  simp only [stdRawNodes]
  exact List.mem_append_left _ (List.mem_append_left _ (List.mem_append_right _ h))

theorem mem_raw_recipients_nonglobal (sel : DataSelection)
    (fullData : RS2024StructuredData) (o : BuildOptions) (hng : isGlobalView o = false)
    (n : SankeyNode) (h : n ∈ stdNonGlobalRecipientNodes sel) :
    n ∈ stdRawNodes sel fullData o := by
  simp only [stdRawNodes, hng, Bool.false_eq_true, if_false]
  exact List.mem_append_left _ (List.mem_append_left _ (List.mem_append_left _
    (List.mem_append_right _ h)))

theorem node_otherNamed (sel : DataSelection) (hpos : totalOtherNamedAmount sel > 0) :
    ∃ n ∈ stdOtherNamedNode sel, n.id = NodeId.recipientOtherNamed := by
  unfold stdOtherNamedNode
  rw [if_pos hpos]
  exact ⟨_, List.mem_singleton_self _, rfl⟩

theorem node_nonGlobalRecipient (sel : DataSelection) (s : SpendingRecord)
    (hs : s ∈ sel.topSpendings) (p : BudgetRecord) (hp : p ∈ sel.topProjects)
    (hfind : (s.projects.find? (fun q => q.projectId = p.projectId)).isSome = true) :
    ∃ n ∈ stdNonGlobalRecipientNodes sel, n.id = NodeId.recipient s.spendingId := by
  unfold stdNonGlobalRecipientNodes
  refine ⟨_, List.mem_map.2 ⟨s, List.mem_filter.2 ⟨hs, ?_⟩, rfl⟩, rfl⟩
  simp only [List.any_eq_true]
  exact ⟨p, hp, by simpa using hfind⟩

/-- The per-ministry leftover budget pairs of the non-Global views, with
their node and link ids. -/
theorem otherProjectsBudget_pairs (sel : DataSelection) (o : BuildOptions) :
    ∀ e ∈ stdOtherProjectsBudgetNonGlobal sel o,
      ∃ m ∈ sel.topMinistries, e.1.id = NodeId.projectBudgetOther m.id ∧
        e.2.source = NodeId.ministryBudget m.id ∧
        e.2.target = NodeId.projectBudgetOther m.id := by
  intro e he
  unfold stdOtherProjectsBudgetNonGlobal at he
  split at he
  · cases he
  · obtain ⟨m, hm, hf⟩ := List.mem_filterMap.1 he
    rcases hmg : mapGet sel.otherProjectsBudgetByMinistry m.name with _ | v <;>
      simp only [hmg] at hf
    · cases hf
    · split at hf
      · cases hf
        exact ⟨m, hm, rfl, rfl, rfl⟩
      · cases hf

/-- The per-ministry leftover spending pairs of the non-Global views, with
their node and link ids and the guard that forces the budget-side pair. -/
theorem otherProjectsSpending_pairs (sel : DataSelection) (o : BuildOptions) :
    ∀ e ∈ stdOtherProjectsSpendingNonGlobal sel o,
      ∃ m ∈ sel.topMinistries, e.1.id = NodeId.projectSpendingOther m.id ∧
        e.2.source = NodeId.projectBudgetOther m.id ∧
        e.2.target = NodeId.projectSpendingOther m.id ∧
        mapGetD sel.otherProjectsBudgetByMinistry m.name 0 > 0 ∧
        ¬ truthy o.targetProjectName = true := by
  intro e he
  unfold stdOtherProjectsSpendingNonGlobal at he
  split at he
  · cases he
  · obtain ⟨m, hm, hf⟩ := List.mem_filterMap.1 he
    dsimp only at hf
    split at hf
    · rename_i hcond
      cases hf
      exact ⟨m, hm, rfl, rfl, rfl, hcond.1, hcond.2⟩
    · cases hf

/-- A positive leftover-budget entry yields the leftover-budget node of the
non-Global views. -/
theorem node_otherProjectsBudget (sel : DataSelection) (o : BuildOptions)
    (hng : isGlobalView o = false) (htp : truthy o.targetProjectName = false)
    (m : TopMinistry) (hm : m ∈ sel.topMinistries)
    (hpos : mapGetD sel.otherProjectsBudgetByMinistry m.name 0 > 0) :
    ∃ n ∈ (stdOtherProjectsBudgetNonGlobal sel o).map (fun e => e.1),
      n.id = NodeId.projectBudgetOther m.id := by
  unfold stdOtherProjectsBudgetNonGlobal
  simp only [hng, Bool.false_eq_true, if_false]
  rcases hmg : mapGet sel.otherProjectsBudgetByMinistry m.name with _ | v
  · rw [mapGetD, hmg, Option.getD_none] at hpos
    exact absurd hpos (lt_irrefl 0)
  · rw [mapGetD, hmg, Option.getD_some] at hpos
    have hmem : ((⟨NodeId.projectBudgetOther m.id, s!"事業(Top{o.projectLimit}以外)",
          NodeKind.projectBudget, v, none⟩ : SankeyNode),
        (⟨NodeId.ministryBudget m.id, NodeId.projectBudgetOther m.id, v⟩ : SankeyLink)) ∈
        sel.topMinistries.filterMap (fun ministry =>
          match mapGet sel.otherProjectsBudgetByMinistry ministry.name with
          | some otherBudget =>
            if otherBudget ≠ 0 ∧ otherBudget > 0 ∧ ¬ truthy o.targetProjectName then
              some ({ id := .projectBudgetOther ministry.id,
                      name := s!"事業(Top{o.projectLimit}以外)",
                      type := .projectBudget, value := otherBudget },
                    { source := .ministryBudget ministry.id,
                      target := .projectBudgetOther ministry.id, value := otherBudget })
            else none
          | none => none) := by
      refine List.mem_filterMap.2 ⟨m, hm, ?_⟩
      simp only [hmg]
      rw [if_pos ⟨ne_of_gt hpos, hpos, by simp [htp]⟩]
    exact ⟨_, List.mem_map.2 ⟨_, hmem, rfl⟩, rfl⟩

/-- Keys of the data-set-wide Other-named map belong to projects with at
least one destination. -/
theorem otherNamedAll_keys (data : RS2024StructuredData) :
    ∀ e ∈ otherNamedSpendingByProjectAll data,
      ∃ q ∈ data.budgets, q.projectId = e.1 ∧ q.spendingIds ≠ [] := by
  unfold otherNamedSpendingByProjectAll
  refine foldl_inv (fun (m : List (Int × Money)) => ∀ e ∈ m,
      ∃ q ∈ data.budgets, q.projectId = e.1 ∧ q.spendingIds ≠ [])
    _ _ ?_ _ (fun e he => absurd he (List.not_mem_nil e))
  intro acc x hx hacc e he
  dsimp only at he
  split at he
  · rename_i htot
    rcases mem_mapSet _ _ _ e he with rfl | h
    · refine ⟨x, hx, rfl, ?_⟩
      intro hnil
      rw [hnil] at htot
      have hfil : data.spendings.filter
          (fun s => ([] : List Int).contains s.spendingId) = [] := by
        simp
      rw [hfil] at htot
      simp [sumBy] at htot
    · exact hacc e h
  · exact hacc e he

/-- The Ministry-view kept recipient ids (the `topSpendingIds` of source
lines 1545-1547). -/
def ministryTopSpendingIds (data : RS2024StructuredData) (o : SelectOptions)
    (targetMinistryName : String) : List Int :=
  ((sortByDesc (fun e => e.2) (ministryPageSpendingMap data o targetMinistryName)).take
    o.spendingLimit).map (fun e => e.1)

/-- The Ministry-view per-project leftover spending map (source lines
1549-1567). -/
def ministryOtherSpendingsByProject (data : RS2024StructuredData) (o : SelectOptions)
    (targetMinistryName : String) : List (Int × Money) :=
  (ministryTopProjects data o targetMinistryName).foldl (fun m project =>
    let projectSpendings :=
      (data.spendings.filter (fun s => project.spendingIds.contains s.spendingId)).filter
        (fun s => s.spendingName ≠ otherName)
    let otherSpendingTotal := sumBy
      (fun s =>
        if (ministryTopSpendingIds data o targetMinistryName).contains s.spendingId then 0
        else ((s.projects.find? (fun p => p.projectId = project.projectId)).map
          (·.amount)).getD 0)
      projectSpendings
    if otherSpendingTotal > 0 then mapSet m project.projectId otherSpendingTotal else m) []

theorem selectMinistryView_topProjects (data : RS2024StructuredData) (o : SelectOptions)
    (tm : String) (mi : MinistryNode) :
    (selectMinistryView data o tm mi).topProjects = ministryTopProjects data o tm := rfl

theorem selectMinistryView_otherSpendings (data : RS2024StructuredData) (o : SelectOptions)
    (tm : String) (mi : MinistryNode) :
    (selectMinistryView data o tm mi).otherSpendingsByProject =
      ministryOtherSpendingsByProject data o tm := rfl

theorem ministryTopProjects_subset (data : RS2024StructuredData) (o : SelectOptions)
    (tm : String) : ∀ p ∈ ministryTopProjects data o tm, p ∈ data.budgets := by
  intro p hp
  exact List.mem_of_mem_filter ((sortByDesc_perm _ _).subset
    (List.mem_of_mem_drop (List.mem_of_mem_take hp)))

/-- Keys of the Ministry-view leftover spending map belong to kept projects
with at least one destination. -/
theorem ministryOtherSpendings_keys (data : RS2024StructuredData) (o : SelectOptions)
    (tm : String) :
    ∀ e ∈ ministryOtherSpendingsByProject data o tm,
      ∃ p ∈ ministryTopProjects data o tm, p.projectId = e.1 ∧ p.spendingIds ≠ [] := by
  unfold ministryOtherSpendingsByProject
  refine foldl_inv (fun (m : List (Int × Money)) => ∀ e ∈ m,
      ∃ p ∈ ministryTopProjects data o tm, p.projectId = e.1 ∧ p.spendingIds ≠ [])
    _ _ ?_ _ (fun e he => absurd he (List.not_mem_nil e))
  intro acc x hx hacc e he
  dsimp only at he
  split at he
  · rename_i htot
    rcases mem_mapSet _ _ _ e he with rfl | h
    · refine ⟨x, hx, rfl, ?_⟩
      intro hnil
      rw [hnil] at htot
      have hfil : data.spendings.filter
          (fun s => ([] : List Int).contains s.spendingId) = [] := by
        simp
      rw [hfil] at htot
      simp [sumBy] at htot
    · exact hacc e h
  · exact hacc e he

/-- The Project-view per-recipient amounts, sorted (source lines 1596-1605). -/
def projectSortedSpendings (data : RS2024StructuredData)
    (project : BudgetRecord) : List (SpendingRecord × Money) :=
  sortByDesc (fun e => e.2)
    (((data.spendings.filter (fun s => project.spendingIds.contains s.spendingId)).filter
      (fun s => s.spendingName ≠ otherName)).map
      (fun s =>
        (s, ((s.projects.find? (fun p => p.projectId = project.projectId)).map
          (·.amount)).getD 0)))

/-- The Project-view per-project leftover spending map (source lines
1606-1611; the view keeps exactly one project). -/
def projectOtherSpendingsByProject (data : RS2024StructuredData) (o : SelectOptions)
    (project : BudgetRecord) : List (Int × Money) :=
  if sumBy (fun e => e.2) ((projectSortedSpendings data project).drop o.spendingLimit) > 0
  then
    mapSet [] project.projectId
      (sumBy (fun e => e.2) ((projectSortedSpendings data project).drop o.spendingLimit))
  else []

theorem selectProjectView_topProjects (data : RS2024StructuredData) (o : SelectOptions)
    (project : BudgetRecord) :
    (selectProjectView data o project).topProjects = [project] := rfl

theorem selectProjectView_otherSpendings (data : RS2024StructuredData) (o : SelectOptions)
    (project : BudgetRecord) :
    (selectProjectView data o project).otherSpendingsByProject =
      projectOtherSpendingsByProject data o project := rfl

/-- The Project-view leftover map is keyed by the focus project, and only
when it has destinations. -/
theorem projectOtherSpendings_keys (data : RS2024StructuredData) (o : SelectOptions)
    (project : BudgetRecord) :
    ∀ e ∈ projectOtherSpendingsByProject data o project,
      e.1 = project.projectId ∧ project.spendingIds ≠ [] := by
  intro e he
  unfold projectOtherSpendingsByProject at he
  split at he
  · rename_i hpos
    rcases mem_mapSet _ _ _ e he with rfl | h
    · refine ⟨rfl, ?_⟩
      intro hnil
      unfold projectSortedSpendings at hpos
      rw [hnil] at hpos
      have hfil : data.spendings.filter
          (fun s => ([] : List Int).contains s.spendingId) = [] := by
        simp
      rw [hfil] at hpos
      simp [sortByDesc, List.insertionSort, sumBy] at hpos
    · cases h
  · cases he

/-- Raw-link endpoint closure of the Ministry view. -/
theorem ministryRawEndpoints (data : RS2024StructuredData) (so : SelectOptions)
    (bo : BuildOptions) (tm : String) (mi : MinistryNode)
    (hlink : ∀ s ∈ data.spendings, ∀ c ∈ s.projects, ∀ p ∈ data.budgets,
      p.projectId = c.projectId → s.spendingId ∈ p.spendingIds)
    (hpidn : (data.budgets.map (fun b => b.projectId)).Nodup)
    (htm : truthy bo.targetMinistryName = true)
    (htp : truthy bo.targetProjectName = false)
    (htr : truthy bo.targetRecipientName = false) :
    ∀ l ∈ stdRawLinks (selectMinistryView data so tm mi) data bo,
      (∃ n ∈ stdRawNodes (selectMinistryView data so tm mi) data bo, n.id = l.source) ∧
      (∃ n ∈ stdRawNodes (selectMinistryView data so tm mi) data bo, n.id = l.target) := by
  have hng : isGlobalView bo = false := by simp [isGlobalView, htm]
  set sel := selectMinistryView data so tm mi with hsel
  clear_value sel
  have hTP : sel.topProjects = ministryTopProjects data so tm := by
    rw [hsel, selectMinistryView_topProjects]
  have hTSf : sel.topSpendings = data.spendings.filter
      (fun s => (ministryTopSpendingIds data so tm).contains s.spendingId) := by
    rw [hsel, selectMinistryView_topSpendings]
    rfl
  have hOS : sel.otherSpendingsByProject = ministryOtherSpendingsByProject data so tm := by
    rw [hsel, selectMinistryView_otherSpendings]
  have hON : sel.otherNamedSpendingByProject = otherNamedSpendingByProjectAll data := by
    rw [hsel]
    rfl
  have hS1 : ∀ p ∈ sel.topProjects, p ∈ data.budgets := by
    intro p hp
    rw [hTP] at hp
    exact ministryTopProjects_subset data so tm p hp
  have hS2 : ∀ s ∈ sel.topSpendings, s ∈ data.spendings := by
    intro s hs
    rw [hTSf] at hs
    exact List.mem_of_mem_filter hs
  have hS3 : ∀ e ∈ sel.otherSpendingsByProject,
      ∃ p ∈ sel.topProjects, p.projectId = e.1 ∧ p.spendingIds ≠ [] := by
    intro e he
    rw [hOS] at he
    obtain ⟨p, hp, hpe⟩ := ministryOtherSpendings_keys data so tm e he
    exact ⟨p, by rw [hTP]; exact hp, hpe⟩
  have hS4 : ∀ e ∈ sel.otherNamedSpendingByProject,
      ∃ q ∈ data.budgets, q.projectId = e.1 ∧ q.spendingIds ≠ [] := by
    intro e he
    rw [hON] at he
    exact otherNamedAll_keys data e he
  intro l hl
  simp only [stdRawLinks, hng, Bool.false_eq_true, if_false, List.mem_append] at hl
  rcases hl with
    ((((((((((((h | h) | h) | h) | h) | h) | h) | h) | h) | h) | h) | h) | h)
  · -- group 1: empty (target ministry set)
    unfold stdLinksTotalToMinistries at h
    rw [if_pos (Or.inl htm)] at h
    cases h
  · -- group 2: ministry → project-budget
    rw [stdLinksIntoProjectBudgets_of_notP sel bo htp] at h
    obtain ⟨p, hp, hfp⟩ := List.mem_filterMap.1 h
    have htarget : ∃ n ∈ stdRawNodes sel data bo, n.id = NodeId.projectBudget p.projectId := by
      obtain ⟨n, hn, hid⟩ := node_projectBudget sel p hp
      exact ⟨n, mem_raw_of_before sel data bo n (mem_before_projectBudget sel bo n hn), hid⟩
    rcases heq : sel.topMinistries.find? (fun m => m.name = p.ministry) with _ | ministry <;>
      simp only [heq] at hfp
    · split at hfp
      · rename_i hcond
        exact absurd hcond.1 (by simp [hng])
      · cases hfp
    · cases hfp
      refine ⟨?_, htarget⟩
      obtain ⟨n, hn, hid⟩ :=
        node_ministry sel bo htp ministry (List.mem_of_find?_eq_some heq)
      exact ⟨n, mem_raw_of_before sel data bo n (mem_before_ministry sel bo n hn), hid⟩
  · -- group 3: ministry → per-ministry leftover budget
    obtain ⟨e, he, rfl⟩ := List.mem_map.1 h
    obtain ⟨m, hm, hid1, hsrc, htgt⟩ := otherProjectsBudget_pairs sel bo e he
    constructor
    · obtain ⟨n, hn, hid⟩ := node_ministry sel bo htp m hm
      exact ⟨n, mem_raw_of_before sel data bo n (mem_before_ministry sel bo n hn),
        by rw [hid, hsrc]⟩
    · exact ⟨e.1, mem_raw_of_before sel data bo e.1
        (mem_before_otherProjectsBudget sel bo e.1 (List.mem_map.2 ⟨e, he, rfl⟩)),
        by rw [hid1, htgt]⟩
  · -- group 4: empty (non-Global)
    rw [show stdGlobalOtherBudgetLinks sel bo = [] from by
      simp [stdGlobalOtherBudgetLinks, hng]] at h
    cases h
  · -- group 5: project budget → project spending
    obtain ⟨p, hpS, rfl⟩ := List.mem_map.1 h
    have hp : p ∈ sel.topProjects := (List.mem_filter.1 hpS).1
    have hne : p.spendingIds ≠ [] := by
      have := (List.mem_filter.1 hpS).2
      simpa [List.length_eq_zero] using this
    constructor
    · obtain ⟨n, hn, hid⟩ := node_projectBudget sel p hp
      exact ⟨n, mem_raw_of_before sel data bo n (mem_before_projectBudget sel bo n hn), hid⟩
    · obtain ⟨n, hn, hid⟩ := node_projectSpending sel p hp hne
      exact ⟨n, mem_raw_of_before sel data bo n (mem_before_projectSpending sel bo n hn), hid⟩
  · -- group 6: per-ministry leftover budget → leftover spending
    obtain ⟨e, he, rfl⟩ := List.mem_map.1 h
    obtain ⟨m, hm, hid1, hsrc, htgt, hbpos, _⟩ := otherProjectsSpending_pairs sel bo e he
    constructor
    · obtain ⟨n, hn, hid⟩ := node_otherProjectsBudget sel bo hng htp m hm hbpos
      exact ⟨n, mem_raw_of_before sel data bo n (mem_before_otherProjectsBudget sel bo n hn),
        by rw [hid, hsrc]⟩
    · exact ⟨e.1, mem_raw_of_before sel data bo e.1
        (mem_before_otherProjectsSpending sel bo e.1 (List.mem_map.2 ⟨e, he, rfl⟩)),
        by rw [hid1, htgt]⟩
  · -- group 7: empty (non-Global)
    rw [show stdGlobalOtherSpendingLinks sel bo = [] from by
      simp [stdGlobalOtherSpendingLinks, hng]] at h
    cases h
  · -- group 8: project spending → recipient
    unfold stdNonGlobalRecipientLinks at h
    obtain ⟨project, hproj, hin⟩ := List.mem_flatMap.1 h
    obtain ⟨spending, hs, hf⟩ := List.mem_filterMap.1 hin
    rcases hfind : spending.projects.find? (fun q => q.projectId = project.projectId)
      with _ | sp <;> simp only [hfind, Option.map] at hf
    · cases hf
    · cases hf
      have hsd : spending ∈ data.spendings := hS2 spending hs
      have hspp : sp ∈ spending.projects := List.mem_of_find?_eq_some hfind
      have hspid : sp.projectId = project.projectId := by
        simpa using List.find?_some hfind
      have hne : project.spendingIds ≠ [] := List.ne_nil_of_mem
        (hlink spending hsd sp hspp project (hS1 project hproj) hspid.symm)
      constructor
      · obtain ⟨n, hn, hid⟩ := node_projectSpending sel project hproj hne
        exact ⟨n, mem_raw_of_before sel data bo n (mem_before_projectSpending sel bo n hn),
          by rw [hid]⟩
      · obtain ⟨n, hn, hid⟩ := node_nonGlobalRecipient sel spending hs project hproj
          (by rw [hfind]; rfl)
        exact ⟨n, mem_raw_recipients_nonglobal sel data bo hng n hn, by rw [hid]⟩
  · -- group 9: kept projects → reserved Other-named node
    unfold stdOtherNamedLinksFromTopProjects at h
    split at h
    · rename_i htot
      obtain ⟨e, he, hf⟩ := List.mem_filterMap.1 h
      simp only [Option.ite_none_right_eq_some, Option.some.injEq] at hf
      obtain ⟨hany, _, rfl⟩ := hf
      obtain ⟨p, hp, hpid⟩ : ∃ p ∈ sel.topProjects, p.projectId = e.1 := by
        simpa [List.any_eq_true] using hany
      obtain ⟨q, hq, hqid, hqne⟩ := hS4 e he
      have hpq : p = q := map_nodup_inj hpidn (hS1 p hp) hq (by rw [hpid, hqid])
      have hne : p.spendingIds ≠ [] := by
        rw [hpq]
        exact hqne
      constructor
      · obtain ⟨n, hn, hid⟩ := node_projectSpending sel p hp hne
        exact ⟨n, mem_raw_of_before sel data bo n (mem_before_projectSpending sel bo n hn),
          by rw [hid]; simp [hpid]⟩
      · obtain ⟨n, hn, hid⟩ := node_otherNamed sel htot
        exact ⟨n, mem_raw_otherNamed sel data bo n hn, by rw [hid]⟩
    · cases h
  · -- group 10: leftover projects → reserved Other-named node
    unfold stdOtherNamedLinksFromOtherProjects at h
    split at h
    · rename_i hguard
      obtain ⟨e, he, hf⟩ := List.mem_filterMap.1 h
      simp only [Option.ite_none_right_eq_some, Option.some.injEq] at hf
      obtain ⟨hany, rfl⟩ := hf
      constructor
      · obtain ⟨n, hn, hid⟩ : ∃ n ∈ stdNodesBeforeRecipients sel bo,
            n.id = NodeId.projectSpendingOther e.1 := by
          simpa [List.any_eq_true] using hany
        exact ⟨n, mem_raw_of_before sel data bo n hn, by rw [hid]⟩
      · obtain ⟨n, hn, hid⟩ := node_otherNamed sel hguard.1
        exact ⟨n, mem_raw_otherNamed sel data bo n hn, by rw [hid]⟩
    · cases h
  · -- group 11: leftover spending node → kept recipients
    unfold stdOtherToTopRecipientLinks at h
    split at h
    · cases h
    · obtain ⟨ministry, _, hin⟩ := List.mem_flatMap.1 h
      obtain ⟨spending, hs, hf⟩ := List.mem_filterMap.1 hin
      simp only [Option.ite_none_right_eq_some, Option.some.injEq] at hf
      obtain ⟨⟨hamt, hrec, hexists⟩, rfl⟩ := hf
      constructor
      · obtain ⟨n, hn, hid⟩ : ∃ n ∈ stdNodesBeforeRecipients sel bo,
            n.id = NodeId.projectSpendingOther ministry.id := by
          simpa [List.any_eq_true] using hexists
        exact ⟨n, mem_raw_of_before sel data bo n hn, by rw [hid]⟩
      · obtain ⟨p, hp, hpany⟩ : ∃ p ∈ sel.topProjects,
            spending.projects.any (fun sp => sp.projectId = p.projectId) = true := by
          simpa [List.any_eq_true] using hrec
        have hfind : (spending.projects.find?
            (fun q => q.projectId = p.projectId)).isSome = true := by
          rw [List.find?_isSome]
          simpa [List.any_eq_true] using hpany
        obtain ⟨n, hn, hid⟩ := node_nonGlobalRecipient sel spending hs p hp hfind
        exact ⟨n, mem_raw_recipients_nonglobal sel data bo hng n hn, by rw [hid]⟩
  · -- group 12: the leftover-recipients section
    unfold stdAggLinks at h
    simp only [hng, Bool.false_eq_true, if_false] at h
    split at h
    · rename_i htotal
      have haggN : ∃ n ∈ stdRawNodes sel data bo,
          n.id = NodeId.recipientOtherAggregated := by
        obtain ⟨n, hn, hid⟩ := node_aggregated sel data bo _ htotal
        exact ⟨n, mem_raw_aggregated sel data bo n hn, hid⟩
      rcases List.mem_append.1 h with h1 | h1
      · unfold stdNonGlobalAggLinksFromOtherProjects at h1
        split at h1
        · cases h1
        · obtain ⟨ministry, _, hf⟩ := List.mem_filterMap.1 h1
          simp only [Option.ite_none_right_eq_some, Option.some.injEq] at hf
          obtain ⟨⟨hamt, hexists⟩, rfl⟩ := hf
          constructor
          · obtain ⟨n, hn, hid⟩ : ∃ n ∈ stdNodesBeforeRecipients sel bo,
                n.id = NodeId.projectSpendingOther ministry.id := by
              simpa [List.any_eq_true] using hexists
            exact ⟨n, mem_raw_of_before sel data bo n hn, by rw [hid]⟩
          · obtain ⟨n, hn, hid⟩ := haggN
            exact ⟨n, hn, by rw [hid]⟩
      · unfold stdNonGlobalAggLinksFromSelected at h1
        obtain ⟨e, he, hf⟩ := List.mem_filterMap.1 h1
        simp only [Option.ite_none_right_eq_some, Option.some.injEq] at hf
        obtain ⟨-, rfl⟩ := hf
        obtain ⟨p, hp, hpid, hne⟩ := hS3 e he
        constructor
        · obtain ⟨n, hn, hid⟩ := node_projectSpending sel p hp hne
          exact ⟨n, mem_raw_of_before sel data bo n (mem_before_projectSpending sel bo n hn),
            by rw [hid]; simp [hpid]⟩
        · obtain ⟨n, hn, hid⟩ := haggN
          exact ⟨n, hn, by rw [hid]⟩
    · cases h
  · -- group 13: sentinel links into the no-destination node
    unfold stdNoSpendingLinks at h
    split at h
    · obtain ⟨p, hp, rfl⟩ := List.mem_map.1 h
      constructor
      · obtain ⟨n, hn, hid⟩ := node_projectBudget sel p (List.mem_of_mem_filter hp)
        exact ⟨n, mem_raw_of_before sel data bo n (mem_before_projectBudget sel bo n hn), hid⟩
      · obtain ⟨n, hn, hid⟩ := node_noSpending sel p hp
        exact ⟨n, mem_raw_noSpending sel data bo n hn, hid⟩
    · cases h

/-- Raw-link endpoint closure of the Project view. -/
theorem projectRawEndpoints (data : RS2024StructuredData) (so : SelectOptions)
    (bo : BuildOptions) (project : BudgetRecord) (hproj : project ∈ data.budgets)
    (hlink : ∀ s ∈ data.spendings, ∀ c ∈ s.projects, ∀ p ∈ data.budgets,
      p.projectId = c.projectId → s.spendingId ∈ p.spendingIds)
    (hpidn : (data.budgets.map (fun b => b.projectId)).Nodup)
    (htm : truthy bo.targetMinistryName = false)
    (htp : truthy bo.targetProjectName = true)
    (htr : truthy bo.targetRecipientName = false) :
    ∀ l ∈ stdRawLinks (selectProjectView data so project) data bo,
      (∃ n ∈ stdRawNodes (selectProjectView data so project) data bo, n.id = l.source) ∧
      (∃ n ∈ stdRawNodes (selectProjectView data so project) data bo, n.id = l.target) := by
  have hng : isGlobalView bo = false := by simp [isGlobalView, htp]
  set sel := selectProjectView data so project with hsel
  clear_value sel
  have hTPr : sel.topProjects = [project] := by
    rw [hsel, selectProjectView_topProjects]
  have hTSf : sel.topSpendings = data.spendings.filter
      (fun s => (projectTopSpendingIds data so project).contains s.spendingId) := by
    rw [hsel, selectProjectView_topSpendings]
  have hOS : sel.otherSpendingsByProject = projectOtherSpendingsByProject data so project := by
    rw [hsel, selectProjectView_otherSpendings]
  have hON : sel.otherNamedSpendingByProject = otherNamedSpendingByProjectAll data := by
    rw [hsel]
    rfl
  have hS1 : ∀ p ∈ sel.topProjects, p ∈ data.budgets := by
    intro p hp
    rw [hTPr, List.mem_singleton] at hp
    subst hp
    exact hproj
  have hS2 : ∀ s ∈ sel.topSpendings, s ∈ data.spendings := by
    intro s hs
    rw [hTSf] at hs
    exact List.mem_of_mem_filter hs
  have hS3 : ∀ e ∈ sel.otherSpendingsByProject,
      ∃ p ∈ sel.topProjects, p.projectId = e.1 ∧ p.spendingIds ≠ [] := by
    intro e he
    rw [hOS] at he
    obtain ⟨hid, hne⟩ := projectOtherSpendings_keys data so project e he
    exact ⟨project, by rw [hTPr]; exact List.mem_singleton_self _, hid.symm, hne⟩
  have hS4 : ∀ e ∈ sel.otherNamedSpendingByProject,
      ∃ q ∈ data.budgets, q.projectId = e.1 ∧ q.spendingIds ≠ [] := by
    intro e he
    rw [hON] at he
    exact otherNamedAll_keys data e he
  intro l hl
  simp only [stdRawLinks, hng, Bool.false_eq_true, if_false, List.mem_append] at hl
  rcases hl with
    ((((((((((((h | h) | h) | h) | h) | h) | h) | h) | h) | h) | h) | h) | h)
  · -- group 1: empty (target project set)
    unfold stdLinksTotalToMinistries at h
    rw [if_pos (Or.inr htp)] at h
    cases h
  · -- group 2: total-budget → project-budget
    obtain ⟨p, hp, hfp⟩ := List.mem_filterMap.1 h
    rw [if_pos htp] at hfp
    cases hfp
    constructor
    · obtain ⟨n, hn, hid⟩ := node_total sel bo htm
      exact ⟨n, mem_raw_of_before sel data bo n (mem_before_total sel bo n hn), hid⟩
    · obtain ⟨n, hn, hid⟩ := node_projectBudget sel p hp
      exact ⟨n, mem_raw_of_before sel data bo n (mem_before_projectBudget sel bo n hn), hid⟩
  · -- group 3: empty (per-entry guard excludes the Project view)
    obtain ⟨e, he, rfl⟩ := List.mem_map.1 h
    unfold stdOtherProjectsBudgetNonGlobal at he
    split at he
    · cases he
    · obtain ⟨m, hm, hf⟩ := List.mem_filterMap.1 he
      rcases hmg : mapGet sel.otherProjectsBudgetByMinistry m.name with _ | v <;>
        simp only [hmg] at hf
      · cases hf
      · split at hf
        · rename_i hcond
          exact absurd htp (by simpa using hcond.2.2)
        · cases hf
  · -- group 4: empty (non-Global)
    rw [show stdGlobalOtherBudgetLinks sel bo = [] from by
      simp [stdGlobalOtherBudgetLinks, hng]] at h
    cases h
  · -- group 5: project budget → project spending
    obtain ⟨p, hpS, rfl⟩ := List.mem_map.1 h
    have hp : p ∈ sel.topProjects := (List.mem_filter.1 hpS).1
    have hne : p.spendingIds ≠ [] := by
      have := (List.mem_filter.1 hpS).2
      simpa [List.length_eq_zero] using this
    constructor
    · obtain ⟨n, hn, hid⟩ := node_projectBudget sel p hp
      exact ⟨n, mem_raw_of_before sel data bo n (mem_before_projectBudget sel bo n hn), hid⟩
    · obtain ⟨n, hn, hid⟩ := node_projectSpending sel p hp hne
      exact ⟨n, mem_raw_of_before sel data bo n (mem_before_projectSpending sel bo n hn), hid⟩
  · -- group 6: empty (per-entry guard excludes the Project view)
    obtain ⟨e, he, rfl⟩ := List.mem_map.1 h
    obtain ⟨m, hm, _, _, _, _, hntp⟩ := otherProjectsSpending_pairs sel bo e he
    exact absurd htp hntp
  · -- group 7: empty (non-Global)
    rw [show stdGlobalOtherSpendingLinks sel bo = [] from by
      simp [stdGlobalOtherSpendingLinks, hng]] at h
    cases h
  · -- group 8: project spending → recipient
    unfold stdNonGlobalRecipientLinks at h
    obtain ⟨p, hproj2, hin⟩ := List.mem_flatMap.1 h
    obtain ⟨spending, hs, hf⟩ := List.mem_filterMap.1 hin
    rcases hfind : spending.projects.find? (fun q => q.projectId = p.projectId)
      with _ | sp <;> simp only [hfind, Option.map] at hf
    · cases hf
    · cases hf
      have hsd : spending ∈ data.spendings := hS2 spending hs
      have hspp : sp ∈ spending.projects := List.mem_of_find?_eq_some hfind
      have hspid : sp.projectId = p.projectId := by
        simpa using List.find?_some hfind
      have hne : p.spendingIds ≠ [] := List.ne_nil_of_mem
        (hlink spending hsd sp hspp p (hS1 p hproj2) hspid.symm)
      constructor
      · obtain ⟨n, hn, hid⟩ := node_projectSpending sel p hproj2 hne
        exact ⟨n, mem_raw_of_before sel data bo n (mem_before_projectSpending sel bo n hn),
          by rw [hid]⟩
      · obtain ⟨n, hn, hid⟩ := node_nonGlobalRecipient sel spending hs p hproj2
          (by rw [hfind]; rfl)
        exact ⟨n, mem_raw_recipients_nonglobal sel data bo hng n hn, by rw [hid]⟩
  · -- group 9: kept projects → reserved Other-named node
    unfold stdOtherNamedLinksFromTopProjects at h
    split at h
    · rename_i htot
      obtain ⟨e, he, hf⟩ := List.mem_filterMap.1 h
      simp only [Option.ite_none_right_eq_some, Option.some.injEq] at hf
      obtain ⟨hany, _, rfl⟩ := hf
      obtain ⟨p, hp, hpid⟩ : ∃ p ∈ sel.topProjects, p.projectId = e.1 := by
        simpa [List.any_eq_true] using hany
      obtain ⟨q, hq, hqid, hqne⟩ := hS4 e he
      have hpq : p = q := map_nodup_inj hpidn (hS1 p hp) hq (by rw [hpid, hqid])
      have hne : p.spendingIds ≠ [] := by
        rw [hpq]
        exact hqne
      constructor
      · obtain ⟨n, hn, hid⟩ := node_projectSpending sel p hp hne
        exact ⟨n, mem_raw_of_before sel data bo n (mem_before_projectSpending sel bo n hn),
          by rw [hid]; simp [hpid]⟩
      · obtain ⟨n, hn, hid⟩ := node_otherNamed sel htot
        exact ⟨n, mem_raw_otherNamed sel data bo n hn, by rw [hid]⟩
    · cases h
  · -- group 10: empty (guard excludes the Project view)
    unfold stdOtherNamedLinksFromOtherProjects at h
    split at h
    · rename_i hguard
      exact absurd htp (by simpa using hguard.2.1)
    · cases h
  · -- group 11: empty (guard excludes the Project view)
    unfold stdOtherToTopRecipientLinks at h
    split at h
    · cases h
    · rename_i hneg
      exact absurd (Or.inr (Or.inl htp)) hneg
  · -- group 12: the leftover-recipients section
    unfold stdAggLinks at h
    simp only [hng, Bool.false_eq_true, if_false] at h
    split at h
    · rename_i htotal
      have haggN : ∃ n ∈ stdRawNodes sel data bo,
          n.id = NodeId.recipientOtherAggregated := by
        obtain ⟨n, hn, hid⟩ := node_aggregated sel data bo _ htotal
        exact ⟨n, mem_raw_aggregated sel data bo n hn, hid⟩
      rcases List.mem_append.1 h with h1 | h1
      · unfold stdNonGlobalAggLinksFromOtherProjects at h1
        split at h1
        · cases h1
        · rename_i hneg
          exact absurd (Or.inl htp) hneg
      · unfold stdNonGlobalAggLinksFromSelected at h1
        obtain ⟨e, he, hf⟩ := List.mem_filterMap.1 h1
        simp only [Option.ite_none_right_eq_some, Option.some.injEq] at hf
        obtain ⟨-, rfl⟩ := hf
        obtain ⟨p, hp, hpid, hne⟩ := hS3 e he
        constructor
        · obtain ⟨n, hn, hid⟩ := node_projectSpending sel p hp hne
          exact ⟨n, mem_raw_of_before sel data bo n (mem_before_projectSpending sel bo n hn),
            by rw [hid]; simp [hpid]⟩
        · obtain ⟨n, hn, hid⟩ := haggN
          exact ⟨n, hn, by rw [hid]⟩
    · cases h
  · -- group 13: sentinel links into the no-destination node
    unfold stdNoSpendingLinks at h
    split at h
    · obtain ⟨p, hp, rfl⟩ := List.mem_map.1 h
      constructor
      · obtain ⟨n, hn, hid⟩ := node_projectBudget sel p (List.mem_of_mem_filter hp)
        exact ⟨n, mem_raw_of_before sel data bo n (mem_before_projectBudget sel bo n hn), hid⟩
      · obtain ⟨n, hn, hid⟩ := node_noSpending sel p hp
        exact ⟨n, mem_raw_noSpending sel data bo n hn, hid⟩
    · cases h

/-- Claim C10, amended.  The Spending view can emit dangling edges (see the
counterexample): its ministry → project links carry no positivity guard
while the project nodes do, and the view returns before pruning.  Every
other view is endpoint-closed.  For a well-formed store whose
spending → project references agree with the projects' `spendingIds` lists
and whose project ids are duplicate-free: in Global, Ministry and Project
mode every raw link's source and target id is the id of a pushed node, and
the pruned emitted graph keeps that closure (each surviving link keeps its
own endpoints alive through the incidence filter). -/
theorem c10_endpoints_amended (data : RS2024StructuredData) (hwf : GlobalWF data)
    (hlink : ∀ s ∈ data.spendings, ∀ c ∈ s.projects, ∀ p ∈ data.budgets,
      p.projectId = c.projectId → s.spendingId ∈ p.spendingIds)
    (hpidn : (data.budgets.map (fun b => b.projectId)).Nodup) :
    (∀ so bo, truthy bo.targetMinistryName = false → truthy bo.targetProjectName = false →
      truthy bo.targetRecipientName = false →
      (∀ l ∈ stdRawLinks (selectGlobalView data so) data bo,
        (∃ n ∈ stdRawNodes (selectGlobalView data so) data bo, n.id = l.source) ∧
        (∃ n ∈ stdRawNodes (selectGlobalView data so) data bo, n.id = l.target)) ∧
      (∀ l ∈ (buildSankeyData (selectGlobalView data so) data bo).links,
        (∃ n ∈ (buildSankeyData (selectGlobalView data so) data bo).nodes,
          n.id = l.source) ∧
        (∃ n ∈ (buildSankeyData (selectGlobalView data so) data bo).nodes,
          n.id = l.target))) ∧
    (∀ so bo tm mi, truthy bo.targetMinistryName = true →
      truthy bo.targetProjectName = false → truthy bo.targetRecipientName = false →
      (∀ l ∈ stdRawLinks (selectMinistryView data so tm mi) data bo,
        (∃ n ∈ stdRawNodes (selectMinistryView data so tm mi) data bo, n.id = l.source) ∧
        (∃ n ∈ stdRawNodes (selectMinistryView data so tm mi) data bo, n.id = l.target)) ∧
      (∀ l ∈ (buildSankeyData (selectMinistryView data so tm mi) data bo).links,
        (∃ n ∈ (buildSankeyData (selectMinistryView data so tm mi) data bo).nodes,
          n.id = l.source) ∧
        (∃ n ∈ (buildSankeyData (selectMinistryView data so tm mi) data bo).nodes,
          n.id = l.target))) ∧
    (∀ so bo project, project ∈ data.budgets → truthy bo.targetMinistryName = false →
      truthy bo.targetProjectName = true → truthy bo.targetRecipientName = false →
      (∀ l ∈ stdRawLinks (selectProjectView data so project) data bo,
        (∃ n ∈ stdRawNodes (selectProjectView data so project) data bo, n.id = l.source) ∧
        (∃ n ∈ stdRawNodes (selectProjectView data so project) data bo, n.id = l.target)) ∧
      (∀ l ∈ (buildSankeyData (selectProjectView data so project) data bo).links,
        (∃ n ∈ (buildSankeyData (selectProjectView data so project) data bo).nodes,
          n.id = l.source) ∧
        (∃ n ∈ (buildSankeyData (selectProjectView data so project) data bo).nodes,
          n.id = l.target))) := by
  refine ⟨fun so bo htm htp htr => ⟨globalRawEndpoints data so bo hwf hlink htm htp htr, ?_⟩,
    fun so bo tm mi htm htp htr =>
      ⟨ministryRawEndpoints data so bo tm mi hlink hpidn htm htp htr, ?_⟩,
    fun so bo project hproj htm htp htr =>
      ⟨projectRawEndpoints data so bo project hproj hlink hpidn htm htp htr, ?_⟩⟩
  · unfold buildSankeyData
    rw [htr]
    simp only [Bool.false_eq_true, if_false]
    exact pruneSankey_endpoint _ _ (globalRawEndpoints data so bo hwf hlink htm htp htr)
  · unfold buildSankeyData
    rw [htr]
    simp only [Bool.false_eq_true, if_false]
    exact pruneSankey_endpoint _ _
      (ministryRawEndpoints data so bo tm mi hlink hpidn htm htp htr)
  · unfold buildSankeyData
    rw [htr]
    simp only [Bool.false_eq_true, if_false]
    exact pruneSankey_endpoint _ _
      (projectRawEndpoints data so bo project hproj hlink hpidn htm htp htr)

/-- C10 witness requests: Ministry view of A and Project view of P1 over the
shared example store. -/
def c10MSelOpts : SelectOptions := ⟨0, 0, 2, 1, 1, some "A", none, none, 0⟩

def c10MBuildOpts : BuildOptions := ⟨0, some "A", none, none, 2, 1, 1, 0⟩

def c10PSelOpts : SelectOptions := ⟨0, 0, 2, 1, 1, none, some "P1", none, 0⟩

def c10PBuildOpts : BuildOptions := ⟨0, none, some "P1", none, 2, 1, 1, 0⟩

theorem c10_witness :
    (∀ l ∈ (buildSankeyData (selectGlobalView exData exSelOpts) exData exBuildOpts).links,
      (∃ n ∈ (buildSankeyData (selectGlobalView exData exSelOpts) exData exBuildOpts).nodes,
        n.id = l.source) ∧
      (∃ n ∈ (buildSankeyData (selectGlobalView exData exSelOpts) exData exBuildOpts).nodes,
        n.id = l.target)) ∧
    (∀ l ∈ (buildSankeyData (selectMinistryView exData c10MSelOpts "A" exMinistryA)
        exData c10MBuildOpts).links,
      (∃ n ∈ (buildSankeyData (selectMinistryView exData c10MSelOpts "A" exMinistryA)
        exData c10MBuildOpts).nodes, n.id = l.source) ∧
      (∃ n ∈ (buildSankeyData (selectMinistryView exData c10MSelOpts "A" exMinistryA)
        exData c10MBuildOpts).nodes, n.id = l.target)) ∧
    (∀ l ∈ (buildSankeyData (selectProjectView exData c10PSelOpts exProjectP1)
        exData c10PBuildOpts).links,
      (∃ n ∈ (buildSankeyData (selectProjectView exData c10PSelOpts exProjectP1)
        exData c10PBuildOpts).nodes, n.id = l.source) ∧
      (∃ n ∈ (buildSankeyData (selectProjectView exData c10PSelOpts exProjectP1)
        exData c10PBuildOpts).nodes, n.id = l.target)) := by
  have h := c10_endpoints_amended exData
    ⟨by decide, by decide, by decide, by decide, by decide⟩ (by decide) (by decide)
  exact ⟨(h.1 exSelOpts exBuildOpts (by decide) (by decide) (by decide)).2,
    (h.2.1 c10MSelOpts c10MBuildOpts "A" exMinistryA (by decide) (by decide) (by decide)).2,
    (h.2.2 c10PSelOpts c10PBuildOpts exProjectP1 (by decide) (by decide) (by decide)
      (by decide)).2⟩
